import Mathlib

/-!
# pick_first load-balancing policy: shallow embedding

Source: `src/core/ext/filters/client_channel/lb_policy/pick_first/pick_first.cc`.

The C++ object `PickFirst` becomes the record `PickFirst`; every member
function becomes a function on that record.  A function that can hit a
`GPR_ASSERT` returns `Option`, with `none` standing for the abort.

* Pointers to subchannel lists are compared by address in the source, so every
  list carries the identity it was allocated with (`id`), and a pointer to a
  `PickFirstSubchannelData` is the pair (identity of its list, index).
* Everything the policy calls on the ControlHelper and on subchannel entries
  is appended, in program order, to the field `calls`.
* What the outside world decides (whether a subchannel can be created, and the
  connectivity state a subchannel is in when the policy reads it) is the `Env`
  argument.
-/

namespace PickFirstModel

/-! ## Data model -/

/-- Resolver address (`ServerAddress`), identified by a number. -/
abbrev ServerAddress := Nat

/-- Handle of a pooled subchannel (`SubchannelInterface`), identified by a number. -/
abbrev SubchannelInterface := Nat

/-- Address of a heap-allocated `PickFirstSubchannelList`. -/
abbrev ListId := Nat

/-- Pointer to a `PickFirstSubchannelData`: (its list, its `Index()`). -/
abbrev SubchannelDataRef := ListId × Nat

/-- Channel arguments (`grpc_channel_args`): key/value pairs in order. -/
abbrev ChannelArgs := List (String × Int)

/-- Connectivity states, `grpc_connectivity_state`. -/
inductive grpc_connectivity_state where
  | GRPC_CHANNEL_IDLE
  | GRPC_CHANNEL_CONNECTING
  | GRPC_CHANNEL_READY
  | GRPC_CHANNEL_TRANSIENT_FAILURE
  | GRPC_CHANNEL_SHUTDOWN
  deriving DecidableEq, Repr

open grpc_connectivity_state

/-- Status codes of `absl::Status` that the policy produces or forwards. -/
inductive StatusCode where
  | kOk
  | kUnknown
  | kUnavailable
  | kOther (code : Nat)
  deriving DecidableEq, Repr

/-- Value of `absl::Status`: a code and a message. -/
structure Status where
  code : StatusCode
  message : String
  deriving DecidableEq, Repr

/-- Default-constructed `absl::Status()`, the OK status. -/
def OkStatus : Status := ⟨StatusCode.kOk, ""⟩

/-- Constructor `absl::UnavailableError(message)`. -/
def UnavailableError (message : String) : Status := ⟨StatusCode.kUnavailable, message⟩

/-- Value of `absl::StatusOr<T>`: either a value or a non-OK status. -/
inductive StatusOr (α : Type) where
  | value (v : α)
  | status (s : Status)
  deriving DecidableEq, Repr

/-- Member `StatusOr::ok()`. -/
def StatusOr.ok {α : Type} : StatusOr α → Bool
  | StatusOr.value _ => true
  | StatusOr.status _ => false

/-- Result of a pick, `PickResult`. -/
inductive PickResult where
  | Complete (subchannel : SubchannelInterface)
  | Queue
  | Fail (status : Status)
  deriving DecidableEq, Repr

/-- The three pickers the policy hands out: the policy's own `Picker`
(pick_first.cc:109-120), `QueuePicker` and `TransientFailurePicker`. -/
inductive SubchannelPicker where
  | Picker (subchannel : SubchannelInterface)
  | QueuePicker
  | TransientFailurePicker (status : Status)
  deriving DecidableEq, Repr

/-- Method `Pick(PickArgs)`.  `Picker::Pick` is pick_first.cc:114-116; the other
two are modelled from the spec (§4.2): `QueuePicker` returns `Queue`,
`TransientFailurePicker(status)` returns `Fail(status)`. -/
def SubchannelPicker.Pick {PickArgs : Type} : SubchannelPicker → PickArgs → PickResult
  | SubchannelPicker.Picker subchannel, _ => PickResult.Complete subchannel
  | SubchannelPicker.QueuePicker, _ => PickResult.Queue
  | SubchannelPicker.TransientFailurePicker status, _ => PickResult.Fail status

/-- Resolver update, `LoadBalancingPolicy::UpdateArgs`.  `config` is a
`RefCountedPtr<Config>` (`none` is `nullptr`); a config is identified by its
`name()`. -/
structure UpdateArgs where
  addresses : StatusOr (List ServerAddress)
  config : Option String
  resolution_note : String
  args : ChannelArgs
  deriving DecidableEq, Repr

/-- Modelled from the spec: `SubchannelData` of `subchannel_list.h`, which is not
among the sources.  Spec §3: an entry wraps (address, subchannel handle, current
watch state, index); the index is the position in the list.
`connectivity_state_` is the last state read through
`CheckConnectivityStateLocked`, `pending_watcher_` says whether a connectivity
watch is attached, `shutdown_` whether `ShutdownLocked` released the entry. -/
structure PickFirstSubchannelData where
  address : ServerAddress
  subchannel : SubchannelInterface
  connectivity_state_ : grpc_connectivity_state
  pending_watcher_ : Bool
  shutdown_ : Bool
  deriving DecidableEq, Repr

/-- Class `PickFirstSubchannelList` (pick_first.cc:80-107): the entries of the
base `SubchannelList` plus the flag `in_transient_failure_`.  `id` is the
address of the object. -/
structure PickFirstSubchannelList where
  id : ListId
  subchannels : List PickFirstSubchannelData
  in_transient_failure_ : Bool
  deriving DecidableEq, Repr

/-- One call made by the policy on a collaborator. -/
inductive Call where
  | UpdateState (state : grpc_connectivity_state) (status : Status) (picker : SubchannelPicker)
  | RequestReresolution
  | CheckConnectivityStateLocked (sd : SubchannelDataRef)
  | StartConnectivityWatchLocked (sd : SubchannelDataRef)
  | CancelConnectivityWatchLocked (sd : SubchannelDataRef) (reason : String)
  | RequestConnection (sd : SubchannelDataRef)
  | ShutdownLocked (sd : SubchannelDataRef)
  | ResetBackoffLocked (list : ListId)
  deriving DecidableEq, Repr

/-- What the policy cannot decide itself: `CreateSubchannel` of the
ControlHelper (`none` when creation fails) and the state a subchannel is in
when `CheckConnectivityState` is called on it. -/
structure Env where
  CreateSubchannel : ServerAddress → ChannelArgs → Option SubchannelInterface
  CheckConnectivityState : SubchannelInterface → grpc_connectivity_state

/-- Class `PickFirst` (pick_first.cc:45-138): the data members, followed by the
two bookkeeping fields of the embedding: `calls`, the log of calls on
collaborators, and `next_list`, the address the next allocated list gets. -/
structure PickFirst where
  latest_update_args_ : UpdateArgs
  subchannel_list_ : Option PickFirstSubchannelList
  latest_pending_subchannel_list_ : Option PickFirstSubchannelList
  selected_ : Option SubchannelDataRef
  idle_ : Bool
  shutdown_ : Bool
  calls : List Call
  next_list : ListId
  deriving DecidableEq, Repr

/-- A freshly constructed policy (pick_first.cc:126-137, 140): default
`UpdateArgs` (a default `StatusOr` holds an unknown-error status, `config` and
`args` are null), no lists, `selected_ = nullptr`, `idle_ = shutdown_ = false`. -/
def PickFirst.init : PickFirst :=
  { latest_update_args_ :=
      { addresses := StatusOr.status ⟨StatusCode.kUnknown, ""⟩, config := none,
        resolution_note := "", args := [] }
    subchannel_list_ := none
    latest_pending_subchannel_list_ := none
    selected_ := none
    idle_ := false
    shutdown_ := false
    calls := []
    next_list := 0 }

/-! ## Subchannel lists -/

/-- Name of the channel argument the policy writes, `GRPC_ARG_INHIBIT_HEALTH_CHECKING`. -/
def GRPC_ARG_INHIBIT_HEALTH_CHECKING : String := "grpc.inhibit_health_checking"

/-- Function `grpc_channel_args_copy_and_add`: a copy of `src` with `to_add` at the end. -/
def grpc_channel_args_copy_and_add (src to_add : ChannelArgs) : ChannelArgs := src ++ to_add

/-- Modelled from the spec: the constructor of `SubchannelList` (subchannel_list.h
is not among the sources).  Spec §4.1: one subchannel per address through
`create_subchannel`, addresses whose creation fails are dropped silently, and
`inhibit_health_checking` is added to the per-subchannel args before creation.
A new entry has no watch and is not shut down. -/
def MakeSubchannelList (env : Env) (id : ListId) (addresses : List ServerAddress)
    (args : ChannelArgs) : PickFirstSubchannelList :=
  { id := id
    subchannels := addresses.filterMap (fun address =>
      (env.CreateSubchannel address
        (grpc_channel_args_copy_and_add args [(GRPC_ARG_INHIBIT_HEALTH_CHECKING, 1)])).map
        (fun subchannel =>
          { address := address, subchannel := subchannel,
            connectivity_state_ := GRPC_CHANNEL_IDLE, pending_watcher_ := false,
            shutdown_ := false }))
    in_transient_failure_ := false }

/-- Accessor `num_subchannels()`. -/
def PickFirstSubchannelList.num_subchannels (L : PickFirstSubchannelList) : Nat :=
  L.subchannels.length

/-- Accessor `subchannel(i)`; `none` when `i` is out of range. -/
def PickFirstSubchannelList.subchannel (L : PickFirstSubchannelList) (i : Nat) :
    Option PickFirstSubchannelData :=
  L.subchannels[i]?

/-- Apply `f` to entry `i` of the list (nothing happens when `i` is out of range). -/
def PickFirstSubchannelList.modify (L : PickFirstSubchannelList) (i : Nat)
    (f : PickFirstSubchannelData → PickFirstSubchannelData) : PickFirstSubchannelList :=
  match L.subchannels[i]? with
  | some sd => { L with subchannels := L.subchannels.set i (f sd) }
  | none => L

/-! ## Access to the policy's lists through pointers -/

/-- Append one call to the log. -/
def PickFirst.call (p : PickFirst) (c : Call) : PickFirst :=
  { p with calls := p.calls ++ [c] }

/-- Test `l == p->subchannel_list_.get()`. -/
def PickFirst.isCurrent (p : PickFirst) (l : ListId) : Bool :=
  match p.subchannel_list_ with
  | some L => decide (L.id = l)
  | none => false

/-- Test `l == p->latest_pending_subchannel_list_.get()`. -/
def PickFirst.isPending (p : PickFirst) (l : ListId) : Bool :=
  match p.latest_pending_subchannel_list_ with
  | some L => decide (L.id = l)
  | none => false

/-- Dereference a list pointer: the live list stored at address `l`. -/
def PickFirst.list (p : PickFirst) (l : ListId) : Option PickFirstSubchannelList :=
  if p.isCurrent l then p.subchannel_list_
  else if p.isPending l then p.latest_pending_subchannel_list_
  else none

/-- Dereference a `PickFirstSubchannelData*`. -/
def PickFirst.subchannel_data (p : PickFirst) (sd : SubchannelDataRef) :
    Option PickFirstSubchannelData :=
  match p.list sd.1 with
  | some L => L.subchannel sd.2
  | none => none

/-- Write through a list pointer: apply `f` to the live list at address `l`. -/
def PickFirst.onList (p : PickFirst) (l : ListId)
    (f : PickFirstSubchannelList → PickFirstSubchannelList) : PickFirst :=
  { p with
    subchannel_list_ := p.subchannel_list_.map (fun L => if L.id = l then f L else L)
    latest_pending_subchannel_list_ :=
      p.latest_pending_subchannel_list_.map (fun L => if L.id = l then f L else L) }

/-- Write through a `PickFirstSubchannelData*`. -/
def PickFirst.onData (p : PickFirst) (sd : SubchannelDataRef)
    (f : PickFirstSubchannelData → PickFirstSubchannelData) : PickFirst :=
  p.onList sd.1 (fun L => L.modify sd.2 f)

/-- Setter `set_in_transient_failure` (pick_first.cc:101-103) on the list at `l`. -/
def set_in_transient_failure (p : PickFirst) (l : ListId) (in_transient_failure : Bool) :
    PickFirst :=
  p.onList l (fun L => { L with in_transient_failure_ := in_transient_failure })

/-! ## Operations of `SubchannelData` (modelled) -/

/-- Modelled from the spec: `SubchannelData::CheckConnectivityStateLocked` of
subchannel_list.h.  Spec §3 and §4.7: reads the subchannel's `current_state()`;
the entry remembers it as its last observed state. -/
def CheckConnectivityStateLocked (env : Env) (sd : PickFirstSubchannelData) :
    PickFirstSubchannelData × grpc_connectivity_state :=
  ({ sd with connectivity_state_ := env.CheckConnectivityState sd.subchannel },
   env.CheckConnectivityState sd.subchannel)

/-- Modelled from the spec: `SubchannelData::StartConnectivityWatchLocked`
(spec §4.1, `start_connectivity_watch(i)` attaches one watcher). -/
def StartConnectivityWatchLocked (p : PickFirst) (this : SubchannelDataRef) : PickFirst :=
  (p.onData this (fun sd => { sd with pending_watcher_ := true })).call
    (Call.StartConnectivityWatchLocked this)

/-- Modelled from the spec: `SubchannelData::CancelConnectivityWatchLocked`
(spec §4.1, `cancel_connectivity_watch(i, reason)` detaches the watcher). -/
def CancelConnectivityWatchLocked (p : PickFirst) (this : SubchannelDataRef)
    (reason : String) : PickFirst :=
  (p.onData this (fun sd => { sd with pending_watcher_ := false })).call
    (Call.CancelConnectivityWatchLocked this reason)

/-- Modelled from the spec: `SubchannelData::ShutdownLocked` (spec §4.6 step 4,
`shutdown()` releases the connection; spec §3 invariant 5, a released entry has
no watch). -/
def PickFirstSubchannelData.ShutdownLocked (p : PickFirst) (this : SubchannelDataRef) :
    PickFirst :=
  (p.onData this (fun sd => { sd with pending_watcher_ := false, shutdown_ := true })).call
    (Call.ShutdownLocked this)

/-- Call `subchannel()->RequestConnection()` on an entry. -/
def RequestConnection (p : PickFirst) (this : SubchannelDataRef) : PickFirst :=
  p.call (Call.RequestConnection this)

/-- Call `channel_control_helper()->UpdateState(state, status, picker)`. -/
def UpdateState (p : PickFirst) (state : grpc_connectivity_state) (status : Status)
    (picker : SubchannelPicker) : PickFirst :=
  p.call (Call.UpdateState state status picker)

/-- Call `channel_control_helper()->RequestReresolution()`. -/
def RequestReresolution (p : PickFirst) : PickFirst :=
  p.call Call.RequestReresolution

/-! ## The policy (pick_first.cc) -/

/-- The loop of pick_first.cc:469-473 run for `i = 0, ..., n - 1`:
`ShutdownLocked` on every entry of the list of `this` except `this` itself. -/
def shutdownOthers (this : SubchannelDataRef) (n : Nat) (p : PickFirst) : PickFirst :=
  (List.range n).foldl
    (fun q i => if i ≠ this.2 then PickFirstSubchannelData.ShutdownLocked q (this.1, i) else q)
    p

/-- Method `PickFirstSubchannelData::ProcessUnselectedReadyLocked`
(pick_first.cc:437-474), called on the entry `this`. -/
def ProcessUnselectedReadyLocked (p : PickFirst) (this : SubchannelDataRef) :
    Option PickFirst :=
  -- GPR_ASSERT(subchannel_list() == p->subchannel_list_.get() ||
  --            subchannel_list() == p->latest_pending_subchannel_list_.get());
  if !(p.isCurrent this.1 || p.isPending this.1) then none
  else
    -- Case 2.  Promote p->latest_pending_subchannel_list_ to p->subchannel_list_.
    let p1 :=
      if p.isPending this.1 then
        { p with subchannel_list_ := p.latest_pending_subchannel_list_
                 latest_pending_subchannel_list_ := none }
      else p
    -- Cases 1 and 2.
    let p2 := { p1 with selected_ := some this }
    match p2.subchannel_data this, p2.list this.1 with
    | some sd, some L =>
      let p3 := UpdateState p2 GRPC_CHANNEL_READY OkStatus (SubchannelPicker.Picker sd.subchannel)
      some (shutdownOthers this L.num_subchannels p3)
    | _, _ => none

/-- Method `PickFirstSubchannelData::CheckConnectivityStateAndStartWatchingLocked`
(pick_first.cc:476-492), called on the entry `this`. -/
def CheckConnectivityStateAndStartWatchingLocked (env : Env) (p : PickFirst)
    (this : SubchannelDataRef) : Option PickFirst :=
  match p.subchannel_data this with
  | none => none
  | some sd =>
    -- Check current state.
    let current_state := (CheckConnectivityStateLocked env sd).2
    let p1 := (p.onData this (fun d => (CheckConnectivityStateLocked env d).1)).call
      (Call.CheckConnectivityStateLocked this)
    -- Start watch.
    let p2 := StartConnectivityWatchLocked p1 this
    if current_state = GRPC_CHANNEL_READY then
      if p2.selected_ ≠ some this then ProcessUnselectedReadyLocked p2 this else some p2
    else
      some (RequestConnection p2 this)

/-- Method `PickFirstSubchannelData::ProcessConnectivityChangeLocked`
(pick_first.cc:298-435), called on the entry `this` with the reported state. -/
def ProcessConnectivityChangeLocked (env : Env) (p : PickFirst) (this : SubchannelDataRef)
    (connectivity_state : grpc_connectivity_state) : Option PickFirst :=
  match p.list this.1, p.subchannel_data this with
  | some L, some _ =>
    -- GPR_ASSERT(connectivity_state != GRPC_CHANNEL_SHUTDOWN);
    if connectivity_state = GRPC_CHANNEL_SHUTDOWN then none
    -- Handle updates for the currently selected subchannel.
    else if p.selected_ = some this then
      -- GPR_ASSERT(subchannel_list() == p->subchannel_list_.get());
      if !p.isCurrent this.1 then none
      else if connectivity_state = GRPC_CHANNEL_READY then some p
      -- If there is a pending update, switch to the pending update.
      else if p.latest_pending_subchannel_list_.isSome then
        let p1 := { p with selected_ := none }
        let p2 := CancelConnectivityWatchLocked p1 this
          "selected subchannel failed; switching to pending update"
        let p3 := { p2 with subchannel_list_ := p2.latest_pending_subchannel_list_
                            latest_pending_subchannel_list_ := none }
        match p3.subchannel_list_ with
        | none => none
        | some current =>
          if current.in_transient_failure_ then
            let status :=
              UnavailableError "selected subchannel failed; switching to pending update"
            some (UpdateState p3 GRPC_CHANNEL_TRANSIENT_FAILURE status
              (SubchannelPicker.TransientFailurePicker status))
          else
            some (UpdateState p3 GRPC_CHANNEL_CONNECTING OkStatus SubchannelPicker.QueuePicker)
      else
        -- If the selected subchannel goes bad, request a re-resolution.
        let p1 := RequestReresolution p
        -- Enter idle.
        let p2 := { p1 with idle_ := true, selected_ := none, subchannel_list_ := none }
        some (UpdateState p2 GRPC_CHANNEL_IDLE OkStatus SubchannelPicker.QueuePicker)
    else
      match connectivity_state with
      | GRPC_CHANNEL_READY =>
        let p1 := set_in_transient_failure p this.1 false
        ProcessUnselectedReadyLocked p1 this
      | GRPC_CHANNEL_TRANSIENT_FAILURE | GRPC_CHANNEL_IDLE =>
        let p1 := CancelConnectivityWatchLocked p this "connection attempt failed"
        let next_index := (this.2 + 1) % L.num_subchannels
        let sd : SubchannelDataRef := (this.1, next_index)
        -- If we're tried all subchannels, set state to TRANSIENT_FAILURE.
        let p4 :=
          if sd.2 = 0 then
            let p2 := set_in_transient_failure p1 this.1 true
            -- In case 2, swap to the new subchannel list.
            let p3 :=
              if p2.isPending this.1 then
                { p2 with selected_ := none
                          subchannel_list_ := p2.latest_pending_subchannel_list_
                          latest_pending_subchannel_list_ := none }
              else p2
            -- If this is the current subchannel list, re-resolve and report new state.
            if p3.isCurrent this.1 then
              let status := UnavailableError "failed to connect to all addresses"
              UpdateState (RequestReresolution p3) GRPC_CHANNEL_TRANSIENT_FAILURE status
                (SubchannelPicker.TransientFailurePicker status)
            else p3
          else p1
        CheckConnectivityStateAndStartWatchingLocked env p4 sd
      | GRPC_CHANNEL_CONNECTING =>
        -- Only update connectivity state in case 1, and only if we're not
        -- already in TRANSIENT_FAILURE.
        if p.isCurrent this.1 && !L.in_transient_failure_ then
          some (UpdateState p GRPC_CHANNEL_CONNECTING OkStatus SubchannelPicker.QueuePicker)
        else some p
      | GRPC_CHANNEL_SHUTDOWN => none
  -- The notification must be for a subchannel in either the current or
  -- latest pending subchannel lists (GPR_ASSERT, pick_first.cc:303-304).
  | _, _ => none

/-- The `for` loop of pick_first.cc:215-228 up to the point where a READY entry
is found: `n` iterations are left, `i` is the loop index.  Returns the list
with the states read so far, the calls made, and the index found (if any). -/
def scanForReady (env : Env) :
    Nat → Nat → PickFirstSubchannelList → List Call →
      PickFirstSubchannelList × List Call × Option Nat
  | 0, _, L, cs => (L, cs, none)
  | n + 1, i, L, cs =>
    match L.subchannel i with
    | none => (L, cs, none)
    | some sd =>
      let state := (CheckConnectivityStateLocked env sd).2
      let L1 := L.modify i (fun d => (CheckConnectivityStateLocked env d).1)
      let cs1 := cs ++ [Call.CheckConnectivityStateLocked (L.id, i)]
      if state = GRPC_CHANNEL_READY then (L1, cs1, some i)
      else scanForReady env n (i + 1) L1 cs1

/-- The list allocated at pick_first.cc:183-189: built from the addresses of
`latest_update_args_` when they are OK and from no address otherwise, with the
channel args of `latest_update_args_`, at the next free address. -/
def PickFirst.newSubchannelList (env : Env) (p : PickFirst) : PickFirstSubchannelList :=
  let addresses : List ServerAddress :=
    match p.latest_update_args_.addresses with
    | StatusOr.value a => a
    | StatusOr.status _ => []
  MakeSubchannelList env p.next_list addresses p.latest_update_args_.args

/-- Method `PickFirst::AttemptToConnectUsingLatestUpdateArgsLocked`
(pick_first.cc:181-264). -/
def PickFirst.AttemptToConnectUsingLatestUpdateArgsLocked (env : Env) (p : PickFirst) :
    Option PickFirst :=
  -- Create a subchannel list from latest_update_args_.
  let subchannel_list := p.newSubchannelList env
  let p0 := { p with next_list := p.next_list + 1 }
  -- Empty update or no valid subchannels.
  if subchannel_list.num_subchannels = 0 then
    let p1 := { p0 with subchannel_list_ := some subchannel_list, selected_ := none }
    let status : Status :=
      match p.latest_update_args_.addresses with
      | StatusOr.value _ =>
        UnavailableError ("empty address list: " ++ p.latest_update_args_.resolution_note)
      | StatusOr.status s => s
    let p2 := UpdateState p1 GRPC_CHANNEL_TRANSIENT_FAILURE status
      (SubchannelPicker.TransientFailurePicker status)
    some { p2 with latest_pending_subchannel_list_ := none }
  else
    -- If one of the subchannels in the new list is already in state READY,
    -- then select it immediately.
    match scanForReady env subchannel_list.num_subchannels 0 subchannel_list p0.calls with
    | (scanned, cs, some i) =>
      let p1 := { p0 with calls := cs, subchannel_list_ := some scanned }
      let p2 := StartConnectivityWatchLocked p1 (scanned.id, i)
      match ProcessUnselectedReadyLocked p2 (scanned.id, i) with
      | none => none
      | some p3 => some { p3 with latest_pending_subchannel_list_ := none }
    | (scanned, cs, none) =>
      let p1 := { p0 with calls := cs }
      if p1.selected_ = none then
        -- We don't yet have a selected subchannel, so replace the current
        -- subchannel list immediately.
        let p2 := { p1 with subchannel_list_ := some scanned }
        let p3 := StartConnectivityWatchLocked p2 (scanned.id, 0)
        some (RequestConnection p3 (scanned.id, 0))
      else
        -- We do have a selected subchannel (which means it's READY), so keep
        -- using it until one of the subchannels in the new list reports READY.
        let p2 := { p1 with latest_pending_subchannel_list_ := some scanned }
        let p3 := StartConnectivityWatchLocked p2 (scanned.id, 0)
        some (RequestConnection p3 (scanned.id, 0))

/-- The value `UpdateLocked` stores into `latest_update_args_`
(pick_first.cc:277-290), computed from the stored arguments and the update. -/
def PickFirst.storedUpdateArgs (p : PickFirst) (args : UpdateArgs) : UpdateArgs :=
  -- Add GRPC_ARG_INHIBIT_HEALTH_CHECKING channel arg.
  let args1 := { args with
    args := grpc_channel_args_copy_and_add args.args [(GRPC_ARG_INHIBIT_HEALTH_CHECKING, 1)] }
  -- If the update contains a resolver error and we have a previous update
  -- that was not a resolver error, keep using the previous addresses.
  if !args1.addresses.ok && p.latest_update_args_.config ≠ none then
    { args1 with addresses := p.latest_update_args_.addresses }
  else args1

/-- Method `PickFirst::UpdateLocked` (pick_first.cc:266-296). -/
def PickFirst.UpdateLocked (env : Env) (p : PickFirst) (args : UpdateArgs) :
    Option PickFirst :=
  -- Update latest_update_args_.
  let p1 := { p with latest_update_args_ := p.storedUpdateArgs args }
  -- If we are not in idle, start connection attempt immediately.
  -- Otherwise, we defer the attempt into ExitIdleLocked().
  if !p1.idle_ then p1.AttemptToConnectUsingLatestUpdateArgsLocked env
  else some p1

/-- The list a call `UpdateLocked(args)` on a non-idle policy allocates: the list
of pick_first.cc:183-189 for the arguments stored at pick_first.cc:290. -/
def PickFirst.updateSubchannelList (env : Env) (p : PickFirst) (args : UpdateArgs) :
    PickFirstSubchannelList :=
  { p with latest_update_args_ := p.storedUpdateArgs args }.newSubchannelList env

/-- Method `PickFirst::ExitIdleLocked` (pick_first.cc:163-172). -/
def PickFirst.ExitIdleLocked (env : Env) (p : PickFirst) : Option PickFirst :=
  if p.shutdown_ then some p
  else if p.idle_ then
    { p with idle_ := false }.AttemptToConnectUsingLatestUpdateArgsLocked env
  else some p

/-- Method `PickFirst::ResetBackoffLocked` (pick_first.cc:174-179). -/
def PickFirst.ResetBackoffLocked (p : PickFirst) : PickFirst :=
  let p1 :=
    match p.subchannel_list_ with
    | some L => p.call (Call.ResetBackoffLocked L.id)
    | none => p
  match p1.latest_pending_subchannel_list_ with
  | some L => p1.call (Call.ResetBackoffLocked L.id)
  | none => p1

/-- Method `PickFirst::ShutdownLocked` (pick_first.cc:154-161). -/
def PickFirst.ShutdownLocked (p : PickFirst) : PickFirst :=
  { p with shutdown_ := true, subchannel_list_ := none, latest_pending_subchannel_list_ := none }

/-! ## Observations on a policy state -/

/-- States published to the ControlHelper, oldest first: the `UpdateState`
calls of the log. -/
def publications (calls : List Call) :
    List (grpc_connectivity_state × Status × SubchannelPicker) :=
  calls.filterMap (fun c =>
    match c with
    | Call.UpdateState state status picker => some (state, status, picker)
    | _ => none)

/-- Number of `RequestReresolution` calls in the log. -/
def reresolutions (calls : List Call) : Nat :=
  calls.count Call.RequestReresolution

/-- Entries on which `RequestConnection` was called, oldest first. -/
def connectionRequests (calls : List Call) : List SubchannelDataRef :=
  calls.filterMap (fun c =>
    match c with
    | Call.RequestConnection sd => some sd
    | _ => none)

/-- Entries on which a connectivity watch was started, oldest first. -/
def watchStarts (calls : List Call) : List SubchannelDataRef :=
  calls.filterMap (fun c =>
    match c with
    | Call.StartConnectivityWatchLocked sd => some sd
    | _ => none)


/-- The entries `0, 1, ..., k - 1` of the list at address `l` reporting
TRANSIENT_FAILURE one at a time, in index order; `env t` is the outside world at
the time of the report of entry `t`. -/
def failuresInOrder (env : Nat → Env) (l : ListId) : Nat → PickFirst → Option PickFirst
  | 0, p => some p
  | k + 1, p =>
    (failuresInOrder env l k p).bind (fun q =>
      ProcessConnectivityChangeLocked (env k) q (l, k) GRPC_CHANNEL_TRANSIENT_FAILURE)

/-- State of a sweep over the current list (at address 0, with `n` entries, no
selection, no pending list) after `k` failures: entry `k` carries the only
watch and was the last entry asked to connect; nothing has been published and
no re-resolution has been requested. -/
def SweepInv (n k : Nat) (p : PickFirst) : Prop :=
  ∃ L, p.subchannel_list_ = some L ∧ L.subchannels.length = n ∧
    L.in_transient_failure_ = false ∧
    (∀ (j : Nat) (e : PickFirstSubchannelData), L.subchannels[j]? = some e →
      e.pending_watcher_ = decide (j = k)) ∧
    p.latest_pending_subchannel_list_ = none ∧ p.selected_ = none ∧
    publications p.calls = [] ∧ reresolutions p.calls = 0 ∧
    (connectionRequests p.calls).getLast? = some (L.id, k) ∧ L.id = 0

/-! ## Reachable states and ownership skeleton -/

/-- States the policy can be in: the fresh policy, and whatever a public entry
point (`UpdateLocked`, `ExitIdleLocked`, `ResetBackoffLocked`, `ShutdownLocked`)
or a connectivity callback that returns leads to from such a state.  A callback
is any call of `ProcessConnectivityChangeLocked` that does not fail an
assertion; callbacks delivered on watched entries of live lists are among them. -/
inductive Reachable : PickFirst → Prop where
  | init : Reachable PickFirst.init
  | update {p p' : PickFirst} (env : Env) (args : UpdateArgs) :
      Reachable p → p.UpdateLocked env args = some p' → Reachable p'
  | exit_idle {p p' : PickFirst} (env : Env) :
      Reachable p → p.ExitIdleLocked env = some p' → Reachable p'
  | reset_backoff {p : PickFirst} : Reachable p → Reachable p.ResetBackoffLocked
  | shutdown {p : PickFirst} : Reachable p → Reachable p.ShutdownLocked
  | callback {p p' : PickFirst} (env : Env) (this : SubchannelDataRef)
      (state : grpc_connectivity_state) :
      Reachable p → ProcessConnectivityChangeLocked env p this state = some p' → Reachable p'

/-- Who owns what, without the contents of the lists: the address of the current
list, the address of the pending list, the pointer `selected_`, and the next
free list address. -/
structure Skeleton where
  cur : Option ListId
  pend : Option ListId
  sel : Option SubchannelDataRef
  next : ListId
  deriving DecidableEq, Repr

/-- The ownership skeleton of a policy state. -/
def PickFirst.skeleton (p : PickFirst) : Skeleton :=
  { cur := p.subchannel_list_.map (fun L => L.id)
    pend := p.latest_pending_subchannel_list_.map (fun L => L.id)
    sel := p.selected_
    next := p.next_list }

/-- Well-formed skeleton: live lists and `selected_` carry addresses that were
handed out already, a pending list exists only while `selected_` is set (P2 of
the spec), and the current and the pending list are different objects. -/
def Skeleton.WF (s : Skeleton) : Prop :=
  (∀ i, s.cur = some i → i < s.next) ∧
  (∀ i, s.pend = some i → i < s.next) ∧
  (∀ sd : SubchannelDataRef, s.sel = some sd → sd.1 < s.next) ∧
  (s.pend.isSome = true → s.sel.isSome = true) ∧
  (∀ i j, s.cur = some i → s.pend = some j → i ≠ j)

/-- Skeleton after `ProcessUnselectedReadyLocked` on `this`: a pending list
holding `this` is promoted, and `selected_` points at `this`. -/
def Skeleton.selectReady (s : Skeleton) (this : SubchannelDataRef) : Skeleton :=
  if s.pend = some this.1 then { cur := s.pend, pend := none, sel := some this, next := s.next }
  else { s with sel := some this }

/-- Address of the selected entry, when `selected_` points into a live list. -/
def PickFirst.selectedAddress (p : PickFirst) : Option ServerAddress :=
  p.selected_.bind (fun sd => (p.subchannel_data sd).map (fun e => e.address))

/-- The roles of a policy state by address content: the address of the selected
entry, the idle flag, the addresses of the current list and the addresses of
the pending list. -/
def PickFirst.roles (p : PickFirst) :
    Option ServerAddress × Bool × Option (List ServerAddress) × Option (List ServerAddress) :=
  (p.selectedAddress, p.idle_,
   p.subchannel_list_.map (fun L => L.subchannels.map (fun e => e.address)),
   p.latest_pending_subchannel_list_.map (fun L => L.subchannels.map (fun e => e.address)))

/-! ## Watches and the exhaustion flag -/

/-- State of `CheckConnectivityStateAndStartWatchingLocked` on `this` after the
state read and the start of the watch (pick_first.cc:480-482), before the
branch on the state read. -/
def checkedAndWatched (env : Env) (p : PickFirst) (this : SubchannelDataRef) : PickFirst :=
  StartConnectivityWatchLocked
    ((p.onData this (fun d => (CheckConnectivityStateLocked env d).1)).call
      (Call.CheckConnectivityStateLocked this)) this

/-- Watches of a list are confined to index `i`: every entry that carries a
connectivity watch is entry `i`. -/
def PickFirstSubchannelList.OnlyWatched (L : PickFirstSubchannelList) (i : Nat) : Prop :=
  ∀ (j : Nat) (e : PickFirstSubchannelData),
    L.subchannels[j]? = some e → e.pending_watcher_ = true → j = i

/-- Indices of the entries of a list that carry a connectivity watch, ascending. -/
def PickFirstSubchannelList.watched (L : PickFirstSubchannelList) : List Nat :=
  (List.range L.subchannels.length).filter (fun j =>
    match L.subchannels[j]? with
    | some e => e.pending_watcher_
    | none => false)

/-- A pending list never carries the flag `in_transient_failure_`. -/
def PendingFresh (p : PickFirst) : Prop :=
  ∀ P, p.latest_pending_subchannel_list_ = some P → P.in_transient_failure_ = false

/-- Each live list has its watches confined to one index, and when `selected_`
points into the current list that index is the selected one. -/
def WatchInv (p : PickFirst) : Prop :=
  (∀ L, p.subchannel_list_ = some L → ∃ i, L.OnlyWatched i) ∧
  (∀ P, p.latest_pending_subchannel_list_ = some P → ∃ i, P.OnlyWatched i) ∧
  (∀ L i, p.subchannel_list_ = some L → p.selected_ = some (L.id, i) → L.OnlyWatched i)

/-- State of the failure branch of `ProcessConnectivityChangeLocked` on the
unselected entry `this` (pick_first.cc:376-416) just before the call of
`CheckConnectivityStateAndStartWatchingLocked` on the next entry (line 417);
`n` is `num_subchannels()` of the list of `this`. -/
def afterFailure (p : PickFirst) (this : SubchannelDataRef) (n : Nat) : PickFirst :=
  let p1 := CancelConnectivityWatchLocked p this "connection attempt failed"
  if (this.2 + 1) % n = 0 then
    let p2 := set_in_transient_failure p1 this.1 true
    let p3 :=
      if p2.isPending this.1 then
        { p2 with selected_ := none
                  subchannel_list_ := p2.latest_pending_subchannel_list_
                  latest_pending_subchannel_list_ := none }
      else p2
    if p3.isCurrent this.1 then
      let status := UnavailableError "failed to connect to all addresses"
      UpdateState (RequestReresolution p3) GRPC_CHANNEL_TRANSIENT_FAILURE status
        (SubchannelPicker.TransientFailurePicker status)
    else p3
  else p1

/-- Modelled from the spec: states the policy can be in when connectivity events
are delivered by watches only (spec §4.1: `start_connectivity_watch(i)` attaches
the watcher that delivers state transitions, `cancel_connectivity_watch(i)`
detaches it; the watcher itself is code of subchannel_list.h, which is not
among the sources).  As `Reachable`, with every callback delivered on an entry
that carries a watch. -/
inductive ReachableWatched : PickFirst → Prop where
  | init : ReachableWatched PickFirst.init
  | update {p p' : PickFirst} (env : Env) (args : UpdateArgs) :
      ReachableWatched p → p.UpdateLocked env args = some p' → ReachableWatched p'
  | exit_idle {p p' : PickFirst} (env : Env) :
      ReachableWatched p → p.ExitIdleLocked env = some p' → ReachableWatched p'
  | reset_backoff {p : PickFirst} : ReachableWatched p → ReachableWatched p.ResetBackoffLocked
  | shutdown {p : PickFirst} : ReachableWatched p → ReachableWatched p.ShutdownLocked
  | callback {p p' : PickFirst} (env : Env) (this : SubchannelDataRef)
      (state : grpc_connectivity_state) (d : PickFirstSubchannelData) :
      ReachableWatched p → p.subchannel_data this = some d → d.pending_watcher_ = true →
      ProcessConnectivityChangeLocked env p this state = some p' → ReachableWatched p'

/-- Connectivity callbacks delivered one after the other; an event is the outside
world at the time of the callback, the reporting entry and the reported state. -/
def deliver : List (Env × SubchannelDataRef × grpc_connectivity_state) → PickFirst →
    Option PickFirst
  | [], p => some p
  | ev :: evs, p =>
    (ProcessConnectivityChangeLocked ev.1 p ev.2.1 ev.2.2).bind (deliver evs)

/-! ## HPACK header table (hpack_parser_table.h) -/

/-- Subtraction of two `uint32_t` values: the result wraps around modulo `2 ^ 32`. -/
def uint32_sub (a b : Nat) : Nat := (a % 2 ^ 32 + 2 ^ 32 - b % 2 ^ 32) % 2 ^ 32

/-- Addition of two `uint32_t` values: the result wraps around modulo `2 ^ 32`. -/
def uint32_add (a b : Nat) : Nat := (a + b) % 2 ^ 32

/-- What a lookup in the HPACK table reads: slot `slot` of the array
`static_metadata_.memento`, or the result of `entries_.Lookup(tbl_index)` on the
ring buffer of dynamic entries. -/
inductive HPackTable.Access where
  | staticEntry (slot : Nat)
  | dynamicEntry (tbl_index : Nat)
  deriving DecidableEq, Repr

/-- Method `HPackTable::LookupDynamic` (hpack_parser_table.h:107-111).  The
constant `hpack_constants::kLastStaticEntry` comes from hpack_constants.h, which
is not among the sources, and is a parameter. -/
def HPackTable.LookupDynamic (kLastStaticEntry index : Nat) : HPackTable.Access :=
  -- Not static - find the value in the list of valid entries
  let tbl_index := uint32_sub index (uint32_add kLastStaticEntry 1)
  HPackTable.Access.dynamicEntry tbl_index

/-- Method `HPackTable::Lookup` (hpack_parser_table.h:47-60). -/
def HPackTable.Lookup (kLastStaticEntry index : Nat) : HPackTable.Access :=
  -- Static table comes first, just return an entry from it.
  if index ≤ kLastStaticEntry then HPackTable.Access.staticEntry (uint32_sub index 1)
  else HPackTable.LookupDynamic kLastStaticEntry index

/-- Size of the array `StaticMementos::memento` (hpack_parser_table.h:69-72):
`Memento memento[hpack_constants::kLastStaticEntry]`. -/
def HPackTable.StaticMementos.size (kLastStaticEntry : Nat) : Nat := kLastStaticEntry

/-! ## Concrete scenarios -/

/-- Scenario environment: address `a` yields the subchannel `100 + a`; the
subchannels listed in `ready` are READY when read, all others IDLE. -/
def scenarioEnv (ready : List SubchannelInterface) : Env :=
  { CreateSubchannel := fun address _ => some (100 + address)
    CheckConnectivityState := fun s =>
      if s ∈ ready then GRPC_CHANNEL_READY else GRPC_CHANNEL_IDLE }

/-- Scenario update: an OK address list with a config and a resolution note. -/
def scenarioArgs (addresses : List ServerAddress) (note : String) : UpdateArgs :=
  { addresses := StatusOr.value addresses, config := some "pick_first",
    resolution_note := note, args := [] }

/-- Scenario update: a resolver error with a config and a resolution note. -/
def scenarioError (status : Status) (note : String) : UpdateArgs :=
  { addresses := StatusOr.status status, config := some "pick_first",
    resolution_note := note, args := [] }

/-- Scenario entry for address `a` in the given state, watched or not. -/
def scenarioEntry (a : ServerAddress) (state : grpc_connectivity_state) (watched : Bool) :
    PickFirstSubchannelData :=
  { address := a, subchannel := 100 + a, connectivity_state_ := state,
    pending_watcher_ := watched, shutdown_ := false }

/-- Scenario state "current ready = A": the current list `[A]` (address 1, list
address 0) with its entry selected and watched, no pending list. -/
def scenarioSelected : PickFirst :=
  { latest_update_args_ :=
      { addresses := StatusOr.value [1], config := some "pick_first", resolution_note := "",
        args := [(GRPC_ARG_INHIBIT_HEALTH_CHECKING, 1)] }
    subchannel_list_ := some
      { id := 0, subchannels := [scenarioEntry 1 GRPC_CHANNEL_READY true],
        in_transient_failure_ := false }
    latest_pending_subchannel_list_ := none
    selected_ := some (0, 0)
    idle_ := false
    shutdown_ := false
    calls := []
    next_list := 1 }

/-- Scenario state "current ready = A, pending `[B, C]`": as `scenarioSelected`,
with the pending list `[B, C]` (addresses 2 and 3, list address 1) whose entry
`watched` carries the watch and whose flag `in_transient_failure_` is `exhausted`. -/
def scenarioPending (watched : Nat) (exhausted : Bool) : PickFirst :=
  { scenarioSelected with
    latest_update_args_ :=
      { addresses := StatusOr.value [2, 3], config := some "pick_first", resolution_note := "",
        args := [(GRPC_ARG_INHIBIT_HEALTH_CHECKING, 1)] }
    latest_pending_subchannel_list_ := some
      { id := 1
        subchannels := [scenarioEntry 2 GRPC_CHANNEL_IDLE (decide (watched = 0)),
          scenarioEntry 3 GRPC_CHANNEL_IDLE (decide (watched = 1))]
        in_transient_failure_ := exhausted }
    next_list := 2 }

/-- Scenario state "idle after a lost selection": what `scenarioSelected` becomes
when its selected entry is lost with no pending list (pick_first.cc:347-358):
`idle_` set, no list, `selected_` null. -/
def scenarioIdle : PickFirst :=
  { scenarioSelected with
    idle_ := true
    selected_ := none
    subchannel_list_ := none
    calls := [Call.RequestReresolution,
      Call.UpdateState GRPC_CHANNEL_IDLE OkStatus SubchannelPicker.QueuePicker] }

/-- Scenario run, first step: a fresh policy receives `update(Ok([A]))` while A
(subchannel 101) is READY. -/
def scenarioAfterFirstUpdate : PickFirst :=
  (PickFirst.init.UpdateLocked (scenarioEnv [101]) (scenarioArgs [1] "")).getD PickFirst.init

/-- Scenario run, second step: `update(Ok([B, C]))` with neither B nor C READY,
received while A is selected. -/
def scenarioHeld : PickFirst :=
  (scenarioAfterFirstUpdate.UpdateLocked (scenarioEnv [101]) (scenarioArgs [2, 3] "")).getD
    PickFirst.init

/-- Scenario run: a fresh policy receives `update(Ok([A]))` with nothing READY;
the sweep of the list `[A]` starts with the watch on A. -/
def scenarioSweepStart : PickFirst :=
  (PickFirst.init.UpdateLocked (scenarioEnv []) (scenarioArgs [1] "")).getD PickFirst.init

/-- Scenario run, next step: A reports TRANSIENT_FAILURE; the sweep of `[A]` wraps
around, TRANSIENT_FAILURE is published and the watch on A is started again. -/
def scenarioExhausted : PickFirst :=
  (ProcessConnectivityChangeLocked (scenarioEnv []) scenarioSweepStart (0, 0)
    GRPC_CHANNEL_TRANSIENT_FAILURE).getD PickFirst.init

/-- Scenario run: a fresh policy receives `update(Ok([A, B]))` with nothing READY. -/
def scenarioTwoStart : PickFirst :=
  (PickFirst.init.UpdateLocked (scenarioEnv []) (scenarioArgs [1, 2] "")).getD PickFirst.init

/-- Scenario run, next step: A reports TRANSIENT_FAILURE while B is not READY; the
watch moves to B. -/
def scenarioTwoSecond : PickFirst :=
  (ProcessConnectivityChangeLocked (scenarioEnv []) scenarioTwoStart (0, 0)
    GRPC_CHANNEL_TRANSIENT_FAILURE).getD PickFirst.init

/-- Scenario run, last step: B reports TRANSIENT_FAILURE, the sweep wraps around,
and the state of A read before its watch is started again is READY. -/
def scenarioWrapReady : PickFirst :=
  (ProcessConnectivityChangeLocked (scenarioEnv [101]) scenarioTwoSecond (0, 1)
    GRPC_CHANNEL_TRANSIENT_FAILURE).getD PickFirst.init

/-! ## Lemmas: lists and logs -/

theorem getElem?_of_lt {α : Type} (l : List α) (i : Nat) (h : i < l.length) :
    ∃ d, l[i]? = some d :=
  ⟨l.get ⟨i, h⟩, by simp [List.getElem?_eq_getElem h]⟩

theorem lt_of_getElem? {α : Type} (l : List α) (i : Nat) (d : α) (h : l[i]? = some d) :
    i < l.length := by
  rcases Nat.lt_or_ge i l.length with hl | hl
  · exact hl
  · rw [List.getElem?_eq_none hl] at h; cases h

theorem publications_append (a b : List Call) :
    publications (a ++ b) = publications a ++ publications b := by
  simp [publications, List.filterMap_append]

theorem reresolutions_append (a b : List Call) :
    reresolutions (a ++ b) = reresolutions a + reresolutions b := by
  simp [reresolutions, List.count_append]

theorem connectionRequests_append (a b : List Call) :
    connectionRequests (a ++ b) = connectionRequests a ++ connectionRequests b := by
  simp [connectionRequests, List.filterMap_append]

theorem watchStarts_append (a b : List Call) :
    watchStarts (a ++ b) = watchStarts a ++ watchStarts b := by
  simp [watchStarts, List.filterMap_append]

/-- A log made of state reads only holds no publication, no re-resolution
request, no connection request and no watch start. -/
theorem observations_of_checks (new : List Call)
    (h : ∀ c ∈ new, ∃ sd, c = Call.CheckConnectivityStateLocked sd) :
    publications new = [] ∧ reresolutions new = 0 ∧ connectionRequests new = [] ∧
      watchStarts new = [] := by
  induction new with
  | nil => exact ⟨rfl, rfl, rfl, rfl⟩
  | cons c cs ih =>
    obtain ⟨sd, hc⟩ := h c (List.mem_cons_self _ _)
    obtain ⟨h1, h2, h3, h4⟩ := ih (fun c hc => h c (List.mem_cons_of_mem _ hc))
    subst hc
    refine ⟨?_, ?_, ?_, ?_⟩
    · simpa [publications] using h1
    · simpa [reresolutions] using h2
    · simpa [connectionRequests] using h3
    · simpa [watchStarts] using h4

/-- A log made of entry shutdowns only holds no publication, no re-resolution
request, no connection request and no watch start. -/
theorem observations_of_shutdowns (l : ListId) (is : List Nat) :
    publications (is.map (fun i => Call.ShutdownLocked (l, i))) = [] ∧
      reresolutions (is.map (fun i => Call.ShutdownLocked (l, i))) = 0 ∧
      connectionRequests (is.map (fun i => Call.ShutdownLocked (l, i))) = [] ∧
      watchStarts (is.map (fun i => Call.ShutdownLocked (l, i))) = [] := by
  induction is with
  | nil => exact ⟨rfl, rfl, rfl, rfl⟩
  | cons c cs ih =>
    obtain ⟨_, h2, _, _⟩ := ih
    refine ⟨?_, ?_, ?_, ?_⟩
    · simp [publications]
    · simpa [reresolutions] using h2
    · simp [connectionRequests]
    · simp [watchStarts]

theorem modify_getElem? (L : PickFirstSubchannelList) (i j : Nat)
    (f : PickFirstSubchannelData → PickFirstSubchannelData) :
    (L.modify i f).subchannels[j]? =
      (L.subchannels[j]?).map (fun e => if j = i then f e else e) := by
  unfold PickFirstSubchannelList.modify
  cases h : L.subchannels[i]? with
  | none =>
    by_cases hji : j = i
    · subst hji; simp [h]
    · simp [hji]
  | some d =>
    by_cases hji : j = i
    · subst hji
      have hlt : j < L.subchannels.length := lt_of_getElem? _ _ _ h
      simp [List.getElem?_set, h, hlt]
    · have hij : ¬ i = j := fun e => hji e.symm
      simp [List.getElem?_set, hji, hij]

theorem modify_id (L : PickFirstSubchannelList) (i : Nat)
    (f : PickFirstSubchannelData → PickFirstSubchannelData) : (L.modify i f).id = L.id := by
  unfold PickFirstSubchannelList.modify
  cases L.subchannels[i]? <;> rfl

theorem modify_in_transient_failure (L : PickFirstSubchannelList) (i : Nat)
    (f : PickFirstSubchannelData → PickFirstSubchannelData) :
    (L.modify i f).in_transient_failure_ = L.in_transient_failure_ := by
  unfold PickFirstSubchannelList.modify
  cases L.subchannels[i]? <;> rfl

theorem modify_length (L : PickFirstSubchannelList) (i : Nat)
    (f : PickFirstSubchannelData → PickFirstSubchannelData) :
    (L.modify i f).subchannels.length = L.subchannels.length := by
  unfold PickFirstSubchannelList.modify
  cases L.subchannels[i]? <;> simp

theorem list_of_current (p : PickFirst) (cur : PickFirstSubchannelList)
    (hcur : p.subchannel_list_ = some cur) : p.list cur.id = some cur := by
  simp [PickFirst.list, PickFirst.isCurrent, hcur]

theorem subchannel_data_of_current (p : PickFirst) (cur : PickFirstSubchannelList) (i : Nat)
    (hcur : p.subchannel_list_ = some cur) :
    p.subchannel_data (cur.id, i) = cur.subchannels[i]? := by
  simp [PickFirst.subchannel_data, list_of_current p cur hcur, PickFirstSubchannelList.subchannel]

theorem entry_of_lt (L : PickFirstSubchannelList) (i : Nat) (hi : i < L.num_subchannels) :
    ∃ d, L.subchannels[i]? = some d :=
  getElem?_of_lt _ _ hi

/-! ## Lemmas: the loops -/

/-- The scan of pick_first.cc:215-228 when entry `k` is the first READY entry
at or after `i`: it stops at `k`, having read the state of entries `i..k`. -/
theorem scanForReady_found (env : Env) :
    ∀ (n i : Nat) (L : PickFirstSubchannelList) (cs : List Call) (k : Nat)
      (d : PickFirstSubchannelData),
      i ≤ k → k < i + n → L.subchannels[k]? = some d →
      env.CheckConnectivityState d.subchannel = GRPC_CHANNEL_READY →
      (∀ j e, i ≤ j → j < k → L.subchannels[j]? = some e →
        env.CheckConnectivityState e.subchannel ≠ GRPC_CHANNEL_READY) →
      ∃ L' cs', scanForReady env n i L cs = (L', cs', some k) ∧
        L'.id = L.id ∧ L'.in_transient_failure_ = L.in_transient_failure_ ∧
        (∀ j, L'.subchannels[j]? = (L.subchannels[j]?).map (fun e =>
          if i ≤ j ∧ j ≤ k then (CheckConnectivityStateLocked env e).1 else e)) ∧
        ∃ new, cs' = cs ++ new ∧ ∀ c ∈ new, ∃ sd, c = Call.CheckConnectivityStateLocked sd := by
  intro n
  induction n with
  | zero =>
    intro i L cs k d hik hkn
    omega
  | succ n ih =>
    intro i L cs k d hik hkn hd hready hnot
    by_cases hk : i = k
    · subst hk
      refine ⟨L.modify i (fun d => (CheckConnectivityStateLocked env d).1),
        cs ++ [Call.CheckConnectivityStateLocked (L.id, i)], ?_, modify_id _ _ _,
        modify_in_transient_failure _ _ _, ?_, [Call.CheckConnectivityStateLocked (L.id, i)],
        rfl, ?_⟩
      · simp [scanForReady, PickFirstSubchannelList.subchannel, hd, CheckConnectivityStateLocked,
          hready]
      · intro j
        rw [modify_getElem?]
        congr 1
        funext e
        by_cases hji : j = i
        · subst hji; simp
        · have : ¬ (i ≤ j ∧ j ≤ i) := by omega
          simp [hji, this]
      · intro c hc
        simp at hc
        exact ⟨_, hc⟩
    · have hlt : i < k := by omega
      have hi : ∃ e, L.subchannels[i]? = some e :=
        getElem?_of_lt _ _ (Nat.lt_trans hlt (lt_of_getElem? _ _ _ hd))
      obtain ⟨e, he⟩ := hi
      have hne := hnot i e (Nat.le_refl _) hlt he
      let L1 := L.modify i (fun d => (CheckConnectivityStateLocked env d).1)
      have hd1 : L1.subchannels[k]? = some d := by
        show (L.modify i _).subchannels[k]? = some d
        rw [modify_getElem?, hd]
        have : ¬ k = i := by omega
        simp [this]
      have hnot1 : ∀ j e, i + 1 ≤ j → j < k → L1.subchannels[j]? = some e →
          env.CheckConnectivityState e.subchannel ≠ GRPC_CHANNEL_READY := by
        intro j e' hij hjk hje
        have hje' : (L.modify i (fun d => (CheckConnectivityStateLocked env d).1)).subchannels[j]? = some e' := hje
        rw [modify_getElem?] at hje'
        have : ¬ j = i := by omega
        simp [this] at hje'
        exact hnot j e' (by omega) hjk hje'
      obtain ⟨L', cs', hscan, hid, htf, hent, new, hcs, hall⟩ :=
        ih (i + 1) L1 (cs ++ [Call.CheckConnectivityStateLocked (L.id, i)]) k d (by omega)
          (by omega) hd1 hready hnot1
      refine ⟨L', cs', ?_, ?_, ?_, ?_, [Call.CheckConnectivityStateLocked (L.id, i)] ++ new,
        ?_, ?_⟩
      · simp only [scanForReady, PickFirstSubchannelList.subchannel, he, CheckConnectivityStateLocked]
        simp only [hne, if_false]
        exact hscan
      · rw [hid]; exact modify_id _ _ _
      · rw [htf]; exact modify_in_transient_failure _ _ _
      · intro j
        rw [hent j]
        show Option.map _ ((L.modify i _).subchannels[j]?) = _
        rw [modify_getElem?]
        cases L.subchannels[j]? with
        | none => rfl
        | some x =>
          simp only [Option.map_some']
          congr 1
          by_cases hji : j = i
          · subst hji
            have h1 : ¬ (j + 1 ≤ j ∧ j ≤ k) := by omega
            have h2 : (j ≤ j ∧ j ≤ k) := by omega
            simp [h1, h2]
          · by_cases hr : i + 1 ≤ j ∧ j ≤ k
            · have h2 : (i ≤ j ∧ j ≤ k) := by omega
              simp [hr, h2, hji]
            · have h2 : ¬ (i ≤ j ∧ j ≤ k) := by omega
              simp [hr, h2, hji]
      · rw [hcs]; simp
      · intro c hc
        simp only [List.mem_append, List.mem_singleton] at hc
        rcases hc with hc | hc
        · exact ⟨_, hc⟩
        · exact hall c hc

/-- The scan of pick_first.cc:215-228 when no entry at or after `i` is READY:
it reads the state of every entry from `i` on and finds nothing. -/
theorem scanForReady_none (env : Env) :
    ∀ (n i : Nat) (L : PickFirstSubchannelList) (cs : List Call),
      L.subchannels.length ≤ i + n →
      (∀ j e, i ≤ j → L.subchannels[j]? = some e →
        env.CheckConnectivityState e.subchannel ≠ GRPC_CHANNEL_READY) →
      ∃ L' cs', scanForReady env n i L cs = (L', cs', none) ∧
        L'.id = L.id ∧ L'.in_transient_failure_ = L.in_transient_failure_ ∧
        (∀ j, L'.subchannels[j]? = (L.subchannels[j]?).map (fun e =>
          if i ≤ j then (CheckConnectivityStateLocked env e).1 else e)) ∧
        ∃ new, cs' = cs ++ new ∧ ∀ c ∈ new, ∃ sd, c = Call.CheckConnectivityStateLocked sd := by
  intro n
  induction n with
  | zero =>
    intro i L cs hlen hnot
    refine ⟨L, cs, rfl, rfl, rfl, ?_, [], by simp, by simp⟩
    intro j
    cases h : L.subchannels[j]? with
    | none => rfl
    | some x =>
      have hj : j < L.subchannels.length := by
        rcases Nat.lt_or_ge j L.subchannels.length with hl | hl
        · exact hl
        · rw [List.getElem?_eq_none hl] at h; cases h
      have : ¬ i ≤ j := by omega
      simp [this]
  | succ n ih =>
    intro i L cs hlen hnot
    cases he : L.subchannels[i]? with
    | none =>
      refine ⟨L, cs, ?_, rfl, rfl, ?_, [], by simp, by simp⟩
      · simp [scanForReady, PickFirstSubchannelList.subchannel, he]
      · intro j
        cases h : L.subchannels[j]? with
        | none => rfl
        | some x =>
          have hj : j < L.subchannels.length := by
            rcases Nat.lt_or_ge j L.subchannels.length with hl | hl
            · exact hl
            · rw [List.getElem?_eq_none hl] at h; cases h
          have hi : L.subchannels.length ≤ i := by
            rcases Nat.lt_or_ge i L.subchannels.length with hl | hl
            · rw [List.getElem?_eq_getElem hl] at he; cases he
            · exact hl
          have : ¬ i ≤ j := by omega
          simp [this]
    | some e =>
      have hne := hnot i e (Nat.le_refl _) he
      have hnot1 : ∀ j e, i + 1 ≤ j →
          (L.modify i (fun d => (CheckConnectivityStateLocked env d).1)).subchannels[j]? = some e →
          env.CheckConnectivityState e.subchannel ≠ GRPC_CHANNEL_READY := by
        intro j e' hij hje
        rw [modify_getElem?] at hje
        have : ¬ j = i := by omega
        simp [this] at hje
        exact hnot j e' (by omega) hje
      obtain ⟨L', cs', hscan, hid, htf, hent, new, hcs, hall⟩ :=
        ih (i + 1) (L.modify i (fun d => (CheckConnectivityStateLocked env d).1))
          (cs ++ [Call.CheckConnectivityStateLocked (L.id, i)])
          (by rw [modify_length]; omega) hnot1
      refine ⟨L', cs', ?_, ?_, ?_, ?_, [Call.CheckConnectivityStateLocked (L.id, i)] ++ new,
        ?_, ?_⟩
      · simp only [scanForReady, PickFirstSubchannelList.subchannel, he, CheckConnectivityStateLocked]
        simp only [hne, if_false]
        exact hscan
      · rw [hid]; exact modify_id _ _ _
      · rw [htf]; exact modify_in_transient_failure _ _ _
      · intro j
        rw [hent j, modify_getElem?]
        cases L.subchannels[j]? with
        | none => rfl
        | some x =>
          simp only [Option.map_some']
          congr 1
          by_cases hji : j = i
          · subst hji
            have h1 : ¬ (j + 1 ≤ j) := by omega
            simp [h1]
          · by_cases hr : i + 1 ≤ j
            · have h2 : i ≤ j := by omega
              simp [hr, h2, hji]
            · have h2 : ¬ (i ≤ j) := by omega
              simp [hr, h2, hji]
      · rw [hcs]; simp
      · intro c hc
        simp only [List.mem_append, List.mem_singleton] at hc
        rcases hc with hc | hc
        · exact ⟨_, hc⟩
        · exact hall c hc


/-- Writing through a pointer to the current list leaves the pending list alone
when the pending list lives at another address. -/
theorem onList_of_current (p : PickFirst) (l : ListId) (L : PickFirstSubchannelList)
    (f : PickFirstSubchannelList → PickFirstSubchannelList)
    (hcur : p.subchannel_list_ = some L) (hid : L.id = l) (hpend : p.isPending l = false) :
    p.onList l f = { p with subchannel_list_ := some (f L) } := by
  have hp : p.latest_pending_subchannel_list_.map (fun L => if L.id = l then f L else L) =
      p.latest_pending_subchannel_list_ := by
    cases h : p.latest_pending_subchannel_list_ with
    | none => rfl
    | some P =>
      simp [PickFirst.isPending, h] at hpend
      simp [hpend]
  simp [PickFirst.onList, hcur, hid, hp]

theorem shutdownOthers_spec (l k : Nat) (n : Nat) (p : PickFirst) (L : PickFirstSubchannelList)
    (hcur : p.subchannel_list_ = some L) (hid : L.id = l) (hpend : p.isPending l = false) :
    ∃ L', shutdownOthers (l, k) n p =
        { p with subchannel_list_ := some L',
                 calls := p.calls ++ ((List.range n).filter (fun i => decide (i ≠ k))).map
                   (fun i => Call.ShutdownLocked (l, i)) } ∧
      L'.id = l ∧ L'.in_transient_failure_ = L.in_transient_failure_ ∧
      ∀ j, L'.subchannels[j]? = (L.subchannels[j]?).map (fun e =>
        if j < n ∧ j ≠ k then { e with pending_watcher_ := false, shutdown_ := true } else e) := by
  induction n with
  | zero =>
    refine ⟨L, ?_, hid, rfl, ?_⟩
    · simp [shutdownOthers, ← hcur]
    · intro j; simp
  | succ n ih =>
    obtain ⟨Ln, hq, hidn, htfn, hentn⟩ := ih
    have hstep : shutdownOthers (l, k) (n + 1) p =
        (if n ≠ k then PickFirstSubchannelData.ShutdownLocked (shutdownOthers (l, k) n p) (l, n)
         else shutdownOthers (l, k) n p) := by
      simp [shutdownOthers, List.range_succ, List.foldl_append]
    rw [hstep, hq]
    by_cases hnk : n = k
    · refine ⟨Ln, ?_, hidn, htfn, ?_⟩
      · simp [hnk, List.range_succ, List.filter_append]
      · intro j
        rw [hentn j]
        congr 1
        funext e
        by_cases hj : j < n ∧ j ≠ k
        · have : j < n + 1 ∧ j ≠ k := by omega
          simp [hj, this]
        · have : ¬ (j < n + 1 ∧ j ≠ k) := by omega
          simp [hj, this]
    · refine ⟨Ln.modify n (fun sd => { sd with pending_watcher_ := false, shutdown_ := true }),
        ?_, ?_, ?_, ?_⟩
      · simp only [hnk, ne_eq, not_false_eq_true, if_true]
        unfold PickFirstSubchannelData.ShutdownLocked PickFirst.onData
        rw [onList_of_current _ l Ln _ rfl hidn (by simpa [PickFirst.isPending] using hpend)]
        simp [PickFirst.call, List.range_succ, List.filter_append, hnk]
      · rw [modify_id]; exact hidn
      · rw [modify_in_transient_failure]; exact htfn
      · intro j
        rw [modify_getElem?, hentn j]
        cases L.subchannels[j]? with
        | none => rfl
        | some x =>
          simp only [Option.map_some']
          congr 1
          by_cases hjn : j = n
          · subst hjn
            have h1 : ¬ (j < j ∧ j ≠ k) := by omega
            have h2 : (j < j + 1 ∧ j ≠ k) := by omega
            simp [h1, h2]
          · by_cases hr : j < n ∧ j ≠ k
            · have h2 : j < n + 1 ∧ j ≠ k := by omega
              simp [hr, h2, hjn]
            · have h2 : ¬ (j < n + 1 ∧ j ≠ k) := by omega
              simp [hr, h2, hjn]


/-! ## Lemmas: selecting a READY entry -/

/-- Writing through a pointer to the pending list leaves the current list alone
when the current list lives at another address. -/
theorem onList_of_pending (p : PickFirst) (l : ListId) (P : PickFirstSubchannelList)
    (f : PickFirstSubchannelList → PickFirstSubchannelList)
    (hpend : p.latest_pending_subchannel_list_ = some P) (hid : P.id = l)
    (hcur : p.isCurrent l = false) :
    p.onList l f = { p with latest_pending_subchannel_list_ := some (f P) } := by
  have hp : p.subchannel_list_.map (fun L => if L.id = l then f L else L) =
      p.subchannel_list_ := by
    cases h : p.subchannel_list_ with
    | none => rfl
    | some C =>
      simp [PickFirst.isCurrent, h] at hcur
      simp [hcur]
  simp [PickFirst.onList, hpend, hid, hp]

/-- `ProcessUnselectedReadyLocked` on entry `k` of the current list. -/
theorem ProcessUnselectedReadyLocked_current (p : PickFirst) (l k : Nat)
    (L : PickFirstSubchannelList) (d : PickFirstSubchannelData)
    (hcur : p.subchannel_list_ = some L) (hid : L.id = l) (hpend : p.isPending l = false)
    (hd : L.subchannels[k]? = some d) :
    ∃ L', ProcessUnselectedReadyLocked p (l, k) = some
        { p with subchannel_list_ := some L', selected_ := some (l, k),
                 calls := p.calls ++
                   [Call.UpdateState GRPC_CHANNEL_READY OkStatus (SubchannelPicker.Picker d.subchannel)]
                   ++ ((List.range L.subchannels.length).filter (fun i => decide (i ≠ k))).map
                     (fun i => Call.ShutdownLocked (l, i)) } ∧
      L'.id = l ∧ L'.in_transient_failure_ = L.in_transient_failure_ ∧
      ∀ j, L'.subchannels[j]? = (L.subchannels[j]?).map (fun e =>
        if j ≠ k then { e with pending_watcher_ := false, shutdown_ := true } else e) := by
  have hisc : p.isCurrent l = true := by simp [PickFirst.isCurrent, hcur, hid]
  obtain ⟨L', hq, hid', htf', hent'⟩ := shutdownOthers_spec l k L.subchannels.length
    (UpdateState { p with selected_ := some (l, k) } GRPC_CHANNEL_READY OkStatus
      (SubchannelPicker.Picker d.subchannel)) L (by simp [UpdateState, PickFirst.call, hcur]) hid
    (by simpa [UpdateState, PickFirst.call, PickFirst.isPending] using hpend)
  refine ⟨L', ?_, hid', htf', ?_⟩
  · have hl : PickFirst.list { p with selected_ := some (l, k) } l = some L := by
      simp [PickFirst.list, PickFirst.isCurrent, hcur, hid]
    have hsd : PickFirst.subchannel_data { p with selected_ := some (l, k) } (l, k) = some d := by
      simp [PickFirst.subchannel_data, hl, PickFirstSubchannelList.subchannel, hd]
    simp only [ProcessUnselectedReadyLocked, hisc, hpend, Bool.or_false, Bool.not_true,
      Bool.false_eq_true, if_false, hl, hsd, PickFirstSubchannelList.num_subchannels]
    rw [hq]
    simp [UpdateState, PickFirst.call]
  · intro j
    rw [hent' j]
    cases h : L.subchannels[j]? with
    | none => rfl
    | some x =>
      have hj := lt_of_getElem? _ _ _ h
      simp [hj]

/-- `ProcessUnselectedReadyLocked` on entry `k` of the pending list: the pending
list is promoted first. -/
theorem ProcessUnselectedReadyLocked_pending (p : PickFirst) (l k : Nat)
    (P : PickFirstSubchannelList) (d : PickFirstSubchannelData)
    (hpend : p.latest_pending_subchannel_list_ = some P) (hid : P.id = l)
    (hd : P.subchannels[k]? = some d) :
    ∃ L', ProcessUnselectedReadyLocked p (l, k) = some
        { p with subchannel_list_ := some L', latest_pending_subchannel_list_ := none,
                 selected_ := some (l, k),
                 calls := p.calls ++
                   [Call.UpdateState GRPC_CHANNEL_READY OkStatus (SubchannelPicker.Picker d.subchannel)]
                   ++ ((List.range P.subchannels.length).filter (fun i => decide (i ≠ k))).map
                     (fun i => Call.ShutdownLocked (l, i)) } ∧
      L'.id = l ∧ L'.in_transient_failure_ = P.in_transient_failure_ ∧
      ∀ j, L'.subchannels[j]? = (P.subchannels[j]?).map (fun e =>
        if j ≠ k then { e with pending_watcher_ := false, shutdown_ := true } else e) := by
  have hisp : p.isPending l = true := by simp [PickFirst.isPending, hpend, hid]
  obtain ⟨L', hq, hrest⟩ := ProcessUnselectedReadyLocked_current
    { p with subchannel_list_ := some P, latest_pending_subchannel_list_ := none } l k P d rfl hid
    (by simp [PickFirst.isPending]) hd
  refine ⟨L', ?_, hrest⟩
  rw [← hq]
  simp [ProcessUnselectedReadyLocked, hisp, hpend, PickFirst.isCurrent, PickFirst.isPending, hid]


/-! ## Lemmas: connection planning -/

/-- Unfolding of connection planning when the scan finds READY entry `k`
(pick_first.cc:215-228). -/
theorem attempt_found (env : Env) (p : PickFirst) (S : PickFirstSubchannelList)
    (cs : List Call) (k : Nat)
    (hne : (p.newSubchannelList env).num_subchannels ≠ 0)
    (hscan : scanForReady env (p.newSubchannelList env).num_subchannels 0
      (p.newSubchannelList env) p.calls = (S, cs, some k)) :
    p.AttemptToConnectUsingLatestUpdateArgsLocked env =
      (ProcessUnselectedReadyLocked
        (StartConnectivityWatchLocked
          { p with next_list := p.next_list + 1, calls := cs, subchannel_list_ := some S }
          (S.id, k)) (S.id, k)).map
        (fun p3 => { p3 with latest_pending_subchannel_list_ := none }) := by
  simp only [PickFirst.AttemptToConnectUsingLatestUpdateArgsLocked, hne, if_false, hscan]
  cases ProcessUnselectedReadyLocked
        (StartConnectivityWatchLocked
          { p with next_list := p.next_list + 1, calls := cs, subchannel_list_ := some S }
          (S.id, k)) (S.id, k) <;> rfl

/-- Unfolding of connection planning when the scan finds no READY entry
(pick_first.cc:229-263). -/
theorem attempt_not_found (env : Env) (p : PickFirst) (S : PickFirstSubchannelList)
    (cs : List Call)
    (hne : (p.newSubchannelList env).num_subchannels ≠ 0)
    (hscan : scanForReady env (p.newSubchannelList env).num_subchannels 0
      (p.newSubchannelList env) p.calls = (S, cs, none)) :
    p.AttemptToConnectUsingLatestUpdateArgsLocked env =
      if p.selected_ = none then
        some (RequestConnection (StartConnectivityWatchLocked
          { p with next_list := p.next_list + 1, calls := cs, subchannel_list_ := some S }
          (S.id, 0)) (S.id, 0))
      else
        some (RequestConnection (StartConnectivityWatchLocked
          { p with next_list := p.next_list + 1, calls := cs,
                   latest_pending_subchannel_list_ := some S }
          (S.id, 0)) (S.id, 0)) := by
  simp only [PickFirst.AttemptToConnectUsingLatestUpdateArgsLocked, hne, if_false, hscan]

/-- Unfolding of connection planning for an empty new list (pick_first.cc:190-209). -/
theorem attempt_empty (env : Env) (p : PickFirst)
    (he : (p.newSubchannelList env).num_subchannels = 0) :
    p.AttemptToConnectUsingLatestUpdateArgsLocked env = some
      { p with next_list := p.next_list + 1
               subchannel_list_ := some (p.newSubchannelList env)
               selected_ := none
               latest_pending_subchannel_list_ := none
               calls := p.calls ++
                 [Call.UpdateState GRPC_CHANNEL_TRANSIENT_FAILURE
                   (match p.latest_update_args_.addresses with
                    | StatusOr.value _ =>
                      UnavailableError
                        ("empty address list: " ++ p.latest_update_args_.resolution_note)
                    | StatusOr.status s => s)
                   (SubchannelPicker.TransientFailurePicker
                     (match p.latest_update_args_.addresses with
                      | StatusOr.value _ =>
                        UnavailableError
                          ("empty address list: " ++ p.latest_update_args_.resolution_note)
                      | StatusOr.status s => s))] } := by
  simp only [PickFirst.AttemptToConnectUsingLatestUpdateArgsLocked, he, if_true, UpdateState,
    PickFirst.call]

theorem StartConnectivityWatchLocked_current (p : PickFirst) (l k : Nat)
    (L : PickFirstSubchannelList) (hcur : p.subchannel_list_ = some L) (hid : L.id = l)
    (hpend : p.isPending l = false) :
    StartConnectivityWatchLocked p (l, k) =
      { p with subchannel_list_ :=
                 some (L.modify k (fun sd => { sd with pending_watcher_ := true }))
               calls := p.calls ++ [Call.StartConnectivityWatchLocked (l, k)] } := by
  simp only [StartConnectivityWatchLocked, PickFirst.onData]
  rw [onList_of_current p l L _ hcur hid hpend]
  rfl

theorem StartConnectivityWatchLocked_pending (p : PickFirst) (l k : Nat)
    (P : PickFirstSubchannelList) (hpend : p.latest_pending_subchannel_list_ = some P)
    (hid : P.id = l) (hcur : p.isCurrent l = false) :
    StartConnectivityWatchLocked p (l, k) =
      { p with latest_pending_subchannel_list_ :=
                 some (P.modify k (fun sd => { sd with pending_watcher_ := true }))
               calls := p.calls ++ [Call.StartConnectivityWatchLocked (l, k)] } := by
  simp only [StartConnectivityWatchLocked, PickFirst.onData]
  rw [onList_of_pending p l P _ hpend hid hcur]
  rfl


theorem map_eq_of_pointwise {β : Type} (L L' : List PickFirstSubchannelData)
    (g : Nat → PickFirstSubchannelData → PickFirstSubchannelData)
    (π : PickFirstSubchannelData → β)
    (h : ∀ j, L'[j]? = (L[j]?).map (g j)) (hπ : ∀ j e, π (g j e) = π e) :
    L'.map π = L.map π := by
  apply List.ext_getElem?
  intro j
  rw [List.getElem?_map, List.getElem?_map, h j]
  cases L[j]? with
  | none => rfl
  | some e => simp [hπ]

theorem MakeSubchannelList_entry (env : Env) (id : ListId) (addresses : List ServerAddress)
    (args : ChannelArgs) (j : Nat) (e : PickFirstSubchannelData)
    (h : (MakeSubchannelList env id addresses args).subchannels[j]? = some e) :
    e.pending_watcher_ = false ∧ e.shutdown_ = false := by
  have hmem : e ∈ (MakeSubchannelList env id addresses args).subchannels :=
    List.getElem?_mem h
  simp only [MakeSubchannelList, List.mem_filterMap] at hmem
  obtain ⟨a, _, ha⟩ := hmem
  cases hs : env.CreateSubchannel a
    (grpc_channel_args_copy_and_add args [(GRPC_ARG_INHIBIT_HEALTH_CHECKING, 1)]) with
  | none => simp [hs] at ha
  | some sub =>
    simp [hs] at ha
    subst ha
    exact ⟨rfl, rfl⟩

theorem updateSubchannelList_entry (env : Env) (p : PickFirst) (args : UpdateArgs) (j : Nat)
    (e : PickFirstSubchannelData)
    (h : (p.updateSubchannelList env args).subchannels[j]? = some e) :
    e.pending_watcher_ = false ∧ e.shutdown_ = false :=
  MakeSubchannelList_entry _ _ _ _ j e h

theorem UpdateLocked_not_idle (env : Env) (p : PickFirst) (args : UpdateArgs)
    (hidle : p.idle_ = false) :
    p.UpdateLocked env args =
      PickFirst.AttemptToConnectUsingLatestUpdateArgsLocked env
        { p with latest_update_args_ := p.storedUpdateArgs args } := by
  simp [PickFirst.UpdateLocked, hidle]

/-- Fast-adopt, stated for connection planning on any stored arguments. -/
theorem attempt_fast_adopt (env : Env) (p : PickFirst) (k : Nat)
    (d : PickFirstSubchannelData)
    (hfresh : p.isPending p.next_list = false)
    (hk : (p.newSubchannelList env).subchannels[k]? = some d)
    (hready : env.CheckConnectivityState d.subchannel = GRPC_CHANNEL_READY)
    (hmin : ∀ j e, j < k → (p.newSubchannelList env).subchannels[j]? = some e →
      env.CheckConnectivityState e.subchannel ≠ GRPC_CHANNEL_READY) :
    ∃ p' L', p.AttemptToConnectUsingLatestUpdateArgsLocked env = some p' ∧
      p'.subchannel_list_ = some L' ∧
      L'.id = (p.newSubchannelList env).id ∧
      L'.subchannels.map (fun e => (e.address, e.subchannel)) =
        (p.newSubchannelList env).subchannels.map (fun e => (e.address, e.subchannel)) ∧
      p'.selected_ = some (L'.id, k) ∧
      p'.latest_pending_subchannel_list_ = none ∧
      publications p'.calls = publications p.calls ++
        [(GRPC_CHANNEL_READY, OkStatus, SubchannelPicker.Picker d.subchannel)] ∧
      (∀ j e, L'.subchannels[j]? = some e → j ≠ k → e.shutdown_ = true) ∧
      (∃ e, L'.subchannels[k]? = some e ∧ e.subchannel = d.subchannel ∧
        e.pending_watcher_ = true ∧ e.shutdown_ = false) ∧
      p'.latest_update_args_ = p.latest_update_args_ ∧ p'.idle_ = p.idle_ ∧
      p'.shutdown_ = p.shutdown_ := by
  have hklt := lt_of_getElem? _ _ _ hk
  obtain ⟨S, cs', hscan, hSid, hStf, hSent, new, hcs, hnew⟩ :=
    scanForReady_found env (p.newSubchannelList env).subchannels.length 0
      (p.newSubchannelList env) p.calls k d (Nat.zero_le _) (by omega) hk hready
      (fun j e _ hjk he => hmin j e hjk he)
  have hSid' : S.id = p.next_list := hSid
  have hne : (p.newSubchannelList env).num_subchannels ≠ 0 := by
    simp only [PickFirstSubchannelList.num_subchannels]; omega
  have hpendS : p.isPending S.id = false := by rw [hSid']; exact hfresh
  have hSk : (S.modify k (fun sd => { sd with pending_watcher_ := true })).subchannels[k]? =
      some { (CheckConnectivityStateLocked env d).1 with pending_watcher_ := true } := by
    rw [modify_getElem?, hSent k, hk]
    simp
  rw [attempt_found env p S cs' k hne hscan,
    StartConnectivityWatchLocked_current
      { p with next_list := p.next_list + 1, calls := cs', subchannel_list_ := some S }
      S.id k S rfl rfl hpendS]
  obtain ⟨L', hpur, hLid, hLtf, hLent⟩ := ProcessUnselectedReadyLocked_current
    { p with next_list := p.next_list + 1,
             calls := cs' ++ [Call.StartConnectivityWatchLocked (S.id, k)],
             subchannel_list_ := some (S.modify k (fun sd => { sd with pending_watcher_ := true })) }
    S.id k _ _ rfl (modify_id _ _ _) hpendS hSk
  rw [hpur]
  obtain ⟨hn1, _, _, _⟩ := observations_of_checks new hnew
  have hentry : ∀ j, L'.subchannels[j]? =
      ((p.newSubchannelList env).subchannels[j]?).map (fun e =>
        if j ≠ k then
          { (if j ≤ k then (CheckConnectivityStateLocked env e).1 else e) with
            pending_watcher_ := false, shutdown_ := true }
        else { (CheckConnectivityStateLocked env e).1 with pending_watcher_ := true }) := by
    intro j
    rw [hLent j, modify_getElem?, hSent j]
    cases (p.newSubchannelList env).subchannels[j]? with
    | none => rfl
    | some x =>
      by_cases hjk : j = k
      · subst hjk; simp
      · by_cases hle : j ≤ k
        · simp [hjk, hle]
        · simp [hjk, hle]
  refine ⟨_, L', rfl, rfl, by rw [hLid]; exact hSid, ?_, by rw [hLid], rfl, ?_, ?_, ?_,
    rfl, rfl, rfl⟩
  · apply map_eq_of_pointwise _ _ _ _ hentry
    intro j e
    by_cases hjk : j = k
    · simp [hjk, CheckConnectivityStateLocked]
    · by_cases hle : j ≤ k <;> simp [hjk, hle, CheckConnectivityStateLocked]
  · simp only [hcs, publications_append, hn1]
    have := (observations_of_shutdowns S.id
      ((List.range (S.modify k (fun sd => { sd with pending_watcher_ := true })).subchannels.length).filter
        (fun i => decide (i ≠ k)))).1
    rw [this]
    simp [publications, CheckConnectivityStateLocked]
  · intro j e he hjk
    rw [hentry j] at he
    cases hx : (p.newSubchannelList env).subchannels[j]? with
    | none => rw [hx] at he; cases he
    | some x =>
      rw [hx] at he
      simp [hjk] at he
      rw [← he]
  · refine ⟨{ (CheckConnectivityStateLocked env d).1 with pending_watcher_ := true }, ?_, rfl,
      rfl, (MakeSubchannelList_entry _ _ _ _ k d hk).2⟩
    rw [hentry k, hk]; simp


/-! ## Lemmas: events on the pending list -/

theorem list_of_pending (p : PickFirst) (P : PickFirstSubchannelList)
    (hpend : p.latest_pending_subchannel_list_ = some P) (hcur : p.isCurrent P.id = false) :
    p.list P.id = some P := by
  simp [PickFirst.list, PickFirst.isPending, hpend, hcur]

theorem subchannel_data_of_pending (p : PickFirst) (P : PickFirstSubchannelList) (i : Nat)
    (hpend : p.latest_pending_subchannel_list_ = some P) (hcur : p.isCurrent P.id = false) :
    p.subchannel_data (P.id, i) = P.subchannels[i]? := by
  simp [PickFirst.subchannel_data, list_of_pending p P hpend hcur,
    PickFirstSubchannelList.subchannel]

theorem isCurrent_of_ne (p : PickFirst) (cur : PickFirstSubchannelList) (l : ListId)
    (hcur : p.subchannel_list_ = some cur) (hne : cur.id ≠ l) : p.isCurrent l = false := by
  simp [PickFirst.isCurrent, hcur, hne]

/-- Selection held, stated for connection planning on any stored arguments. -/
theorem attempt_selection_held (env : Env) (p : PickFirst) (sel : SubchannelDataRef)
    (hsel : p.selected_ = some sel)
    (hfresh : p.isCurrent p.next_list = false)
    (hne : (p.newSubchannelList env).num_subchannels ≠ 0)
    (hnot : ∀ (j : Nat) (e : PickFirstSubchannelData), (p.newSubchannelList env).subchannels[j]? = some e →
      env.CheckConnectivityState e.subchannel ≠ GRPC_CHANNEL_READY) :
    ∃ p' L', p.AttemptToConnectUsingLatestUpdateArgsLocked env = some p' ∧
      p'.latest_pending_subchannel_list_ = some L' ∧
      L'.id = (p.newSubchannelList env).id ∧
      L'.in_transient_failure_ = false ∧
      (∀ j : Nat, L'.subchannels[j]? = ((p.newSubchannelList env).subchannels[j]?).map (fun (e : PickFirstSubchannelData) =>
        { e with connectivity_state_ := env.CheckConnectivityState e.subchannel,
                 pending_watcher_ := decide (j = 0) })) ∧
      p'.subchannel_list_ = p.subchannel_list_ ∧
      p'.selected_ = p.selected_ ∧
      publications p'.calls = publications p.calls ∧
      reresolutions p'.calls = reresolutions p.calls ∧
      watchStarts p'.calls = watchStarts p.calls ++ [(L'.id, 0)] ∧
      connectionRequests p'.calls = connectionRequests p.calls ++ [(L'.id, 0)] ∧
      p'.latest_update_args_ = p.latest_update_args_ ∧ p'.idle_ = p.idle_ ∧
      p'.shutdown_ = p.shutdown_ := by
  obtain ⟨S, cs', hscan, hSid, hStf, hSent, new, hcs, hnew⟩ :=
    scanForReady_none env (p.newSubchannelList env).subchannels.length 0
      (p.newSubchannelList env) p.calls (by omega) (fun j e _ he => hnot j e he)
  have hSid' : S.id = p.next_list := hSid
  have hcurS : p.isCurrent S.id = false := by rw [hSid']; exact hfresh
  have hselne : ¬ p.selected_ = none := by rw [hsel]; simp
  rw [attempt_not_found env p S cs' hne hscan]
  simp only [hselne, if_false]
  rw [StartConnectivityWatchLocked_pending
    { p with next_list := p.next_list + 1, calls := cs',
             latest_pending_subchannel_list_ := some S } S.id 0 S rfl rfl hcurS]
  obtain ⟨hn1, hn2, hn3, hn4⟩ := observations_of_checks new hnew
  refine ⟨_, _, rfl, rfl, ?_, ?_, ?_, rfl, rfl, ?_, ?_, ?_, ?_, rfl, rfl, rfl⟩
  · rw [modify_id]; exact hSid
  · rw [modify_in_transient_failure]; exact hStf
  · intro j
    rw [modify_getElem?, hSent j]
    cases hx : (p.newSubchannelList env).subchannels[j]? with
    | none => rfl
    | some x =>
      have hw := (MakeSubchannelList_entry _ _ _ _ j x hx).1
      by_cases hj : j = 0
      · subst hj; simp [CheckConnectivityStateLocked]
      · simp [hj, CheckConnectivityStateLocked, hw]
  · simp only [RequestConnection, PickFirst.call, hcs, publications_append, hn1]
    simp [publications]
  · simp only [RequestConnection, PickFirst.call, hcs, reresolutions_append, hn2]
    simp [reresolutions]
  · simp only [RequestConnection, PickFirst.call, hcs, watchStarts_append, hn4]
    simp [watchStarts, modify_id]
  · simp only [RequestConnection, PickFirst.call, hcs, connectionRequests_append, hn3]
    simp [connectionRequests, modify_id]

/-! ## Lemmas: failure reports -/

theorem onData_of_current (p : PickFirst) (l k : Nat) (L : PickFirstSubchannelList)
    (f : PickFirstSubchannelData → PickFirstSubchannelData)
    (hcur : p.subchannel_list_ = some L) (hid : L.id = l) (hpend : p.isPending l = false) :
    p.onData (l, k) f = { p with subchannel_list_ := some (L.modify k f) } :=
  onList_of_current p l L _ hcur hid hpend

theorem onData_of_pending (p : PickFirst) (l k : Nat) (P : PickFirstSubchannelList)
    (f : PickFirstSubchannelData → PickFirstSubchannelData)
    (hpend : p.latest_pending_subchannel_list_ = some P) (hid : P.id = l)
    (hcur : p.isCurrent l = false) :
    p.onData (l, k) f = { p with latest_pending_subchannel_list_ := some (P.modify k f) } :=
  onList_of_pending p l P _ hpend hid hcur

/-- Unfolding of `CheckConnectivityStateAndStartWatchingLocked` on an entry whose
state, read before the watch is attached, is not READY. -/
theorem CheckConnectivityStateAndStartWatchingLocked_not_ready (env : Env) (p : PickFirst)
    (this : SubchannelDataRef) (e : PickFirstSubchannelData)
    (hsd : p.subchannel_data this = some e)
    (hnr : env.CheckConnectivityState e.subchannel ≠ GRPC_CHANNEL_READY) :
    CheckConnectivityStateAndStartWatchingLocked env p this =
      some (RequestConnection (StartConnectivityWatchLocked
        ((p.onData this (fun d => (CheckConnectivityStateLocked env d).1)).call
          (Call.CheckConnectivityStateLocked this)) this) this) := by
  simp [CheckConnectivityStateAndStartWatchingLocked, hsd, CheckConnectivityStateLocked, hnr]

/-- Unfolding of `ProcessConnectivityChangeLocked` for TRANSIENT_FAILURE or IDLE
reported by an unselected entry of a live list (pick_first.cc:375-419). -/
theorem ProcessConnectivityChangeLocked_failure (env : Env) (p : PickFirst)
    (this : SubchannelDataRef) (st : grpc_connectivity_state) (L : PickFirstSubchannelList)
    (d : PickFirstSubchannelData)
    (hl : p.list this.1 = some L) (hsd : p.subchannel_data this = some d)
    (hsel : ¬ p.selected_ = some this)
    (hst : st = GRPC_CHANNEL_TRANSIENT_FAILURE ∨ st = GRPC_CHANNEL_IDLE) :
    ProcessConnectivityChangeLocked env p this st =
      CheckConnectivityStateAndStartWatchingLocked env
        (if (this.2 + 1) % L.num_subchannels = 0 then
          (if (set_in_transient_failure
                (CancelConnectivityWatchLocked p this "connection attempt failed")
                this.1 true).isPending this.1 then
            UpdateState (RequestReresolution
              { set_in_transient_failure
                  (CancelConnectivityWatchLocked p this "connection attempt failed") this.1 true
                with
                selected_ := none
                subchannel_list_ := (set_in_transient_failure
                  (CancelConnectivityWatchLocked p this "connection attempt failed")
                  this.1 true).latest_pending_subchannel_list_
                latest_pending_subchannel_list_ := none })
              GRPC_CHANNEL_TRANSIENT_FAILURE
              (UnavailableError "failed to connect to all addresses")
              (SubchannelPicker.TransientFailurePicker
                (UnavailableError "failed to connect to all addresses"))
          else if (set_in_transient_failure
                (CancelConnectivityWatchLocked p this "connection attempt failed")
                this.1 true).isCurrent this.1 then
            UpdateState (RequestReresolution
              (set_in_transient_failure
                (CancelConnectivityWatchLocked p this "connection attempt failed") this.1 true))
              GRPC_CHANNEL_TRANSIENT_FAILURE
              (UnavailableError "failed to connect to all addresses")
              (SubchannelPicker.TransientFailurePicker
                (UnavailableError "failed to connect to all addresses"))
          else set_in_transient_failure
                (CancelConnectivityWatchLocked p this "connection attempt failed") this.1 true)
         else CancelConnectivityWatchLocked p this "connection attempt failed")
        (this.1, (this.2 + 1) % L.num_subchannels) := by
  have hisP : ∀ q : PickFirst, q.isPending this.1 = true →
      PickFirst.isCurrent { q with selected_ := none
                                   subchannel_list_ := q.latest_pending_subchannel_list_
                                   latest_pending_subchannel_list_ := none } this.1 = true := by
    intro q hq
    simpa [PickFirst.isCurrent, PickFirst.isPending] using hq
  rcases hst with hst | hst <;> subst hst <;>
  · simp only [ProcessConnectivityChangeLocked, hl, hsd, hsel, if_false]
    by_cases h0 : (this.2 + 1) % L.num_subchannels = 0
    · by_cases hp : (set_in_transient_failure
          (CancelConnectivityWatchLocked p this "connection attempt failed")
          this.1 true).isPending this.1 = true
      · simp [h0, hp, hisP _ hp]
      · simp [h0, hp]
    · simp [h0]


/-! ## Lemmas: the all-fail sweep -/

/-- One failure of the sweep that is not the last one: the watch and the
connection request move to the next entry, silently. -/
theorem sweep_step (env : Env) (n k : Nat) (p : PickFirst)
    (hnr : ∀ s, env.CheckConnectivityState s ≠ GRPC_CHANNEL_READY)
    (hinv : SweepInv n k p) (hk : k + 1 < n) :
    ∃ p', ProcessConnectivityChangeLocked env p (0, k) GRPC_CHANNEL_TRANSIENT_FAILURE = some p' ∧
      SweepInv n (k + 1) p' := by
  obtain ⟨L, hcur, hlen, htf, hw, hpend, hsel, hpub, hre, hreq, hid⟩ := hinv
  have hl := list_of_current p L hcur
  obtain ⟨d, hd⟩ := getElem?_of_lt L.subchannels k (by omega)
  obtain ⟨e, he⟩ := getElem?_of_lt L.subchannels (k + 1) (by omega)
  have hsd := subchannel_data_of_current p L k hcur
  rw [hd] at hsd
  have hselne : ¬ p.selected_ = some (L.id, k) := by rw [hsel]; simp
  have hmod : (k + 1) % L.num_subchannels = k + 1 :=
    Nat.mod_eq_of_lt (by simp only [PickFirstSubchannelList.num_subchannels]; omega)
  rw [← hid, ProcessConnectivityChangeLocked_failure env p (L.id, k)
    GRPC_CHANNEL_TRANSIENT_FAILURE L d hl hsd hselne (Or.inl rfl)]
  simp only [hmod]
  simp only [Nat.succ_ne_zero, if_false]
  simp [CheckConnectivityStateAndStartWatchingLocked, CheckConnectivityStateLocked,
      CancelConnectivityWatchLocked, PickFirst.onData,
      PickFirst.onList, PickFirst.call, PickFirst.isPending, PickFirst.isCurrent, hcur, hpend,
      PickFirst.subchannel_data, PickFirst.list,
      PickFirstSubchannelList.subchannel, modify_getElem?, modify_id, he, hnr,
      StartConnectivityWatchLocked, RequestConnection, modify_in_transient_failure, SweepInv,
      publications_append, reresolutions_append, connectionRequests_append, modify_length, hlen,
      htf, hpub, hre, hsel]
  refine ⟨?_, rfl, rfl, Or.inl rfl, hid⟩
  intro j a ha
  have hwa := hw j a ha
  by_cases hj1 : j = k + 1
  · simp [hj1]
  · by_cases hj : j = k
    · simp [hj]
    · simp [hj1, hj, hwa]


/-- The last failure of the sweep: one re-resolution request and the
TRANSIENT_FAILURE publication. -/
theorem sweep_last (env : Env) (n k : Nat) (p : PickFirst)
    (hnr : ∀ s, env.CheckConnectivityState s ≠ GRPC_CHANNEL_READY)
    (hinv : SweepInv n k p) (hk : k + 1 = n) :
    ∃ p', ProcessConnectivityChangeLocked env p (0, k) GRPC_CHANNEL_TRANSIENT_FAILURE = some p' ∧
      publications p'.calls =
        [(GRPC_CHANNEL_TRANSIENT_FAILURE, UnavailableError "failed to connect to all addresses",
          SubchannelPicker.TransientFailurePicker
            (UnavailableError "failed to connect to all addresses"))] ∧
      reresolutions p'.calls = 1 := by
  obtain ⟨L, hcur, hlen, htf, hw, hpend, hsel, hpub, hre, hreq, hid⟩ := hinv
  have hl := list_of_current p L hcur
  obtain ⟨d, hd⟩ := getElem?_of_lt L.subchannels k (by omega)
  obtain ⟨e, he⟩ := getElem?_of_lt L.subchannels 0 (by omega)
  have hsd := subchannel_data_of_current p L k hcur
  rw [hd] at hsd
  have hselne : ¬ p.selected_ = some (L.id, k) := by rw [hsel]; simp
  have hmod : (k + 1) % L.num_subchannels = 0 := by
    simp only [PickFirstSubchannelList.num_subchannels, hlen, hk, Nat.mod_self]
  rw [← hid, ProcessConnectivityChangeLocked_failure env p (L.id, k)
    GRPC_CHANNEL_TRANSIENT_FAILURE L d hl hsd hselne (Or.inl rfl)]
  simp only [hmod]
  simp [CheckConnectivityStateAndStartWatchingLocked, CheckConnectivityStateLocked,
      CancelConnectivityWatchLocked, PickFirst.onData, set_in_transient_failure,
      PickFirst.onList, PickFirst.call, PickFirst.isPending, PickFirst.isCurrent, hcur, hpend,
      PickFirst.subchannel_data, PickFirst.list, UpdateState, RequestReresolution,
      PickFirstSubchannelList.subchannel, modify_getElem?, modify_id, he, hnr,
      StartConnectivityWatchLocked, RequestConnection, modify_in_transient_failure,
      publications_append, reresolutions_append, hpub, hre, hsel]
  exact ⟨rfl, rfl⟩

theorem length_eq_of_pointwise (L L' : List PickFirstSubchannelData)
    (g : Nat → PickFirstSubchannelData → PickFirstSubchannelData)
    (h : ∀ j, L'[j]? = (L[j]?).map (g j)) : L'.length = L.length := by
  have := map_eq_of_pointwise L L' g (fun _ => ()) h (fun _ _ => rfl)
  simpa using congrArg List.length this

/-- No selection yet, stated for connection planning on any stored arguments
(pick_first.cc:229-239). -/
theorem attempt_no_selection (env : Env) (p : PickFirst)
    (hsel : p.selected_ = none)
    (hfresh : p.isPending p.next_list = false)
    (hne : (p.newSubchannelList env).num_subchannels ≠ 0)
    (hnot : ∀ (j : Nat) (e : PickFirstSubchannelData),
      (p.newSubchannelList env).subchannels[j]? = some e →
      env.CheckConnectivityState e.subchannel ≠ GRPC_CHANNEL_READY) :
    ∃ p' L', p.AttemptToConnectUsingLatestUpdateArgsLocked env = some p' ∧
      p'.subchannel_list_ = some L' ∧
      L'.id = (p.newSubchannelList env).id ∧
      L'.in_transient_failure_ = false ∧
      (∀ j : Nat, L'.subchannels[j]? = ((p.newSubchannelList env).subchannels[j]?).map
        (fun (e : PickFirstSubchannelData) =>
          { e with connectivity_state_ := env.CheckConnectivityState e.subchannel,
                   pending_watcher_ := decide (j = 0) })) ∧
      p'.latest_pending_subchannel_list_ = p.latest_pending_subchannel_list_ ∧
      p'.selected_ = none ∧
      publications p'.calls = publications p.calls ∧
      reresolutions p'.calls = reresolutions p.calls ∧
      watchStarts p'.calls = watchStarts p.calls ++ [(L'.id, 0)] ∧
      connectionRequests p'.calls = connectionRequests p.calls ++ [(L'.id, 0)] ∧
      p'.latest_update_args_ = p.latest_update_args_ ∧ p'.idle_ = p.idle_ ∧
      p'.shutdown_ = p.shutdown_ := by
  obtain ⟨S, cs', hscan, hSid, hStf, hSent, new, hcs, hnew⟩ :=
    scanForReady_none env (p.newSubchannelList env).subchannels.length 0
      (p.newSubchannelList env) p.calls (by omega) (fun j e _ he => hnot j e he)
  have hSid' : S.id = p.next_list := hSid
  have hpendS : p.isPending S.id = false := by rw [hSid']; exact hfresh
  rw [attempt_not_found env p S cs' hne hscan, if_pos hsel]
  rw [StartConnectivityWatchLocked_current
    { p with next_list := p.next_list + 1, calls := cs', subchannel_list_ := some S }
    S.id 0 S rfl rfl hpendS]
  obtain ⟨hn1, hn2, hn3, hn4⟩ := observations_of_checks new hnew
  refine ⟨_, _, rfl, rfl, ?_, ?_, ?_, rfl, hsel, ?_, ?_, ?_, ?_, rfl, rfl, rfl⟩
  · rw [modify_id]; exact hSid
  · rw [modify_in_transient_failure]; exact hStf
  · intro j
    rw [modify_getElem?, hSent j]
    cases hx : (p.newSubchannelList env).subchannels[j]? with
    | none => rfl
    | some x =>
      have hw := (MakeSubchannelList_entry _ _ _ _ j x hx).1
      by_cases hj : j = 0
      · subst hj; simp [CheckConnectivityStateLocked]
      · simp [hj, CheckConnectivityStateLocked, hw]
  · simp only [RequestConnection, PickFirst.call, hcs, publications_append, hn1]
    simp [publications]
  · simp only [RequestConnection, PickFirst.call, hcs, reresolutions_append, hn2]
    simp [reresolutions]
  · simp only [RequestConnection, PickFirst.call, hcs, watchStarts_append, hn4]
    simp [watchStarts, modify_id]
  · simp only [RequestConnection, PickFirst.call, hcs, connectionRequests_append, hn3]
    simp [connectionRequests, modify_id]

/-- The update that starts the sweep: entry 0 is watched and asked to connect. -/
theorem sweep_start (env0 : Env) (args : UpdateArgs) (n : Nat) (hn : 1 ≤ n)
    (hlen : (PickFirst.init.updateSubchannelList env0 args).num_subchannels = n)
    (h0 : ∀ s, env0.CheckConnectivityState s ≠ GRPC_CHANNEL_READY) :
    ∃ p0, PickFirst.init.UpdateLocked env0 args = some p0 ∧ SweepInv n 0 p0 := by
  obtain ⟨p', L', h1, h2, h3, h4, h5, h6, h7, h8, h9, _, h11, _⟩ := attempt_no_selection env0
    { PickFirst.init with latest_update_args_ := PickFirst.init.storedUpdateArgs args }
    rfl rfl (fun h => by have h2 : n = 0 := hlen.symm.trans h; omega) (fun j e _ => h0 _)
  rw [UpdateLocked_not_idle env0 _ args rfl]
  refine ⟨p', h1, L', h2, ?_, h4, ?_, h6, h7, h8, h9, ?_, h3⟩
  · rw [length_eq_of_pointwise _ _ _ h5]; exact hlen
  · intro j e he
    rw [h5 j] at he
    cases hx : (PickFirst.newSubchannelList env0
      { PickFirst.init with latest_update_args_ :=
          PickFirst.init.storedUpdateArgs args }).subchannels[j]? with
    | none => rw [hx] at he; cases he
    | some x =>
      rw [hx] at he
      simp at he
      rw [← he]
  · rw [h11, h3]
    simp [connectionRequests, PickFirst.init]

/-- The sweep keeps its invariant through the first `k < n` failures. -/
theorem sweep_run (envs : Nat → Env) (n : Nat) (p0 : PickFirst)
    (hk : ∀ t s, (envs t).CheckConnectivityState s ≠ GRPC_CHANNEL_READY)
    (hinv : SweepInv n 0 p0) :
    ∀ k, k < n → ∃ pk, failuresInOrder envs 0 k p0 = some pk ∧ SweepInv n k pk := by
  intro k
  induction k with
  | zero => intro _; exact ⟨p0, rfl, hinv⟩
  | succ k ih =>
    intro hlt
    obtain ⟨pk, hrun, hinvk⟩ := ih (by omega)
    obtain ⟨p', hstep, hinv'⟩ := sweep_step (envs k) n k pk (hk k) hinvk hlt
    exact ⟨p', by simp [failuresInOrder, hrun, hstep], hinv'⟩

/-! ## Lemmas: connection planning always returns -/

/-- Whatever the scan returns: the list keeps its address, the log only grows,
and an index returned names an entry of the returned list. -/
theorem scanForReady_cases (env : Env) :
    ∀ (n i : Nat) (L : PickFirstSubchannelList) (cs : List Call),
      (scanForReady env n i L cs).1.id = L.id ∧
      ∀ k, (scanForReady env n i L cs).2.2 = some k →
        ∃ e, (scanForReady env n i L cs).1.subchannels[k]? = some e := by
  intro n
  induction n with
  | zero => intro i L cs; exact ⟨rfl, fun k h => by cases h⟩
  | succ n ih =>
    intro i L cs
    cases he : L.subchannels[i]? with
    | none =>
      simp [scanForReady, PickFirstSubchannelList.subchannel, he]
    | some e =>
      by_cases hr : env.CheckConnectivityState e.subchannel = GRPC_CHANNEL_READY
      · have hr' : (CheckConnectivityStateLocked env e).2 = GRPC_CHANNEL_READY := hr
        simp only [scanForReady, PickFirstSubchannelList.subchannel, he, hr', if_true]
        refine ⟨modify_id _ _ _, ?_⟩
        intro k hk
        injection hk with hk
        subst hk
        rw [modify_getElem?, he]
        exact ⟨_, rfl⟩
      · have hr' : ¬ (CheckConnectivityStateLocked env e).2 = GRPC_CHANNEL_READY := hr
        simp only [scanForReady, PickFirstSubchannelList.subchannel, he, hr', if_false]
        obtain ⟨h1, h2⟩ := ih (i + 1)
          (L.modify i (fun d => (CheckConnectivityStateLocked env d).1))
          (cs ++ [Call.CheckConnectivityStateLocked (L.id, i)])
        exact ⟨by rw [h1, modify_id], h2⟩

/-- Connection planning returns (no assertion fails) and leaves the stored
arguments and the idle and shutdown flags alone. -/
theorem attempt_total (env : Env) (p : PickFirst)
    (hfresh : p.isPending p.next_list = false) :
    ∃ p', p.AttemptToConnectUsingLatestUpdateArgsLocked env = some p' ∧
      p'.latest_update_args_ = p.latest_update_args_ ∧ p'.idle_ = p.idle_ ∧
      p'.shutdown_ = p.shutdown_ := by
  by_cases hne : (p.newSubchannelList env).num_subchannels = 0
  · rw [attempt_empty env p hne]
    exact ⟨_, rfl, rfl, rfl, rfl⟩
  · obtain ⟨hid, hidx⟩ := scanForReady_cases env (p.newSubchannelList env).num_subchannels 0
      (p.newSubchannelList env) p.calls
    obtain ⟨S, cs, o, hscan⟩ : ∃ S cs o, scanForReady env
        (p.newSubchannelList env).num_subchannels 0 (p.newSubchannelList env) p.calls =
        (S, cs, o) := ⟨_, _, _, rfl⟩
    rw [hscan] at hid hidx
    have hSid : S.id = p.next_list := hid
    cases o with
    | none =>
      rw [attempt_not_found env p S cs hne hscan]
      by_cases hsel : p.selected_ = none
      · rw [if_pos hsel]
        exact ⟨_, rfl, by
          simp [RequestConnection, StartConnectivityWatchLocked, PickFirst.onData,
            PickFirst.onList, PickFirst.call]⟩
      · rw [if_neg hsel]
        exact ⟨_, rfl, by
          simp [RequestConnection, StartConnectivityWatchLocked, PickFirst.onData,
            PickFirst.onList, PickFirst.call]⟩
    | some k =>
      obtain ⟨e, he⟩ := hidx k rfl
      have hpendS : p.isPending S.id = false := by rw [hSid]; exact hfresh
      rw [attempt_found env p S cs k hne hscan,
        StartConnectivityWatchLocked_current
          { p with next_list := p.next_list + 1, calls := cs, subchannel_list_ := some S }
          S.id k S rfl rfl hpendS]
      have hSk : (S.modify k (fun sd => { sd with pending_watcher_ := true })).subchannels[k]? =
          some { e with pending_watcher_ := true } := by
        rw [modify_getElem?, he]
        simp
      obtain ⟨L', hpur, _⟩ := ProcessUnselectedReadyLocked_current
        { p with next_list := p.next_list + 1,
                 calls := cs ++ [Call.StartConnectivityWatchLocked (S.id, k)],
                 subchannel_list_ :=
                   some (S.modify k (fun sd => { sd with pending_watcher_ := true })) }
        S.id k _ _ rfl (modify_id _ _ _) hpendS hSk
      rw [hpur]
      exact ⟨_, rfl, rfl, rfl, rfl⟩

/-- Changing fields other than the address and the subchannel handle of one
entry leaves the (address, subchannel) pairs of the list as they were. -/
theorem modify_map_key (L : PickFirstSubchannelList) (i : Nat)
    (f : PickFirstSubchannelData → PickFirstSubchannelData)
    (hf : ∀ e, ((f e).address, (f e).subchannel) = (e.address, e.subchannel)) :
    (L.modify i f).subchannels.map (fun e => (e.address, e.subchannel)) =
      L.subchannels.map (fun e => (e.address, e.subchannel)) := by
  apply map_eq_of_pointwise _ _ (fun j e => if j = i then f e else e) _
    (fun j => modify_getElem? L i j f)
  intro j e
  by_cases h : j = i
  · simp only [h, if_true]; exact hf e
  · simp only [h, if_false]

/-! ## Lemmas: the ownership skeleton -/

theorem skeleton_onList (p : PickFirst) (l : ListId)
    (f : PickFirstSubchannelList → PickFirstSubchannelList) (hf : ∀ L, (f L).id = L.id) :
    (p.onList l f).skeleton = p.skeleton := by
  have h : ∀ o : Option PickFirstSubchannelList,
      (o.map (fun L => if L.id = l then f L else L)).map (fun L => L.id) =
        o.map (fun L => L.id) := by
    intro o
    cases o with
    | none => rfl
    | some L =>
      by_cases hl : L.id = l
      · simp [hl, hf]
      · simp [hl]
  simp [PickFirst.skeleton, PickFirst.onList, h]

theorem skeleton_onData (p : PickFirst) (sd : SubchannelDataRef)
    (f : PickFirstSubchannelData → PickFirstSubchannelData) :
    (p.onData sd f).skeleton = p.skeleton :=
  skeleton_onList p sd.1 _ (fun L => modify_id L sd.2 f)

theorem skeleton_call (p : PickFirst) (c : Call) : (p.call c).skeleton = p.skeleton := rfl

theorem skeleton_set_in_transient_failure (p : PickFirst) (l : ListId) (b : Bool) :
    (set_in_transient_failure p l b).skeleton = p.skeleton :=
  skeleton_onList p l _ (fun _ => rfl)

theorem skeleton_StartConnectivityWatchLocked (p : PickFirst) (sd : SubchannelDataRef) :
    (StartConnectivityWatchLocked p sd).skeleton = p.skeleton := by
  simp [StartConnectivityWatchLocked, skeleton_call, skeleton_onData]

theorem skeleton_CancelConnectivityWatchLocked (p : PickFirst) (sd : SubchannelDataRef)
    (reason : String) : (CancelConnectivityWatchLocked p sd reason).skeleton = p.skeleton := by
  simp [CancelConnectivityWatchLocked, skeleton_call, skeleton_onData]

theorem skeleton_ShutdownLocked (p : PickFirst) (sd : SubchannelDataRef) :
    (PickFirstSubchannelData.ShutdownLocked p sd).skeleton = p.skeleton := by
  simp [PickFirstSubchannelData.ShutdownLocked, skeleton_call, skeleton_onData]

theorem skeleton_shutdownOthers (this : SubchannelDataRef) (n : Nat) (p : PickFirst) :
    (shutdownOthers this n p).skeleton = p.skeleton := by
  induction n with
  | zero => rfl
  | succ n ih =>
    have hstep : shutdownOthers this (n + 1) p =
        (if n ≠ this.2 then
          PickFirstSubchannelData.ShutdownLocked (shutdownOthers this n p) (this.1, n)
         else shutdownOthers this n p) := by
      simp [shutdownOthers, List.range_succ, List.foldl_append]
    rw [hstep]
    by_cases h : n = this.2
    · simp [h]; rw [← h]; exact ih
    · simp only [ne_eq, h, not_false_eq_true, if_true, skeleton_ShutdownLocked]; exact ih

theorem isCurrent_eq_skeleton (p : PickFirst) (l : ListId) :
    p.isCurrent l = decide (p.skeleton.cur = some l) := by
  cases h : p.subchannel_list_ <;> simp [PickFirst.isCurrent, PickFirst.skeleton, h]

theorem isPending_eq_skeleton (p : PickFirst) (l : ListId) :
    p.isPending l = decide (p.skeleton.pend = some l) := by
  cases h : p.latest_pending_subchannel_list_ <;>
    simp [PickFirst.isPending, PickFirst.skeleton, h]

/-- Skeleton of the result of `ProcessUnselectedReadyLocked`. -/
theorem skeleton_ProcessUnselectedReadyLocked (p p' : PickFirst) (this : SubchannelDataRef)
    (h : ProcessUnselectedReadyLocked p this = some p') :
    p'.skeleton = p.skeleton.selectReady this ∧
      (p.skeleton.cur = some this.1 ∨ p.skeleton.pend = some this.1) := by
  unfold ProcessUnselectedReadyLocked at h
  by_cases hlive : (p.isCurrent this.1 || p.isPending this.1) = true
  · simp only [hlive, Bool.not_true, Bool.false_eq_true, if_false] at h
    have hlive' : p.skeleton.cur = some this.1 ∨ p.skeleton.pend = some this.1 := by
      simpa [isCurrent_eq_skeleton, isPending_eq_skeleton] using hlive
    refine ⟨?_, hlive'⟩
    by_cases hp : p.isPending this.1 = true
    · have hp' : p.skeleton.pend = some this.1 := by
        simpa [isPending_eq_skeleton] using hp
      simp only [hp, if_true] at h
      split at h
      · injection h with h
        rw [← h, skeleton_shutdownOthers, Skeleton.selectReady, if_pos hp']
        rfl
      · cases h
    · have hp' : ¬ p.skeleton.pend = some this.1 := by
        simpa [isPending_eq_skeleton] using hp
      simp only [hp, if_false] at h
      split at h
      · injection h with h
        rw [← h, skeleton_shutdownOthers, Skeleton.selectReady, if_neg hp']
        rfl
      · cases h
  · simp [hlive] at h

theorem selectReady_WF (s : Skeleton) (this : SubchannelDataRef) (hwf : s.WF)
    (hlive : s.cur = some this.1 ∨ s.pend = some this.1) : (s.selectReady this).WF := by
  obtain ⟨h1, h2, h3, h4, h5⟩ := hwf
  have hlt : this.1 < s.next := by
    rcases hlive with h | h
    · exact h1 _ h
    · exact h2 _ h
  unfold Skeleton.selectReady
  by_cases hp : s.pend = some this.1
  · rw [if_pos hp]
    refine ⟨fun i hi => h2 i hi, fun i hi => (by cases hi), ?_, fun h => (by cases h),
      fun i j _ hj => (by cases hj)⟩
    intro sd hsd
    injection hsd with hsd
    rw [← hsd]; exact hlt
  · rw [if_neg hp]
    refine ⟨h1, h2, ?_, fun _ => rfl, h5⟩
    intro sd hsd
    injection hsd with hsd
    rw [← hsd]; exact hlt

/-- Skeleton after a pending list is promoted and `selected_` is cleared. -/
theorem promote_WF (s : Skeleton) (hwf : s.WF) :
    Skeleton.WF { cur := s.pend, pend := none, sel := none, next := s.next } := by
  obtain ⟨_, h2, _, _, _⟩ := hwf
  exact ⟨fun i hi => h2 i hi, fun i hi => (by cases hi), fun sd hsd => (by cases hsd),
    fun h => (by cases h), fun i j _ hj => (by cases hj)⟩

/-- Skeleton of the result of `CheckConnectivityStateAndStartWatchingLocked`. -/
theorem skeleton_CheckConnectivityStateAndStartWatchingLocked (env : Env) (p p' : PickFirst)
    (this : SubchannelDataRef)
    (h : CheckConnectivityStateAndStartWatchingLocked env p this = some p') :
    p'.skeleton = p.skeleton ∨
      (p'.skeleton = p.skeleton.selectReady this ∧
        (p.skeleton.cur = some this.1 ∨ p.skeleton.pend = some this.1)) := by
  unfold CheckConnectivityStateAndStartWatchingLocked at h
  split at h
  · cases h
  · rename_i sd hsd
    have hsk : (StartConnectivityWatchLocked
        ((p.onData this (fun d => (CheckConnectivityStateLocked env d).1)).call
          (Call.CheckConnectivityStateLocked this)) this).skeleton = p.skeleton := by
      rw [skeleton_StartConnectivityWatchLocked, skeleton_call, skeleton_onData]
    by_cases hr : (CheckConnectivityStateLocked env sd).2 = GRPC_CHANNEL_READY
    · simp only [hr, if_true] at h
      split at h
      · obtain ⟨h1, h2⟩ := skeleton_ProcessUnselectedReadyLocked _ _ _ h
        rw [hsk] at h1 h2
        exact Or.inr ⟨h1, h2⟩
      · injection h with h
        rw [← h]; exact Or.inl hsk
    · simp only [hr, if_false] at h
      injection h with h
      rw [← h]
      exact Or.inl hsk

theorem WF_CheckConnectivityStateAndStartWatchingLocked (env : Env) (p p' : PickFirst)
    (this : SubchannelDataRef)
    (h : CheckConnectivityStateAndStartWatchingLocked env p this = some p')
    (hwf : p.skeleton.WF) : p'.skeleton.WF := by
  rcases skeleton_CheckConnectivityStateAndStartWatchingLocked env p p' this h with h1 | ⟨h1, h2⟩
  · rw [h1]; exact hwf
  · rw [h1]; exact selectReady_WF _ _ hwf h2

theorem skeleton_UpdateState (p : PickFirst) (a : grpc_connectivity_state) (b : Status)
    (c : SubchannelPicker) : (UpdateState p a b c).skeleton = p.skeleton := rfl

theorem skeleton_RequestReresolution (p : PickFirst) :
    (RequestReresolution p).skeleton = p.skeleton := rfl

theorem skeleton_RequestConnection (p : PickFirst) (sd : SubchannelDataRef) :
    (RequestConnection p sd).skeleton = p.skeleton := rfl

/-- Skeleton after the pending list of `q` replaces the current list and
`selected_` is cleared, when `q` has the skeleton of `p` up to `selected_`. -/
theorem skeleton_promoted (p q : PickFirst)
    (hq : q.skeleton = { p.skeleton with sel := q.skeleton.sel }) :
    PickFirst.skeleton { q with selected_ := none
                                subchannel_list_ := q.latest_pending_subchannel_list_
                                latest_pending_subchannel_list_ := none } =
      { cur := p.skeleton.pend, pend := none, sel := none, next := p.skeleton.next } := by
  simp only [PickFirst.skeleton] at hq ⊢
  injection hq with h1 h2 h3 h4
  simp [h2, h4]

/-- The callback on the selected entry with a state other than READY
(pick_first.cc:319-358) keeps the skeleton well-formed. -/
theorem WF_selected_lost (p p' : PickFirst) (this : SubchannelDataRef)
    (h : (if p.latest_pending_subchannel_list_.isSome = true then
        let p1 := { p with selected_ := none }
        let p2 := CancelConnectivityWatchLocked p1 this
          "selected subchannel failed; switching to pending update"
        let p3 := { p2 with subchannel_list_ := p2.latest_pending_subchannel_list_
                            latest_pending_subchannel_list_ := none }
        match p3.subchannel_list_ with
        | none => none
        | some current =>
          if current.in_transient_failure_ = true then
            let status :=
              UnavailableError "selected subchannel failed; switching to pending update"
            some (UpdateState p3 GRPC_CHANNEL_TRANSIENT_FAILURE status
              (SubchannelPicker.TransientFailurePicker status))
          else
            some (UpdateState p3 GRPC_CHANNEL_CONNECTING OkStatus SubchannelPicker.QueuePicker)
      else
        let p1 := RequestReresolution p
        let p2 := { p1 with idle_ := true, selected_ := none, subchannel_list_ := none }
        some (UpdateState p2 GRPC_CHANNEL_IDLE OkStatus SubchannelPicker.QueuePicker)) = some p')
    (hwf : p.skeleton.WF) : p'.skeleton.WF := by
  have hprom := skeleton_promoted p
    (CancelConnectivityWatchLocked { p with selected_ := none } this
      "selected subchannel failed; switching to pending update")
    (by rw [skeleton_CancelConnectivityWatchLocked]; rfl)
  split_ifs at h with h2
  · simp only [] at h
    split at h
    · cases h
    · split_ifs at h
      · injection h with h
        rw [← h, skeleton_UpdateState]
        exact hprom ▸ promote_WF _ hwf
      · injection h with h
        rw [← h, skeleton_UpdateState]
        exact hprom ▸ promote_WF _ hwf
  · injection h with h
    rw [← h]
    have hp : p.skeleton.pend = none := by
      cases hx : p.latest_pending_subchannel_list_ with
      | none => simp [PickFirst.skeleton, hx]
      | some x => simp [hx] at h2
    refine ⟨fun i hi => (by cases hi), ?_, fun sd hsd => (by cases hsd), ?_,
      fun i j hi => (by cases hi)⟩
    · intro i hi
      have : p.skeleton.pend = some i := hi
      rw [hp] at this; cases this
    · intro hx
      have : p.skeleton.pend.isSome = true := hx
      rw [hp] at this; cases this

/-- A connectivity callback that returns keeps the skeleton well-formed. -/
theorem WF_ProcessConnectivityChangeLocked (env : Env) (p p' : PickFirst)
    (this : SubchannelDataRef) (s : grpc_connectivity_state)
    (h : ProcessConnectivityChangeLocked env p this s = some p')
    (hwf : p.skeleton.WF) : p'.skeleton.WF := by
  cases hl : p.list this.1 with
  | none => simp [ProcessConnectivityChangeLocked, hl] at h
  | some L =>
    cases hd : p.subchannel_data this with
    | none => simp [ProcessConnectivityChangeLocked, hl, hd] at h
    | some d =>
      by_cases hsel : p.selected_ = some this
      · by_cases hc : p.isCurrent this.1 = true
        · cases s with
          | GRPC_CHANNEL_READY =>
            simp [ProcessConnectivityChangeLocked, hl, hd, hsel, hc] at h
            rw [← h]; exact hwf
          | GRPC_CHANNEL_SHUTDOWN =>
            simp [ProcessConnectivityChangeLocked, hl, hd] at h
          | GRPC_CHANNEL_IDLE =>
            simp only [ProcessConnectivityChangeLocked, hl, hd, hsel, hc, if_true, reduceCtorEq,
              if_false, Bool.not_true, Bool.false_eq_true] at h
            exact WF_selected_lost p p' this h hwf
          | GRPC_CHANNEL_CONNECTING =>
            simp only [ProcessConnectivityChangeLocked, hl, hd, hsel, hc, if_true, reduceCtorEq,
              if_false, Bool.not_true, Bool.false_eq_true] at h
            exact WF_selected_lost p p' this h hwf
          | GRPC_CHANNEL_TRANSIENT_FAILURE =>
            simp only [ProcessConnectivityChangeLocked, hl, hd, hsel, hc, if_true, reduceCtorEq,
              if_false, Bool.not_true, Bool.false_eq_true] at h
            exact WF_selected_lost p p' this h hwf
        · cases s <;> simp [ProcessConnectivityChangeLocked, hl, hd, hsel, hc] at h
      · cases s with
        | GRPC_CHANNEL_READY =>
          simp only [ProcessConnectivityChangeLocked, hl, hd, hsel, if_false, reduceCtorEq] at h
          obtain ⟨h1, h2⟩ := skeleton_ProcessUnselectedReadyLocked _ _ _ h
          rw [skeleton_set_in_transient_failure] at h1 h2
          rw [h1]; exact selectReady_WF _ _ hwf h2
        | GRPC_CHANNEL_SHUTDOWN =>
          simp [ProcessConnectivityChangeLocked, hl, hd] at h
        | GRPC_CHANNEL_CONNECTING =>
          simp only [ProcessConnectivityChangeLocked, hl, hd, hsel, if_false, reduceCtorEq] at h
          split_ifs at h
          · injection h with h; rw [← h, skeleton_UpdateState]; exact hwf
          · injection h with h; rw [← h]; exact hwf
        | GRPC_CHANNEL_IDLE =>
          rw [ProcessConnectivityChangeLocked_failure env p this _ L d hl hd hsel (Or.inr rfl)] at h
          refine WF_CheckConnectivityStateAndStartWatchingLocked env _ p' _ h ?_
          have hq : (set_in_transient_failure
              (CancelConnectivityWatchLocked p this "connection attempt failed")
              this.1 true).skeleton = p.skeleton := by
            rw [skeleton_set_in_transient_failure, skeleton_CancelConnectivityWatchLocked]
          split_ifs
          · rw [skeleton_UpdateState, skeleton_RequestReresolution,
              skeleton_promoted p _ (by rw [hq])]
            exact promote_WF _ hwf
          · rw [skeleton_UpdateState, skeleton_RequestReresolution, hq]; exact hwf
          · rw [hq]; exact hwf
          · rw [skeleton_CancelConnectivityWatchLocked]; exact hwf
        | GRPC_CHANNEL_TRANSIENT_FAILURE =>
          rw [ProcessConnectivityChangeLocked_failure env p this _ L d hl hd hsel (Or.inl rfl)] at h
          refine WF_CheckConnectivityStateAndStartWatchingLocked env _ p' _ h ?_
          have hq : (set_in_transient_failure
              (CancelConnectivityWatchLocked p this "connection attempt failed")
              this.1 true).skeleton = p.skeleton := by
            rw [skeleton_set_in_transient_failure, skeleton_CancelConnectivityWatchLocked]
          split_ifs
          · rw [skeleton_UpdateState, skeleton_RequestReresolution,
              skeleton_promoted p _ (by rw [hq])]
            exact promote_WF _ hwf
          · rw [skeleton_UpdateState, skeleton_RequestReresolution, hq]; exact hwf
          · rw [hq]; exact hwf
          · rw [skeleton_CancelConnectivityWatchLocked]; exact hwf

theorem newSubchannelList_id (env : Env) (p : PickFirst) :
    (p.newSubchannelList env).id = p.next_list := rfl

/-- Connection planning keeps the skeleton well-formed and consumes exactly one
list address. -/
theorem WF_AttemptToConnect (env : Env) (p p' : PickFirst)
    (h : p.AttemptToConnectUsingLatestUpdateArgsLocked env = some p')
    (hwf : p.skeleton.WF) : p'.skeleton.WF ∧ p'.next_list = p.next_list + 1 := by
  obtain ⟨h1, h2, h3, h4, h5⟩ := hwf
  by_cases hne : (p.newSubchannelList env).num_subchannels = 0
  · rw [attempt_empty env p hne] at h
    injection h with h
    rw [← h]
    refine ⟨⟨?_, ?_, ?_, ?_, ?_⟩, rfl⟩
    · intro i hi
      have hi' : some p.next_list = some i := hi
      injection hi' with hi'
      show i < p.next_list + 1
      rw [← hi']; exact Nat.lt_succ_self _
    · intro i hi; cases hi
    · intro sd hsd; cases hsd
    · intro hx; cases hx
    · intro i j _ hj; cases hj
  · obtain ⟨hid, _⟩ := scanForReady_cases env (p.newSubchannelList env).num_subchannels 0
      (p.newSubchannelList env) p.calls
    obtain ⟨S, cs, o, hscan⟩ : ∃ S cs o, scanForReady env
        (p.newSubchannelList env).num_subchannels 0 (p.newSubchannelList env) p.calls =
        (S, cs, o) := ⟨_, _, _, rfl⟩
    rw [hscan] at hid
    have hSid : S.id = p.next_list := hid
    cases o with
    | none =>
      rw [attempt_not_found env p S cs hne hscan] at h
      by_cases hsel : p.selected_ = none
      · rw [if_pos hsel] at h
        injection h with h
        have hsk : p'.skeleton =
            { cur := some S.id, pend := p.skeleton.pend, sel := p.skeleton.sel,
              next := p.next_list + 1 } := by
          rw [← h, skeleton_RequestConnection, skeleton_StartConnectivityWatchLocked]; rfl
        have hnl : p'.next_list = p.next_list + 1 := congrArg Skeleton.next hsk
        refine ⟨?_, hnl⟩
        rw [hsk]
        have hsel' : p.skeleton.sel = none := hsel
        have hpend : p.skeleton.pend = none := by
          cases hx : p.skeleton.pend with
          | none => rfl
          | some x =>
            have := h4 (by rw [hx]; rfl)
            rw [hsel'] at this; cases this
        refine ⟨?_, ?_, ?_, ?_, ?_⟩
        · intro i hi
          have hi' : some S.id = some i := hi
          injection hi' with hi'
          show i < p.next_list + 1
          rw [← hi', hSid]; exact Nat.lt_succ_self _
        · intro i hi
          have hi' : p.skeleton.pend = some i := hi
          rw [hpend] at hi'; cases hi'
        · intro sd hsd
          have hsd' : p.skeleton.sel = some sd := hsd
          rw [hsel'] at hsd'; cases hsd'
        · intro hx
          have hx' : p.skeleton.pend.isSome = true := hx
          rw [hpend] at hx'; cases hx'
        · intro i j _ hj
          have hj' : p.skeleton.pend = some j := hj
          rw [hpend] at hj'; cases hj'
      · rw [if_neg hsel] at h
        injection h with h
        have hsk : p'.skeleton =
            { cur := p.skeleton.cur, pend := some S.id, sel := p.skeleton.sel,
              next := p.next_list + 1 } := by
          rw [← h, skeleton_RequestConnection, skeleton_StartConnectivityWatchLocked]; rfl
        have hnl : p'.next_list = p.next_list + 1 := congrArg Skeleton.next hsk
        refine ⟨?_, hnl⟩
        rw [hsk]
        refine ⟨?_, ?_, ?_, ?_, ?_⟩
        · intro i hi
          exact Nat.lt_succ_of_lt (h1 i hi)
        · intro i hi
          have hi' : some S.id = some i := hi
          injection hi' with hi'
          show i < p.next_list + 1
          rw [← hi', hSid]; exact Nat.lt_succ_self _
        · intro sd hsd
          exact Nat.lt_succ_of_lt (h3 sd hsd)
        · intro _
          show p.selected_.isSome = true
          cases hx : p.selected_ with
          | none => exact absurd hx hsel
          | some x => rfl
        · intro i j hi hj
          have hlt : i < p.next_list := h1 i hi
          have hj' : some S.id = some j := hj
          injection hj' with hj'
          intro hij
          rw [hij, ← hj', hSid] at hlt
          exact Nat.lt_irrefl _ hlt
    | some k =>
      rw [attempt_found env p S cs k hne hscan] at h
      cases hp3 : ProcessUnselectedReadyLocked
          (StartConnectivityWatchLocked
            { p with next_list := p.next_list + 1, calls := cs, subchannel_list_ := some S }
            (S.id, k)) (S.id, k) with
      | none => rw [hp3] at h; cases h
      | some p3 =>
        rw [hp3] at h
        injection h with h
        obtain ⟨hs1, _⟩ := skeleton_ProcessUnselectedReadyLocked _ _ _ hp3
        rw [skeleton_StartConnectivityWatchLocked] at hs1
        have hnp : ¬ p.skeleton.pend = some S.id := by
          intro hx
          have hlt : S.id < p.next_list := h2 _ hx
          rw [hSid] at hlt
          exact Nat.lt_irrefl _ hlt
        have hs3 : p3.skeleton =
            { cur := some S.id, pend := p.skeleton.pend, sel := some (S.id, k),
              next := p.next_list + 1 } := by
          rw [hs1, Skeleton.selectReady]
          have hnp' : ¬ (PickFirst.skeleton
              { p with next_list := p.next_list + 1, calls := cs,
                       subchannel_list_ := some S }).pend = some (S.id, k).1 := hnp
          rw [if_neg hnp']
          rfl
        have hsk : p'.skeleton =
            { cur := some S.id, pend := none, sel := some (S.id, k),
              next := p.next_list + 1 } := by
          rw [← h]
          simp only [PickFirst.skeleton] at hs3 ⊢
          injection hs3 with e1 e2 e3 e4
          simp [e1, e3, e4]
        have hnl : p'.next_list = p.next_list + 1 := congrArg Skeleton.next hsk
        refine ⟨?_, hnl⟩
        rw [hsk]
        refine ⟨?_, ?_, ?_, ?_, ?_⟩
        · intro i hi
          have hi' : some S.id = some i := hi
          injection hi' with hi'
          show i < p.next_list + 1
          rw [← hi', hSid]; exact Nat.lt_succ_self _
        · intro i hi; cases hi
        · intro sd hsd
          have hsd' : some (S.id, k) = some sd := hsd
          injection hsd' with hsd'
          show sd.1 < p.next_list + 1
          rw [← hsd']
          show S.id < p.next_list + 1
          rw [hSid]; exact Nat.lt_succ_self _
        · intro hx; cases hx
        · intro i j _ hj; cases hj

theorem WF_UpdateLocked (env : Env) (p p' : PickFirst) (args : UpdateArgs)
    (h : p.UpdateLocked env args = some p') (hwf : p.skeleton.WF) : p'.skeleton.WF := by
  rcases Bool.eq_false_or_eq_true p.idle_ with hidle | hidle
  · simp [PickFirst.UpdateLocked, hidle] at h
    rw [← h]; exact hwf
  · rw [UpdateLocked_not_idle env p args hidle] at h
    exact (WF_AttemptToConnect env _ p' h hwf).1

theorem WF_ExitIdleLocked (env : Env) (p p' : PickFirst)
    (h : p.ExitIdleLocked env = some p') (hwf : p.skeleton.WF) : p'.skeleton.WF := by
  unfold PickFirst.ExitIdleLocked at h
  split_ifs at h
  · injection h with h; rw [← h]; exact hwf
  · exact (WF_AttemptToConnect env _ p' h hwf).1
  · injection h with h; rw [← h]; exact hwf

theorem skeleton_ResetBackoffLocked (p : PickFirst) :
    p.ResetBackoffLocked.skeleton = p.skeleton := by
  unfold PickFirst.ResetBackoffLocked
  cases hc : p.subchannel_list_ <;> cases hp : p.latest_pending_subchannel_list_ <;>
    simp [PickFirst.call, PickFirst.skeleton, hc, hp]

theorem WF_ShutdownLocked (p : PickFirst) (hwf : p.skeleton.WF) :
    p.ShutdownLocked.skeleton.WF := by
  obtain ⟨_, _, h3, _, _⟩ := hwf
  exact ⟨fun i hi => (by cases hi), fun i hi => (by cases hi), h3, fun h => (by cases h),
    fun i j hi => (by cases hi)⟩

/-- Every reachable state has a well-formed skeleton. -/
theorem WF_of_Reachable (p : PickFirst) (h : Reachable p) : p.skeleton.WF := by
  induction h with
  | init =>
    exact ⟨fun i hi => (by cases hi), fun i hi => (by cases hi), fun sd hsd => (by cases hsd),
      fun h => (by cases h), fun i j hi => (by cases hi)⟩
  | update env args _ hstep ih => exact WF_UpdateLocked env _ _ args hstep ih
  | exit_idle env _ hstep ih => exact WF_ExitIdleLocked env _ _ hstep ih
  | reset_backoff _ ih => rw [skeleton_ResetBackoffLocked]; exact ih
  | shutdown _ ih => exact WF_ShutdownLocked _ ih
  | callback env this state _ hstep ih =>
    exact WF_ProcessConnectivityChangeLocked env _ _ this state hstep ih

/-! ## Lemmas: planning twice in a row -/

theorem storedUpdateArgs_ok (p : PickFirst) (args : UpdateArgs) (A : List ServerAddress)
    (hok : args.addresses = StatusOr.value A) :
    p.storedUpdateArgs args =
      { addresses := args.addresses, config := args.config,
        resolution_note := args.resolution_note,
        args := grpc_channel_args_copy_and_add args.args
          [(GRPC_ARG_INHIBIT_HEALTH_CHECKING, 1)] } := by
  simp [PickFirst.storedUpdateArgs, hok, StatusOr.ok]

theorem newSubchannelList_subchannels_congr (env : Env) (p q : PickFirst)
    (h : q.latest_update_args_ = p.latest_update_args_) :
    (q.newSubchannelList env).subchannels = (p.newSubchannelList env).subchannels := by
  simp [PickFirst.newSubchannelList, MakeSubchannelList, h]

theorem selectedAddress_none (p : PickFirst) (h : p.selected_ = none) :
    p.selectedAddress = none := by
  simp [PickFirst.selectedAddress, h]

theorem selectedAddress_current (p : PickFirst) (L : PickFirstSubchannelList) (k : Nat)
    (hcur : p.subchannel_list_ = some L) (hsel : p.selected_ = some (L.id, k)) :
    p.selectedAddress = (L.subchannels[k]?).map (fun e => e.address) := by
  simp [PickFirst.selectedAddress, hsel, subchannel_data_of_current p L k hcur]

/-- The entry a pointer names does not depend on a pending list that lives at
another address than the one the pointer refers to. -/
theorem subchannel_data_pending_irrelevant (p q : PickFirst) (sd : SubchannelDataRef)
    (hcur : q.subchannel_list_ = p.subchannel_list_)
    (hp : p.isPending sd.1 = false) (hq : q.isPending sd.1 = false) :
    q.subchannel_data sd = p.subchannel_data sd := by
  simp [PickFirst.subchannel_data, PickFirst.list, PickFirst.isCurrent, hcur, hp, hq]

theorem isPending_false_of_id (p : PickFirst) (L : PickFirstSubchannelList) (l : ListId)
    (hpend : p.latest_pending_subchannel_list_ = some L) (hne : L.id ≠ l) :
    p.isPending l = false := by
  simp [PickFirst.isPending, hpend, hne]

theorem fresh_of_WF (p : PickFirst) (hwf : p.skeleton.WF) :
    p.isPending p.next_list = false ∧ p.isCurrent p.next_list = false := by
  obtain ⟨h1, h2, _, _, _⟩ := hwf
  constructor
  · rw [isPending_eq_skeleton]
    simp only [decide_eq_false_iff_not]
    intro h
    exact Nat.lt_irrefl _ (h2 _ h)
  · rw [isCurrent_eq_skeleton]
    simp only [decide_eq_false_iff_not]
    intro h
    exact Nat.lt_irrefl _ (h1 _ h)


theorem addresses_of_pairs (L N : List PickFirstSubchannelData)
    (h : L.map (fun e => (e.address, e.subchannel)) = N.map (fun e => (e.address, e.subchannel))) :
    L.map (fun e => e.address) = N.map (fun e => e.address) := by
  have := congrArg (List.map Prod.fst) h
  simpa [List.map_map, Function.comp] using this

theorem addresses_of_pointwise (L N : List PickFirstSubchannelData)
    (g : Nat → PickFirstSubchannelData → PickFirstSubchannelData)
    (h : ∀ j, L[j]? = (N[j]?).map (g j)) (hg : ∀ j e, (g j e).address = e.address) :
    L.map (fun e => e.address) = N.map (fun e => e.address) :=
  map_eq_of_pointwise N L g (fun e => e.address) h hg

/-- Connection planning run twice in a row with the same outside world: the
second run publishes what the first run published and leaves the roles as the
first run left them. -/
theorem attempt_twice (env : Env) (q : PickFirst) (hwf : q.skeleton.WF) :
    ∃ p1 p2 X, q.AttemptToConnectUsingLatestUpdateArgsLocked env = some p1 ∧
      p1.AttemptToConnectUsingLatestUpdateArgsLocked env = some p2 ∧
      p1.latest_update_args_ = q.latest_update_args_ ∧ p1.idle_ = q.idle_ ∧
      publications p1.calls = publications q.calls ++ X ∧
      publications p2.calls = publications p1.calls ++ X ∧
      p2.roles = p1.roles ∧
      ((q.newSubchannelList env).num_subchannels ≠ 0 →
        (∀ (j : Nat) (e : PickFirstSubchannelData),
          (q.newSubchannelList env).subchannels[j]? = some e →
          env.CheckConnectivityState e.subchannel ≠ GRPC_CHANNEL_READY) → X = []) ∧
      ((q.newSubchannelList env).num_subchannels = 0 →
         X = [(GRPC_CHANNEL_TRANSIENT_FAILURE,
           (match q.latest_update_args_.addresses with
            | StatusOr.value _ =>
              UnavailableError ("empty address list: " ++ q.latest_update_args_.resolution_note)
            | StatusOr.status s => s),
           SubchannelPicker.TransientFailurePicker
             (match q.latest_update_args_.addresses with
              | StatusOr.value _ =>
                UnavailableError ("empty address list: " ++ q.latest_update_args_.resolution_note)
              | StatusOr.status s => s))]) ∧
      (∀ (k : Nat) (d : PickFirstSubchannelData),
         (q.newSubchannelList env).subchannels[k]? = some d →
         env.CheckConnectivityState d.subchannel = GRPC_CHANNEL_READY →
         (∀ (j : Nat) (e : PickFirstSubchannelData), j < k →
           (q.newSubchannelList env).subchannels[j]? = some e →
           env.CheckConnectivityState e.subchannel ≠ GRPC_CHANNEL_READY) →
         X = [(GRPC_CHANNEL_READY, OkStatus, SubchannelPicker.Picker d.subchannel)]) := by
  obtain ⟨hfp, hfc⟩ := fresh_of_WF q hwf
  by_cases hne : (q.newSubchannelList env).num_subchannels = 0
  · -- empty list
    have h1 := attempt_empty env q hne
    obtain ⟨p1, hp1⟩ : ∃ p1, q.AttemptToConnectUsingLatestUpdateArgsLocked env = some p1 :=
      ⟨_, h1⟩
    have hp1e := hp1
    rw [h1] at hp1e
    injection hp1e with hp1e
    have hargs : p1.latest_update_args_ = q.latest_update_args_ := by rw [← hp1e]
    have hsub := newSubchannelList_subchannels_congr env q p1 hargs
    have hne1 : (p1.newSubchannelList env).num_subchannels = 0 := by
      simp only [PickFirstSubchannelList.num_subchannels] at hne ⊢
      rw [hsub]; exact hne
    have h2 := attempt_empty env p1 hne1
    refine ⟨p1, _,
      [(GRPC_CHANNEL_TRANSIENT_FAILURE,
        (match q.latest_update_args_.addresses with
         | StatusOr.value _ =>
           UnavailableError ("empty address list: " ++ q.latest_update_args_.resolution_note)
         | StatusOr.status s => s),
        SubchannelPicker.TransientFailurePicker
          (match q.latest_update_args_.addresses with
           | StatusOr.value _ =>
             UnavailableError ("empty address list: " ++ q.latest_update_args_.resolution_note)
           | StatusOr.status s => s))],
      hp1, h2, hargs, by rw [← hp1e], ?_, ?_, ?_, fun h => absurd hne h,
      fun _ => rfl,
      fun k d hk _ _ => absurd (lt_of_getElem? _ k d hk) (by
        have h0 : (q.newSubchannelList env).subchannels.length = 0 := hne
        rw [h0]; exact Nat.not_lt_zero k)⟩
    · rw [← hp1e]
      simp only [publications_append]
      rfl
    · simp only [publications_append, hargs]
      rfl
    · have hs1 : p1.selected_ = none := by rw [← hp1e]
      have hc1 : p1.subchannel_list_ = some (q.newSubchannelList env) := by rw [← hp1e]
      have hpd1 : p1.latest_pending_subchannel_list_ = none := by rw [← hp1e]
      simp [PickFirst.roles, PickFirst.selectedAddress, hs1, hc1, hpd1, hsub]
  · by_cases hex : ∃ k : Nat, ∃ e : PickFirstSubchannelData,
        (q.newSubchannelList env).subchannels[k]? = some e ∧
        env.CheckConnectivityState e.subchannel = GRPC_CHANNEL_READY
    · -- a READY entry: fast-adopt, twice
      classical
      obtain ⟨d, hk, hready⟩ := Nat.find_spec hex
      have hmin : ∀ (j : Nat) (e : PickFirstSubchannelData), j < Nat.find hex →
          (q.newSubchannelList env).subchannels[j]? = some e →
          env.CheckConnectivityState e.subchannel ≠ GRPC_CHANNEL_READY :=
        fun j e hj he hr => Nat.find_min hex hj ⟨e, he, hr⟩
      obtain ⟨p1, L1, hp1, hc1, _, hm1, hs1, hpd1, hpub1, _, _, hargs, hidle, _⟩ :=
        attempt_fast_adopt env q (Nat.find hex) d hfp hk hready hmin
      have hwf1 := (WF_AttemptToConnect env q p1 hp1 hwf).1
      have hsub := newSubchannelList_subchannels_congr env q p1 hargs
      obtain ⟨p2, L2, hp2, hc2, _, hm2, hs2, hpd2, hpub2, _, _, _, hidle2, _⟩ :=
        attempt_fast_adopt env p1 (Nat.find hex) d (fresh_of_WF p1 hwf1).1
          (by rw [hsub]; exact hk) hready (fun j e hj he => hmin j e hj (by rw [← hsub]; exact he))
      refine ⟨p1, p2, [(GRPC_CHANNEL_READY, OkStatus, SubchannelPicker.Picker d.subchannel)],
        hp1, hp2, hargs, hidle, hpub1, hpub2, ?_, ?_, fun h0 => absurd h0 hne, ?_⟩
      · have ha1 := addresses_of_pairs _ _ hm1
        have ha2 := addresses_of_pairs _ _ hm2
        rw [hsub] at ha2
        have hsa1 := selectedAddress_current p1 L1 _ hc1 hs1
        have hsa2 := selectedAddress_current p2 L2 _ hc2 hs2
        rw [← List.getElem?_map, ha1] at hsa1
        rw [← List.getElem?_map, ha2] at hsa2
        simp only [PickFirst.roles, hsa1, hsa2, hc1, hc2, hpd1, hpd2, hidle2, Option.map_some',
          ha1, ha2]
      · intro _ hnot
        exact absurd hready (hnot _ _ hk)
      · intro k' d' hk' hready' hmin'
        have hle : Nat.find hex ≤ k' := Nat.find_min' hex ⟨d', hk', hready'⟩
        have hge : k' ≤ Nat.find hex := by
          by_contra hlt
          exact hmin' (Nat.find hex) d (Nat.lt_of_not_le hlt) hk hready
        have hkk : k' = Nat.find hex := Nat.le_antisymm hge hle
        rw [hkk, hk] at hk'
        injection hk' with hk'
        rw [hk']
    · have hnot : ∀ (j : Nat) (e : PickFirstSubchannelData),
          (q.newSubchannelList env).subchannels[j]? = some e →
          env.CheckConnectivityState e.subchannel ≠ GRPC_CHANNEL_READY :=
        fun j e he hr => hex ⟨j, e, he, hr⟩
      cases hsel : q.selected_ with
      | none =>
        -- nothing selected: the new list becomes the current list, twice
        obtain ⟨p1, L1, hp1, hc1, _, _, hpt1, hpd1, hs1, hpub1, _, _, _, hargs, hidle, _⟩ :=
          attempt_no_selection env q hsel hfp hne hnot
        have hwf1 := (WF_AttemptToConnect env q p1 hp1 hwf).1
        have hsub := newSubchannelList_subchannels_congr env q p1 hargs
        have hne1 : (p1.newSubchannelList env).num_subchannels ≠ 0 := by
          simp only [PickFirstSubchannelList.num_subchannels] at hne ⊢
          rw [hsub]; exact hne
        obtain ⟨p2, L2, hp2, hc2, _, _, hpt2, hpd2, hs2, hpub2, _, _, _, _, hidle2, _⟩ :=
          attempt_no_selection env p1 hs1 (fresh_of_WF p1 hwf1).1 hne1
            (fun j e he => hnot j e (by rw [← hsub]; exact he))
        refine ⟨p1, p2, [], hp1, hp2, hargs, hidle, by simpa using hpub1,
          by simpa using hpub2, ?_, fun _ _ => rfl, fun h0 => absurd h0 hne,
          fun k d hk hr _ => absurd hr (hnot k d hk)⟩
        have ha1 := addresses_of_pointwise _ _ _ hpt1 (fun _ _ => rfl)
        have ha2 := addresses_of_pointwise _ _ _ hpt2 (fun _ _ => rfl)
        rw [hsub] at ha2
        simp only [PickFirst.roles, selectedAddress_none p1 hs1, selectedAddress_none p2 hs2,
          hc1, hc2, hpd2, hidle2, Option.map_some', ha1, ha2]
      | some sel =>
        -- something selected: the new list becomes the pending list, twice
        obtain ⟨p1, L1, hp1, hpd1, hid1, _, hpt1, hc1, hs1, hpub1, _, _, _, hargs, hidle, _⟩ :=
          attempt_selection_held env q sel hsel hfc hne hnot
        obtain ⟨hwf1, hnl1⟩ := WF_AttemptToConnect env q p1 hp1 hwf
        have hsub := newSubchannelList_subchannels_congr env q p1 hargs
        have hne1 : (p1.newSubchannelList env).num_subchannels ≠ 0 := by
          simp only [PickFirstSubchannelList.num_subchannels] at hne ⊢
          rw [hsub]; exact hne
        have hsel1 : p1.selected_ = some sel := by rw [hs1, hsel]
        obtain ⟨p2, L2, hp2, hpd2, hid2, _, hpt2, hc2, hs2, hpub2, _, _, _, _, hidle2, _⟩ :=
          attempt_selection_held env p1 sel hsel1 (fresh_of_WF p1 hwf1).2 hne1
            (fun j e he => hnot j e (by rw [← hsub]; exact he))
        refine ⟨p1, p2, [], hp1, hp2, hargs, hidle, by simpa using hpub1,
          by simpa using hpub2, ?_, fun _ _ => rfl, fun h0 => absurd h0 hne,
          fun k d hk hr _ => absurd hr (hnot k d hk)⟩
        have ha1 := addresses_of_pointwise _ _ _ hpt1 (fun _ _ => rfl)
        have ha2 := addresses_of_pointwise _ _ _ hpt2 (fun _ _ => rfl)
        rw [hsub] at ha2
        have hlt : sel.1 < q.next_list := hwf.2.2.1 sel hsel
        have hlt1 : sel.1 < p1.next_list := hwf1.2.2.1 sel hsel1
        have hnp1 : p1.isPending sel.1 = false := by
          apply isPending_false_of_id p1 L1 sel.1 hpd1
          rw [hid1, newSubchannelList_id]
          intro h; rw [h] at hlt; exact Nat.lt_irrefl _ hlt
        have hnp2 : p2.isPending sel.1 = false := by
          apply isPending_false_of_id p2 L2 sel.1 hpd2
          rw [hid2, newSubchannelList_id]
          intro h; rw [h] at hlt1; exact Nat.lt_irrefl _ hlt1
        have hsd := subchannel_data_pending_irrelevant p1 p2 sel hc2 hnp1 hnp2
        have hsa : p2.selectedAddress = p1.selectedAddress := by
          rw [PickFirst.selectedAddress, PickFirst.selectedAddress, hs2, hsel1]
          show Option.map _ (p2.subchannel_data sel) = Option.map _ (p1.subchannel_data sel)
          rw [hsd]
        simp only [PickFirst.roles, hsa, hc2, hpd1, hpd2, hidle2, Option.map_some', ha1, ha2]


theorem Reachable_scenarioAfterFirstUpdate : Reachable scenarioAfterFirstUpdate :=
  Reachable.update (scenarioEnv [101]) (scenarioArgs [1] "") Reachable.init
    (show PickFirst.init.UpdateLocked (scenarioEnv [101]) (scenarioArgs [1] "") =
      some scenarioAfterFirstUpdate from rfl)

theorem Reachable_scenarioHeld : Reachable scenarioHeld :=
  Reachable.update (scenarioEnv [101]) (scenarioArgs [2, 3] "") Reachable_scenarioAfterFirstUpdate
    (show scenarioAfterFirstUpdate.UpdateLocked (scenarioEnv [101]) (scenarioArgs [2, 3] "") =
      some scenarioHeld from rfl)

theorem update_stored_again (p : PickFirst) (args : UpdateArgs)
    (h : p.latest_update_args_ = p.storedUpdateArgs args) :
    { p with latest_update_args_ := p.storedUpdateArgs args } = p := by
  rw [← h]

theorem UpdateLocked_idle (env : Env) (p : PickFirst) (args : UpdateArgs)
    (hidle : p.idle_ = true) :
    p.UpdateLocked env args = some { p with latest_update_args_ := p.storedUpdateArgs args } := by
  simp [PickFirst.UpdateLocked, hidle]

/-! ## Lemmas: watches and the exhaustion flag -/

theorem list_cases (p : PickFirst) (l : ListId) (L : PickFirstSubchannelList)
    (h : p.list l = some L) :
    (p.subchannel_list_ = some L ∧ L.id = l) ∨
    (p.latest_pending_subchannel_list_ = some L ∧ L.id = l ∧ p.isCurrent l = false) := by
  unfold PickFirst.list at h
  by_cases hc : p.isCurrent l = true
  · rw [if_pos hc] at h
    left
    refine ⟨h, ?_⟩
    simpa [PickFirst.isCurrent, h] using hc
  · rw [if_neg hc] at h
    by_cases hp : p.isPending l = true
    · rw [if_pos hp] at h
      right
      refine ⟨h, ?_, by simpa using hc⟩
      simpa [PickFirst.isPending, h] using hp
    · rw [if_neg hp] at h
      cases h

theorem isPending_false_of_current (p : PickFirst) (hwf : p.skeleton.WF)
    (C : PickFirstSubchannelList) (hc : p.subchannel_list_ = some C) :
    p.isPending C.id = false := by
  rw [isPending_eq_skeleton]
  simp only [decide_eq_false_iff_not]
  intro h
  exact hwf.2.2.2.2 C.id C.id (by simp [PickFirst.skeleton, hc]) h rfl

theorem isCurrent_false_of_pending (p : PickFirst) (hwf : p.skeleton.WF)
    (P : PickFirstSubchannelList) (hp : p.latest_pending_subchannel_list_ = some P) :
    p.isCurrent P.id = false := by
  rw [isCurrent_eq_skeleton]
  simp only [decide_eq_false_iff_not]
  intro h
  exact hwf.2.2.2.2 P.id P.id h (by simp [PickFirst.skeleton, hp]) rfl

theorem OnlyWatched_of_pointwise (L L' : PickFirstSubchannelList)
    (g : Nat → PickFirstSubchannelData → PickFirstSubchannelData) (k : Nat)
    (h : ∀ j : Nat, L'.subchannels[j]? = (L.subchannels[j]?).map (g j))
    (hg : ∀ (j : Nat) (e : PickFirstSubchannelData), L.subchannels[j]? = some e →
      (g j e).pending_watcher_ = true → j = k) :
    L'.OnlyWatched k := by
  intro j e he hw
  rw [h j] at he
  cases hj : L.subchannels[j]? with
  | none => rw [hj] at he; cases he
  | some e0 =>
    rw [hj] at he
    simp only [Option.map_some', Option.some.injEq] at he
    rw [← he] at hw
    exact hg j e0 hj hw

theorem watched_length_le_one (L : PickFirstSubchannelList) (i : Nat)
    (h : L.OnlyWatched i) : L.watched.length ≤ 1 := by
  have hnd : L.watched.Nodup := List.Nodup.filter _ (List.nodup_range _)
  have hall : ∀ j ∈ L.watched, j = i := by
    intro j hj
    simp only [PickFirstSubchannelList.watched, List.mem_filter, List.mem_range] at hj
    obtain ⟨_, hw⟩ := hj
    cases he : L.subchannels[j]? with
    | none => rw [he] at hw; cases hw
    | some e => rw [he] at hw; exact h j e he hw
  match hl : L.watched, hnd, hall with
  | [], _, _ => simp
  | [_], _, _ => simp
  | a :: b :: t, hnd, hall =>
    have ha := hall a (by simp)
    have hb := hall b (by simp)
    rw [ha, hb] at hnd
    simp at hnd

theorem watched_subset (L : PickFirstSubchannelList) (i : Nat)
    (h : L.OnlyWatched i) : ∀ j ∈ L.watched, j = i := by
  intro j hj
  simp only [PickFirstSubchannelList.watched, List.mem_filter, List.mem_range] at hj
  obtain ⟨_, hw⟩ := hj
  cases he : L.subchannels[j]? with
  | none => rw [he] at hw; cases hw
  | some e => rw [he] at hw; exact h j e he hw

theorem checkedAndWatched_current (env : Env) (p : PickFirst) (l k : Nat)
    (L : PickFirstSubchannelList) (hcur : p.subchannel_list_ = some L) (hid : L.id = l)
    (hpend : p.isPending l = false) :
    checkedAndWatched env p (l, k) =
      { p with
        subchannel_list_ := some
          ((L.modify k (fun d => (CheckConnectivityStateLocked env d).1)).modify k
            (fun sd => { sd with pending_watcher_ := true }))
        calls := p.calls ++ [Call.CheckConnectivityStateLocked (l, k),
          Call.StartConnectivityWatchLocked (l, k)] } := by
  unfold checkedAndWatched
  have hq := StartConnectivityWatchLocked_current
    ((p.onData (l, k) (fun d => (CheckConnectivityStateLocked env d).1)).call
      (Call.CheckConnectivityStateLocked (l, k))) l k
    (L.modify k (fun d => (CheckConnectivityStateLocked env d).1))
    (by rw [onData_of_current p l k L _ hcur hid hpend]; rfl)
    (by rw [modify_id]; exact hid)
    (by rw [onData_of_current p l k L _ hcur hid hpend]; exact hpend)
  rw [hq, onData_of_current p l k L _ hcur hid hpend]
  simp [PickFirst.call]

theorem checkedAndWatched_pending (env : Env) (p : PickFirst) (l k : Nat)
    (P : PickFirstSubchannelList) (hpend : p.latest_pending_subchannel_list_ = some P)
    (hid : P.id = l) (hcur : p.isCurrent l = false) :
    checkedAndWatched env p (l, k) =
      { p with
        latest_pending_subchannel_list_ := some
          ((P.modify k (fun d => (CheckConnectivityStateLocked env d).1)).modify k
            (fun sd => { sd with pending_watcher_ := true }))
        calls := p.calls ++ [Call.CheckConnectivityStateLocked (l, k),
          Call.StartConnectivityWatchLocked (l, k)] } := by
  unfold checkedAndWatched
  have hq := StartConnectivityWatchLocked_pending
    ((p.onData (l, k) (fun d => (CheckConnectivityStateLocked env d).1)).call
      (Call.CheckConnectivityStateLocked (l, k))) l k
    (P.modify k (fun d => (CheckConnectivityStateLocked env d).1))
    (by rw [onData_of_pending p l k P _ hpend hid hcur]; rfl)
    (by rw [modify_id]; exact hid)
    (by rw [onData_of_pending p l k P _ hpend hid hcur]; exact hcur)
  rw [hq, onData_of_pending p l k P _ hpend hid hcur]
  simp [PickFirst.call]

theorem CheckConnectivityStateAndStartWatchingLocked_eq (env : Env) (p : PickFirst)
    (this : SubchannelDataRef) (d : PickFirstSubchannelData)
    (hd : p.subchannel_data this = some d) :
    CheckConnectivityStateAndStartWatchingLocked env p this =
      if env.CheckConnectivityState d.subchannel = GRPC_CHANNEL_READY then
        if (checkedAndWatched env p this).selected_ ≠ some this then
          ProcessUnselectedReadyLocked (checkedAndWatched env p this) this
        else some (checkedAndWatched env p this)
      else some (RequestConnection (checkedAndWatched env p this) this) := by
  simp [CheckConnectivityStateAndStartWatchingLocked, hd, checkedAndWatched,
    CheckConnectivityStateLocked]


/-- Result of `ProcessUnselectedReadyLocked` on an entry of a live list, in a
state whose current and pending lists are different objects. -/
theorem ProcessUnselectedReadyLocked_result (p : PickFirst) (this : SubchannelDataRef)
    (L : PickFirstSubchannelList) (d : PickFirstSubchannelData)
    (hwf : p.skeleton.WF) (hl : p.list this.1 = some L)
    (hd : L.subchannels[this.2]? = some d) :
    ∃ p' L', ProcessUnselectedReadyLocked p this = some p' ∧
      p'.subchannel_list_ = some L' ∧ L'.id = this.1 ∧
      L'.in_transient_failure_ = L.in_transient_failure_ ∧
      (∀ j : Nat, L'.subchannels[j]? = (L.subchannels[j]?).map
        (fun (e : PickFirstSubchannelData) =>
          if j ≠ this.2 then { e with pending_watcher_ := false, shutdown_ := true } else e)) ∧
      p'.selected_ = some this ∧
      p'.latest_pending_subchannel_list_ =
        (if p.isPending this.1 = true then none else p.latest_pending_subchannel_list_) ∧
      p'.calls = p.calls ++
        [Call.UpdateState GRPC_CHANNEL_READY OkStatus (SubchannelPicker.Picker d.subchannel)] ++
        ((List.range L.subchannels.length).filter (fun i => decide (i ≠ this.2))).map
          (fun i => Call.ShutdownLocked (this.1, i)) ∧
      p'.skeleton.WF := by
  rcases list_cases p this.1 L hl with ⟨hcur, hid⟩ | ⟨hpend, hid, hnc⟩
  · have hnp : p.isPending this.1 = false := by
      rw [← hid]; exact isPending_false_of_current p hwf L hcur
    obtain ⟨L', h1, h2, h3, h4⟩ :=
      ProcessUnselectedReadyLocked_current p this.1 this.2 L d hcur hid hnp hd
    have hsk := skeleton_ProcessUnselectedReadyLocked p _ this h1
    refine ⟨_, L', h1, rfl, h2, h3, h4, rfl, ?_, rfl, ?_⟩
    · simp [hnp]
    · rw [hsk.1]; exact selectReady_WF _ _ hwf hsk.2
  · have hp : p.isPending this.1 = true := by
      simp [PickFirst.isPending, hpend, hid]
    obtain ⟨L', h1, h2, h3, h4⟩ :=
      ProcessUnselectedReadyLocked_pending p this.1 this.2 L d hpend hid hd
    have hsk := skeleton_ProcessUnselectedReadyLocked p _ this h1
    refine ⟨_, L', h1, rfl, h2, h3, h4, rfl, ?_, rfl, ?_⟩
    · simp [hp]
    · rw [hsk.1]; exact selectReady_WF _ _ hwf hsk.2


theorem skeleton_checkedAndWatched (env : Env) (p : PickFirst) (this : SubchannelDataRef) :
    (checkedAndWatched env p this).skeleton = p.skeleton := by
  unfold checkedAndWatched
  rw [skeleton_StartConnectivityWatchLocked, skeleton_call, skeleton_onData]

/-- The state after the state read and the start of the watch on an entry of a
live list: the entry has its state refreshed and carries the watch, nothing
else changes but the log. -/
theorem checkedAndWatched_result (env : Env) (p : PickFirst) (this : SubchannelDataRef)
    (L : PickFirstSubchannelList)
    (hwf : p.skeleton.WF) (hl : p.list this.1 = some L) :
    ∃ L2, (checkedAndWatched env p this).list this.1 = some L2 ∧ L2.id = this.1 ∧
      L2.in_transient_failure_ = L.in_transient_failure_ ∧
      (∀ j : Nat, L2.subchannels[j]? = (L.subchannels[j]?).map
        (fun (e : PickFirstSubchannelData) =>
          if j = this.2 then
            { e with connectivity_state_ := env.CheckConnectivityState e.subchannel,
                     pending_watcher_ := true }
          else e)) ∧
      ((p.subchannel_list_ = some L ∧ p.isPending this.1 = false ∧
          (checkedAndWatched env p this).subchannel_list_ = some L2 ∧
          (checkedAndWatched env p this).latest_pending_subchannel_list_ =
            p.latest_pending_subchannel_list_) ∨
       (p.latest_pending_subchannel_list_ = some L ∧ p.isCurrent this.1 = false ∧
          (checkedAndWatched env p this).latest_pending_subchannel_list_ = some L2 ∧
          (checkedAndWatched env p this).subchannel_list_ = p.subchannel_list_)) ∧
      (checkedAndWatched env p this).selected_ = p.selected_ ∧
      (checkedAndWatched env p this).calls = p.calls ++
        [Call.CheckConnectivityStateLocked this, Call.StartConnectivityWatchLocked this] := by
  have hpt : ∀ j : Nat,
      ((L.modify this.2 (fun d => (CheckConnectivityStateLocked env d).1)).modify this.2
        (fun sd => { sd with pending_watcher_ := true })).subchannels[j]? =
      (L.subchannels[j]?).map (fun (e : PickFirstSubchannelData) =>
          if j = this.2 then
            { e with connectivity_state_ := env.CheckConnectivityState e.subchannel,
                     pending_watcher_ := true }
          else e) := by
    intro j
    rw [modify_getElem?, modify_getElem?]
    cases L.subchannels[j]? with
    | none => rfl
    | some e =>
      by_cases hj : j = this.2
      · simp [hj, CheckConnectivityStateLocked]
      · simp [hj]
  rcases list_cases p this.1 L hl with ⟨hcur, hid⟩ | ⟨hpend, hid, hnc⟩
  · have hnp : p.isPending this.1 = false := by
      rw [← hid]; exact isPending_false_of_current p hwf L hcur
    have hq := checkedAndWatched_current env p this.1 this.2 L hcur hid hnp
    refine ⟨_, ?_, ?_, ?_, hpt, Or.inl ⟨hcur, hnp, ?_, ?_⟩, ?_, ?_⟩
    · show (checkedAndWatched env p (this.1, this.2)).list this.1 = _
      rw [hq]
      simp [PickFirst.list, PickFirst.isCurrent, modify_id, hid]
    · rw [modify_id, modify_id]; exact hid
    · rw [modify_in_transient_failure, modify_in_transient_failure]
    · show (checkedAndWatched env p (this.1, this.2)).subchannel_list_ = _
      rw [hq]
    · show (checkedAndWatched env p (this.1, this.2)).latest_pending_subchannel_list_ = _
      rw [hq]
    · show (checkedAndWatched env p (this.1, this.2)).selected_ = _
      rw [hq]
    · show (checkedAndWatched env p (this.1, this.2)).calls = _
      rw [hq]
  · have hq := checkedAndWatched_pending env p this.1 this.2 L hpend hid hnc
    refine ⟨_, ?_, ?_, ?_, hpt, Or.inr ⟨hpend, hnc, ?_, ?_⟩, ?_, ?_⟩
    · have hnc' : (checkedAndWatched env p (this.1, this.2)).isCurrent this.1 = false := by
        rw [isCurrent_eq_skeleton, skeleton_checkedAndWatched, ← isCurrent_eq_skeleton]
        exact hnc
      show (checkedAndWatched env p (this.1, this.2)).list this.1 = _
      unfold PickFirst.list
      rw [hnc', hq]
      simp [PickFirst.isPending, modify_id, hid]
    · rw [modify_id, modify_id]; exact hid
    · rw [modify_in_transient_failure, modify_in_transient_failure]
    · show (checkedAndWatched env p (this.1, this.2)).latest_pending_subchannel_list_ = _
      rw [hq]
    · show (checkedAndWatched env p (this.1, this.2)).subchannel_list_ = _
      rw [hq]
    · show (checkedAndWatched env p (this.1, this.2)).selected_ = _
      rw [hq]
    · show (checkedAndWatched env p (this.1, this.2)).calls = _
      rw [hq]


theorem subchannel_data_of_list (p : PickFirst) (this : SubchannelDataRef)
    (L : PickFirstSubchannelList) (hl : p.list this.1 = some L) :
    p.subchannel_data this = L.subchannels[this.2]? := by
  simp [PickFirst.subchannel_data, hl, PickFirstSubchannelList.subchannel]

theorem OnlyWatched_any_of_none (L : PickFirstSubchannelList)
    (h : ∀ (j : Nat) (e : PickFirstSubchannelData), L.subchannels[j]? = some e →
      e.pending_watcher_ = false) (i : Nat) : L.OnlyWatched i := by
  intro j e he hw
  rw [h j e he] at hw
  cases hw

/-- The watch part of the state after the read and the watch start: the list
of `this` keeps its watches confined to the index of `this`. -/
theorem WatchInv_checkedAndWatched (env : Env) (p : PickFirst) (this : SubchannelDataRef)
    (L : PickFirstSubchannelList)
    (hwf : p.skeleton.WF) (hl : p.list this.1 = some L)
    (hO : L.OnlyWatched this.2) (hW : WatchInv p)
    (hS : ∀ i, p.isCurrent this.1 = true → p.selected_ = some (this.1, i) → i = this.2) :
    WatchInv (checkedAndWatched env p this) := by
  obtain ⟨L2, hl2, hid2, hf2, hpt2, hcase, hsel2, hcalls2⟩ :=
    checkedAndWatched_result env p this L hwf hl
  have hO2 : L2.OnlyWatched this.2 := by
    apply OnlyWatched_of_pointwise L L2 _ this.2 hpt2
    intro j e he hw
    by_cases hj : j = this.2
    · exact hj
    · rw [if_neg hj] at hw
      exact hO j e he hw
  rcases hcase with ⟨hcur, hnp, hc2, hp2⟩ | ⟨hpend, hnc, hp2, hc2⟩
  · refine ⟨?_, ?_, ?_⟩
    · intro C hC
      rw [hc2] at hC; injection hC with hC
      exact ⟨this.2, hC ▸ hO2⟩
    · intro P hP
      rw [hp2] at hP
      exact hW.2.1 P hP
    · intro C i hC hsel
      rw [hc2] at hC; injection hC with hC
      subst hC
      rw [hsel2, hid2] at hsel
      have hcurr : p.isCurrent this.1 = true := by
        rcases list_cases p this.1 L hl with ⟨hc, hid⟩ | ⟨hpd, hid, hnc⟩
        · simp [PickFirst.isCurrent, hc, hid]
        · simp [PickFirst.isPending, hpd, hid] at hnp
      rw [hS i hcurr hsel]
      exact hO2
  · refine ⟨?_, ?_, ?_⟩
    · intro C hC
      rw [hc2] at hC
      exact hW.1 C hC
    · intro P hP
      rw [hp2] at hP; injection hP with hP
      exact ⟨this.2, hP ▸ hO2⟩
    · intro C i hC hsel
      rw [hc2] at hC
      rw [hsel2] at hsel
      exact hW.2.2 C i hC hsel

theorem PendingFresh_checkedAndWatched (env : Env) (p : PickFirst) (this : SubchannelDataRef)
    (L : PickFirstSubchannelList)
    (hwf : p.skeleton.WF) (hl : p.list this.1 = some L) (hF : PendingFresh p) :
    PendingFresh (checkedAndWatched env p this) := by
  obtain ⟨L2, hl2, hid2, hf2, hpt2, hcase, hsel2, hcalls2⟩ :=
    checkedAndWatched_result env p this L hwf hl
  intro P hP
  rcases hcase with ⟨hcur, hnp, hc2, hp2⟩ | ⟨hpend, hnc, hp2, hc2⟩
  · rw [hp2] at hP; exact hF P hP
  · rw [hp2] at hP; injection hP with hP
    rw [← hP, hf2]; exact hF L hpend

/-- Selecting a READY entry establishes the watch invariant, whatever the watches
of its list were, as long as the other list has its watches confined. -/
theorem WatchInv_ProcessUnselectedReadyLocked (p p' : PickFirst) (this : SubchannelDataRef)
    (L L' : PickFirstSubchannelList)
    (hc : p'.subchannel_list_ = some L')
    (hpt : ∀ j : Nat, L'.subchannels[j]? = (L.subchannels[j]?).map
        (fun (e : PickFirstSubchannelData) =>
          if j ≠ this.2 then { e with pending_watcher_ := false, shutdown_ := true } else e))
    (hsel : p'.selected_ = some this)
    (hpend : p'.latest_pending_subchannel_list_ =
        (if p.isPending this.1 = true then none else p.latest_pending_subchannel_list_))
    (hWp : ∀ P, p.latest_pending_subchannel_list_ = some P → ∃ i, P.OnlyWatched i) :
    WatchInv p' := by
  have hO : L'.OnlyWatched this.2 := by
    apply OnlyWatched_of_pointwise L L' _ this.2 hpt
    intro j e he hw
    by_cases hj : j = this.2
    · exact hj
    · have hj' : j ≠ this.2 := hj
      rw [if_pos hj'] at hw
      cases hw
  refine ⟨?_, ?_, ?_⟩
  · intro C hC
    rw [hc] at hC; injection hC with hC
    exact ⟨this.2, hC ▸ hO⟩
  · intro P hP
    rw [hpend] at hP
    by_cases hp : p.isPending this.1 = true
    · rw [if_pos hp] at hP; cases hP
    · rw [if_neg hp] at hP; exact hWp P hP
  · intro C i hC hs
    rw [hc] at hC; injection hC with hC
    subst hC
    rw [hsel] at hs
    injection hs with hs
    have hi : this.2 = i := by
      have := congrArg Prod.snd hs
      simpa using this
    rw [← hi]; exact hO

theorem PendingFresh_ProcessUnselectedReadyLocked (p p' : PickFirst) (this : SubchannelDataRef)
    (hpend : p'.latest_pending_subchannel_list_ =
        (if p.isPending this.1 = true then none else p.latest_pending_subchannel_list_))
    (hF : PendingFresh p) : PendingFresh p' := by
  intro P hP
  rw [hpend] at hP
  by_cases hp : p.isPending this.1 = true
  · rw [if_pos hp] at hP; cases hP
  · rw [if_neg hp] at hP; exact hF P hP


/-- The routine `CheckConnectivityStateAndStartWatchingLocked` on an entry of a
live list returns, keeps the ownership skeleton well formed and the pending
list free of the flag, and establishes the watch invariant when the watches of
the entry's list were confined to the entry. -/
theorem CheckConnectivityStateAndStartWatchingLocked_inv (env : Env) (p : PickFirst)
    (this : SubchannelDataRef) (L : PickFirstSubchannelList) (d : PickFirstSubchannelData)
    (hwf : p.skeleton.WF) (hl : p.list this.1 = some L)
    (hd : L.subchannels[this.2]? = some d) (hF : PendingFresh p) :
    ∃ p', CheckConnectivityStateAndStartWatchingLocked env p this = some p' ∧
      p'.skeleton.WF ∧ PendingFresh p' ∧
      (L.OnlyWatched this.2 → WatchInv p →
        (∀ i, p.isCurrent this.1 = true → p.selected_ = some (this.1, i) → i = this.2) →
        WatchInv p') ∧
      (∃ rest, p'.calls = p.calls ++
        [Call.CheckConnectivityStateLocked this, Call.StartConnectivityWatchLocked this] ++
        rest ∧ watchStarts rest = [] ∧
        (env.CheckConnectivityState d.subchannel ≠ GRPC_CHANNEL_READY →
          rest = [Call.RequestConnection this])) := by
  have hsd : p.subchannel_data this = some d := by
    rw [subchannel_data_of_list p this L hl]; exact hd
  obtain ⟨L2, hl2, hid2, hf2, hpt2, hcase, hsel2, hcalls2⟩ :=
    checkedAndWatched_result env p this L hwf hl
  have hwf2 : (checkedAndWatched env p this).skeleton.WF := by
    rw [skeleton_checkedAndWatched]; exact hwf
  have hF2 := PendingFresh_checkedAndWatched env p this L hwf hl hF
  rw [CheckConnectivityStateAndStartWatchingLocked_eq env p this d hsd]
  by_cases hr : env.CheckConnectivityState d.subchannel = GRPC_CHANNEL_READY
  · rw [if_pos hr]
    by_cases hs : (checkedAndWatched env p this).selected_ ≠ some this
    · rw [if_pos hs]
      have hd2 : L2.subchannels[this.2]? = some
          { d with connectivity_state_ := env.CheckConnectivityState d.subchannel,
                   pending_watcher_ := true } := by
        rw [hpt2, hd]; simp
      obtain ⟨p', L', h1, hc', hid', hf', hpt', hsel', hpend', hcalls', hwf'⟩ :=
        ProcessUnselectedReadyLocked_result _ this L2 _ hwf2 hl2 hd2
      refine ⟨p', h1, hwf', PendingFresh_ProcessUnselectedReadyLocked _ p' this hpend' hF2,
        ?_, ?_⟩
      · intro hO hW hS
        have hW2 := WatchInv_checkedAndWatched env p this L hwf hl hO hW hS
        exact WatchInv_ProcessUnselectedReadyLocked _ p' this L2 L' hc' hpt' hsel' hpend'
          hW2.2.1
      · refine ⟨[Call.UpdateState GRPC_CHANNEL_READY OkStatus
            (SubchannelPicker.Picker d.subchannel)] ++
          ((List.range L2.subchannels.length).filter (fun i => decide (i ≠ this.2))).map
            (fun i => Call.ShutdownLocked (this.1, i)), ?_, ?_, fun h => absurd hr h⟩
        · rw [hcalls', hcalls2]
          simp only [List.append_assoc]
        · rw [watchStarts_append, (observations_of_shutdowns _ _).2.2.2]
          rfl
    · rw [if_neg hs]
      refine ⟨_, rfl, hwf2, hF2, ?_, ?_⟩
      · intro hO hW hS
        exact WatchInv_checkedAndWatched env p this L hwf hl hO hW hS
      · exact ⟨[], by rw [hcalls2]; simp, rfl, fun h => absurd hr h⟩
  · rw [if_neg hr]
    refine ⟨_, rfl, hwf2, ?_, ?_, ?_⟩
    · exact hF2
    · intro hO hW hS
      exact WatchInv_checkedAndWatched env p this L hwf hl hO hW hS
    · refine ⟨[Call.RequestConnection this], ?_, rfl, fun _ => rfl⟩
      show (checkedAndWatched env p this).calls ++ [Call.RequestConnection this] = _
      rw [hcalls2]


theorem ProcessConnectivityChangeLocked_afterFailure (env : Env) (p : PickFirst)
    (this : SubchannelDataRef) (st : grpc_connectivity_state) (L : PickFirstSubchannelList)
    (d : PickFirstSubchannelData)
    (hl : p.list this.1 = some L) (hsd : p.subchannel_data this = some d)
    (hsel : ¬ p.selected_ = some this)
    (hst : st = GRPC_CHANNEL_TRANSIENT_FAILURE ∨ st = GRPC_CHANNEL_IDLE) :
    ProcessConnectivityChangeLocked env p this st =
      CheckConnectivityStateAndStartWatchingLocked env
        (afterFailure p this L.num_subchannels)
        (this.1, (this.2 + 1) % L.num_subchannels) := by
  rcases hst with hst | hst <;> subst hst <;>
    simp [ProcessConnectivityChangeLocked, hl, hsd, hsel, afterFailure]

theorem CancelConnectivityWatchLocked_current (p : PickFirst) (l k : Nat) (reason : String)
    (L : PickFirstSubchannelList) (hcur : p.subchannel_list_ = some L) (hid : L.id = l)
    (hpend : p.isPending l = false) :
    CancelConnectivityWatchLocked p (l, k) reason =
      { p with subchannel_list_ :=
                 some (L.modify k (fun sd => { sd with pending_watcher_ := false }))
               calls := p.calls ++ [Call.CancelConnectivityWatchLocked (l, k) reason] } := by
  simp only [CancelConnectivityWatchLocked, PickFirst.onData]
  rw [onList_of_current p l L _ hcur hid hpend]
  rfl

theorem CancelConnectivityWatchLocked_pending (p : PickFirst) (l k : Nat) (reason : String)
    (P : PickFirstSubchannelList) (hpend : p.latest_pending_subchannel_list_ = some P)
    (hid : P.id = l) (hcur : p.isCurrent l = false) :
    CancelConnectivityWatchLocked p (l, k) reason =
      { p with latest_pending_subchannel_list_ :=
                 some (P.modify k (fun sd => { sd with pending_watcher_ := false }))
               calls := p.calls ++ [Call.CancelConnectivityWatchLocked (l, k) reason] } := by
  simp only [CancelConnectivityWatchLocked, PickFirst.onData]
  rw [onList_of_pending p l P _ hpend hid hcur]
  rfl

theorem afterFailure_current (p : PickFirst) (l k n : Nat)
    (L : PickFirstSubchannelList) (hcur : p.subchannel_list_ = some L) (hid : L.id = l)
    (hpend : p.isPending l = false) :
    afterFailure p (l, k) n =
      if (k + 1) % n = 0 then
        { p with
          subchannel_list_ := some
            { L.modify k (fun sd => { sd with pending_watcher_ := false }) with
              in_transient_failure_ := true }
          calls := p.calls ++ [Call.CancelConnectivityWatchLocked (l, k) "connection attempt failed",
            Call.RequestReresolution,
            Call.UpdateState GRPC_CHANNEL_TRANSIENT_FAILURE
              (UnavailableError "failed to connect to all addresses")
              (SubchannelPicker.TransientFailurePicker
                (UnavailableError "failed to connect to all addresses"))] }
      else
        { p with
          subchannel_list_ := some (L.modify k (fun sd => { sd with pending_watcher_ := false }))
          calls := p.calls ++
            [Call.CancelConnectivityWatchLocked (l, k) "connection attempt failed"] } := by
  unfold afterFailure
  rw [CancelConnectivityWatchLocked_current p l k _ L hcur hid hpend]
  by_cases hw : (k + 1) % n = 0
  · simp only [hw, if_true]
    have hpend' : PickFirst.isPending p l = false := hpend
    simp [set_in_transient_failure, PickFirst.onList, PickFirst.isPending, PickFirst.isCurrent,
      modify_id, hid, UpdateState, RequestReresolution, PickFirst.call]
    simp [PickFirst.isPending] at hpend'
    cases hp : p.latest_pending_subchannel_list_ with
    | none => simp
    | some P =>
      have hne : ¬ P.id = l := by
        intro h
        rw [hp] at hpend'
        simp [h] at hpend'
      simp [hne]
  · simp only [hw, if_false]


theorem afterFailure_pending (p : PickFirst) (l k n : Nat)
    (P : PickFirstSubchannelList) (hpend : p.latest_pending_subchannel_list_ = some P)
    (hid : P.id = l) (hcur : p.isCurrent l = false) :
    afterFailure p (l, k) n =
      if (k + 1) % n = 0 then
        { p with
          selected_ := none
          subchannel_list_ := some
            { P.modify k (fun sd => { sd with pending_watcher_ := false }) with
              in_transient_failure_ := true }
          latest_pending_subchannel_list_ := none
          calls := p.calls ++ [Call.CancelConnectivityWatchLocked (l, k) "connection attempt failed",
            Call.RequestReresolution,
            Call.UpdateState GRPC_CHANNEL_TRANSIENT_FAILURE
              (UnavailableError "failed to connect to all addresses")
              (SubchannelPicker.TransientFailurePicker
                (UnavailableError "failed to connect to all addresses"))] }
      else
        { p with
          latest_pending_subchannel_list_ :=
            some (P.modify k (fun sd => { sd with pending_watcher_ := false }))
          calls := p.calls ++
            [Call.CancelConnectivityWatchLocked (l, k) "connection attempt failed"] } := by
  unfold afterFailure
  rw [CancelConnectivityWatchLocked_pending p l k _ P hpend hid hcur]
  by_cases hw : (k + 1) % n = 0
  · simp only [hw, if_true]
    have hcur' : PickFirst.isCurrent p l = false := hcur
    simp [PickFirst.isCurrent] at hcur'
    cases hc : p.subchannel_list_ with
    | none =>
      simp [set_in_transient_failure, PickFirst.onList, PickFirst.isPending, PickFirst.isCurrent,
        modify_id, hid, UpdateState, RequestReresolution, PickFirst.call, hc]
    | some C =>
      have hne : ¬ C.id = l := by
        intro h
        rw [hc] at hcur'
        simp [h] at hcur'
      simp [set_in_transient_failure, PickFirst.onList, PickFirst.isPending, PickFirst.isCurrent,
        modify_id, hid, UpdateState, RequestReresolution, PickFirst.call, hc, hne]
  · simp only [hw, if_false]


theorem none_watched_after_cancel (L L4 : PickFirstSubchannelList) (k : Nat)
    (d : PickFirstSubchannelData) (hd : L.subchannels[k]? = some d)
    (hdw : d.pending_watcher_ = true) (hO : ∃ i, L.OnlyWatched i)
    (hpt : ∀ j : Nat, L4.subchannels[j]? = (L.subchannels[j]?).map
      (fun (e : PickFirstSubchannelData) =>
        if j = k then { e with pending_watcher_ := false } else e)) :
    ∀ (j : Nat) (e : PickFirstSubchannelData), L4.subchannels[j]? = some e →
      e.pending_watcher_ = false := by
  obtain ⟨i0, hO⟩ := hO
  have hk : k = i0 := hO k d hd hdw
  intro j e he
  rw [hpt j] at he
  cases hj : L.subchannels[j]? with
  | none => rw [hj] at he; cases he
  | some e0 =>
    rw [hj] at he
    simp only [Option.map_some', Option.some.injEq] at he
    by_cases hjk : j = k
    · rw [if_pos hjk] at he
      rw [← he]
    · rw [if_neg hjk] at he
      rw [← he]
      cases hw : e0.pending_watcher_ with
      | false => rfl
      | true => exact absurd ((hO j e0 hj hw).trans hk.symm) hjk

theorem next_entry (L : PickFirstSubchannelList) (k : Nat) (d : PickFirstSubchannelData)
    (hd : L.subchannels[k]? = some d) :
    L.num_subchannels ≠ 0 ∧ (k + 1) % L.num_subchannels < L.num_subchannels ∧
      ((k + 1) % L.num_subchannels = 0 ↔ k + 1 = L.num_subchannels) ∧
      ∃ e, L.subchannels[(k + 1) % L.num_subchannels]? = some e := by
  have hk : k < L.subchannels.length := lt_of_getElem? _ _ _ hd
  unfold PickFirstSubchannelList.num_subchannels
  have hpos : 0 < L.subchannels.length := by omega
  have hlt : (k + 1) % L.subchannels.length < L.subchannels.length := Nat.mod_lt _ hpos
  refine ⟨by omega, hlt, ?_, ?_⟩
  · constructor
    · intro h
      by_cases he : k + 1 = L.subchannels.length
      · exact he
      · have : k + 1 < L.subchannels.length := by omega
        rw [Nat.mod_eq_of_lt this] at h
        omega
    · intro h
      rw [h, Nat.mod_self]
  · exact getElem?_of_lt _ _ hlt


theorem failure_finish (env : Env) (p A : PickFirst) (l nx : Nat) (c : Call)
    (L4 : PickFirstSubchannelList) (dn4 : PickFirstSubchannelData) (mid : List Call)
    (hyp : Prop)
    (hwfA : A.skeleton.WF) (hlA : A.list l = some L4)
    (hdA : L4.subchannels[nx]? = some dn4) (hFA : PendingFresh A)
    (hWA : hyp → WatchInv p → L4.OnlyWatched nx ∧ WatchInv A ∧
      ∀ i, A.isCurrent l = true → A.selected_ = some (l, i) → i = nx)
    (hcallsA : A.calls = p.calls ++ [c] ++ mid) (hmid : watchStarts mid = []) :
    ∃ p', CheckConnectivityStateAndStartWatchingLocked env A (l, nx) = some p' ∧
      p'.skeleton.WF ∧ PendingFresh p' ∧
      (hyp → WatchInv p → WatchInv p') ∧
      ∃ mid rest, p'.calls = p.calls ++ [c] ++ mid ++
          [Call.CheckConnectivityStateLocked (l, nx),
           Call.StartConnectivityWatchLocked (l, nx)] ++ rest ∧
        watchStarts mid = [] ∧ watchStarts rest = [] := by
  obtain ⟨p', hp', hwf', hF', hW', rest, hcalls, hws, _⟩ :=
    CheckConnectivityStateAndStartWatchingLocked_inv env A (l, nx) L4 dn4 hwfA hlA hdA hFA
  refine ⟨p', hp', hwf', hF', ?_, mid, rest, ?_, hmid, hws⟩
  · intro hh hW
    obtain ⟨h1, h2, h3⟩ := hWA hh hW
    exact hW' h1 h2 h3
  · rw [hcalls, hcallsA]

/-- A failure reported by an unselected entry of a live list: the callback
returns, keeps the skeleton well formed and the pending list free of the flag,
keeps the watches confined when the reporting entry carried the watch, and
cancels the watch of the reporting entry before it starts the watch of the
next entry. -/
theorem failure_inv (env : Env) (p : PickFirst) (this : SubchannelDataRef)
    (st : grpc_connectivity_state) (L : PickFirstSubchannelList) (d : PickFirstSubchannelData)
    (hwf : p.skeleton.WF) (hl : p.list this.1 = some L)
    (hd : L.subchannels[this.2]? = some d)
    (hsel : ¬ p.selected_ = some this)
    (hst : st = GRPC_CHANNEL_TRANSIENT_FAILURE ∨ st = GRPC_CHANNEL_IDLE)
    (hF : PendingFresh p) :
    ∃ p', ProcessConnectivityChangeLocked env p this st = some p' ∧
      p'.skeleton.WF ∧ PendingFresh p' ∧
      (d.pending_watcher_ = true → WatchInv p → WatchInv p') ∧
      ∃ mid rest, p'.calls = p.calls ++
          [Call.CancelConnectivityWatchLocked this "connection attempt failed"] ++ mid ++
          [Call.CheckConnectivityStateLocked (this.1, (this.2 + 1) % L.num_subchannels),
           Call.StartConnectivityWatchLocked (this.1, (this.2 + 1) % L.num_subchannels)] ++
          rest ∧
        watchStarts mid = [] ∧ watchStarts rest = [] := by
  have hsd : p.subchannel_data this = some d := by
    rw [subchannel_data_of_list p this L hl]; exact hd
  obtain ⟨hn0, hlt, hwrap, dn, hdn⟩ := next_entry L this.2 d hd
  rw [ProcessConnectivityChangeLocked_afterFailure env p this st L d hl hsd hsel hst]
  have hpt : ∀ j : Nat,
      (L.modify this.2 (fun sd => { sd with pending_watcher_ := false })).subchannels[j]? =
      (L.subchannels[j]?).map (fun (e : PickFirstSubchannelData) =>
        if j = this.2 then { e with pending_watcher_ := false } else e) :=
    fun j => modify_getElem? L this.2 j _
  have hdn4 : (L.modify this.2 (fun sd => { sd with pending_watcher_ := false })).subchannels[
      (this.2 + 1) % L.num_subchannels]? =
      some (if (this.2 + 1) % L.num_subchannels = this.2 then
        { dn with pending_watcher_ := false } else dn) := by
    rw [hpt, hdn]; rfl
  generalize hA : afterFailure p this L.num_subchannels = A
  rcases list_cases p this.1 L hl with ⟨hcur, hid⟩ | ⟨hpend, hid, hnc⟩
  · -- the list of the entry is the current list
    have hnp : p.isPending this.1 = false := by
      rw [← hid]; exact isPending_false_of_current p hwf L hcur
    have haf : afterFailure p this L.num_subchannels = _ :=
      afterFailure_current p this.1 this.2 L.num_subchannels L hcur hid hnp
    rw [hA] at haf
    have hSsel : ∀ i, d.pending_watcher_ = true → WatchInv p →
        p.selected_ = some (this.1, i) → False := by
      intro i hdw hW hs
      have hO := hW.2.2 L i hcur (by rw [hid]; exact hs)
      have hk : this.2 = i := hO this.2 d hd hdw
      apply hsel
      rw [hs, ← hk]
    by_cases hw : (this.2 + 1) % L.num_subchannels = 0
    · rw [if_pos hw] at haf
      refine failure_finish env p A this.1 _ _
        { L.modify this.2 (fun sd => { sd with pending_watcher_ := false }) with
          in_transient_failure_ := true } _
        [Call.RequestReresolution,
          Call.UpdateState GRPC_CHANNEL_TRANSIENT_FAILURE
            (UnavailableError "failed to connect to all addresses")
            (SubchannelPicker.TransientFailurePicker
              (UnavailableError "failed to connect to all addresses"))]
        (d.pending_watcher_ = true) ?_ ?_ hdn4 ?_ ?_ ?_ rfl
      · have : A.skeleton = p.skeleton := by
          rw [haf]; simp [PickFirst.skeleton, hcur, modify_id]
        rw [this]; exact hwf
      · rw [haf]; simp [PickFirst.list, PickFirst.isCurrent, modify_id, hid]
      · intro P hP
        rw [haf] at hP
        exact hF P hP
      · intro hdw hW
        have hnone := none_watched_after_cancel L
          { L.modify this.2 (fun sd => { sd with pending_watcher_ := false }) with
            in_transient_failure_ := true } this.2 d hd hdw (hW.1 L hcur) hpt
        refine ⟨OnlyWatched_any_of_none _ hnone _, ⟨?_, ?_, ?_⟩, ?_⟩
        · intro C hC
          rw [haf] at hC
          injection hC with hC
          exact ⟨0, hC ▸ OnlyWatched_any_of_none _ hnone _⟩
        · intro P hP
          rw [haf] at hP
          exact hW.2.1 P hP
        · intro C i hC _
          rw [haf] at hC
          injection hC with hC
          exact hC ▸ OnlyWatched_any_of_none _ hnone _
        · intro i _ hs
          rw [haf] at hs
          exact (hSsel i hdw hW hs).elim
      · rw [haf]; simp
    · rw [if_neg hw] at haf
      refine failure_finish env p A this.1 _ _
        (L.modify this.2 (fun sd => { sd with pending_watcher_ := false })) _
        [] (d.pending_watcher_ = true) ?_ ?_ hdn4 ?_ ?_ ?_ rfl
      · have : A.skeleton = p.skeleton := by
          rw [haf]; simp [PickFirst.skeleton, hcur, modify_id]
        rw [this]; exact hwf
      · rw [haf]; simp [PickFirst.list, PickFirst.isCurrent, modify_id, hid]
      · intro P hP
        rw [haf] at hP
        exact hF P hP
      · intro hdw hW
        have hnone := none_watched_after_cancel L
          (L.modify this.2 (fun sd => { sd with pending_watcher_ := false }))
          this.2 d hd hdw (hW.1 L hcur) hpt
        refine ⟨OnlyWatched_any_of_none _ hnone _, ⟨?_, ?_, ?_⟩, ?_⟩
        · intro C hC
          rw [haf] at hC
          injection hC with hC
          exact ⟨0, hC ▸ OnlyWatched_any_of_none _ hnone _⟩
        · intro P hP
          rw [haf] at hP
          exact hW.2.1 P hP
        · intro C i hC _
          rw [haf] at hC
          injection hC with hC
          exact hC ▸ OnlyWatched_any_of_none _ hnone _
        · intro i _ hs
          rw [haf] at hs
          exact (hSsel i hdw hW hs).elim
      · rw [haf]; simp
  · -- the list of the entry is the pending list
    have haf : afterFailure p this L.num_subchannels = _ :=
      afterFailure_pending p this.1 this.2 L.num_subchannels L hpend hid hnc
    rw [hA] at haf
    by_cases hw : (this.2 + 1) % L.num_subchannels = 0
    · rw [if_pos hw] at haf
      refine failure_finish env p A this.1 _ _
        { L.modify this.2 (fun sd => { sd with pending_watcher_ := false }) with
          in_transient_failure_ := true } _
        [Call.RequestReresolution,
          Call.UpdateState GRPC_CHANNEL_TRANSIENT_FAILURE
            (UnavailableError "failed to connect to all addresses")
            (SubchannelPicker.TransientFailurePicker
              (UnavailableError "failed to connect to all addresses"))]
        (d.pending_watcher_ = true) ?_ ?_ hdn4 ?_ ?_ ?_ rfl
      · have : A.skeleton =
            { cur := p.skeleton.pend, pend := none, sel := none, next := p.skeleton.next } := by
          rw [haf]; simp [PickFirst.skeleton, hpend, modify_id]
        rw [this]; exact promote_WF _ hwf
      · rw [haf]; simp [PickFirst.list, PickFirst.isCurrent, modify_id, hid]
      · intro P hP
        rw [haf] at hP
        cases hP
      · intro hdw hW
        have hnone := none_watched_after_cancel L
          { L.modify this.2 (fun sd => { sd with pending_watcher_ := false }) with
            in_transient_failure_ := true } this.2 d hd hdw (hW.2.1 L hpend) hpt
        refine ⟨OnlyWatched_any_of_none _ hnone _, ⟨?_, ?_, ?_⟩, ?_⟩
        · intro C hC
          rw [haf] at hC
          injection hC with hC
          exact ⟨0, hC ▸ OnlyWatched_any_of_none _ hnone _⟩
        · intro P hP
          rw [haf] at hP
          cases hP
        · intro C i hC _
          rw [haf] at hC
          injection hC with hC
          exact hC ▸ OnlyWatched_any_of_none _ hnone _
        · intro i _ hs
          rw [haf] at hs
          cases hs
      · rw [haf]; simp
    · rw [if_neg hw] at haf
      have hncA : A.isCurrent this.1 = false := by
        rw [haf]; exact hnc
      refine failure_finish env p A this.1 _ _
        (L.modify this.2 (fun sd => { sd with pending_watcher_ := false })) _
        [] (d.pending_watcher_ = true) ?_ ?_ hdn4 ?_ ?_ ?_ rfl
      · have : A.skeleton = p.skeleton := by
          rw [haf]; simp [PickFirst.skeleton, hpend, modify_id]
        rw [this]; exact hwf
      · unfold PickFirst.list
        rw [hncA, haf]
        simp [PickFirst.isPending, modify_id, hid]
      · intro P hP
        rw [haf] at hP
        injection hP with hP
        rw [← hP, modify_in_transient_failure]
        exact hF L hpend
      · intro hdw hW
        have hnone := none_watched_after_cancel L
          (L.modify this.2 (fun sd => { sd with pending_watcher_ := false }))
          this.2 d hd hdw (hW.2.1 L hpend) hpt
        refine ⟨OnlyWatched_any_of_none _ hnone _, ⟨?_, ?_, ?_⟩, ?_⟩
        · intro C hC
          rw [haf] at hC
          exact hW.1 C hC
        · intro P hP
          rw [haf] at hP
          injection hP with hP
          exact ⟨0, hP ▸ OnlyWatched_any_of_none _ hnone _⟩
        · intro C i hC hs
          rw [haf] at hC hs
          exact hW.2.2 C i hC hs
        · intro i hc _
          rw [hncA] at hc
          cases hc
      · rw [haf]; simp


theorem set_in_transient_failure_current (p : PickFirst) (l : Nat) (b : Bool)
    (L : PickFirstSubchannelList) (hcur : p.subchannel_list_ = some L) (hid : L.id = l)
    (hpend : p.isPending l = false) :
    set_in_transient_failure p l b =
      { p with subchannel_list_ := some { L with in_transient_failure_ := b } } :=
  onList_of_current p l L _ hcur hid hpend

theorem set_in_transient_failure_pending (p : PickFirst) (l : Nat) (b : Bool)
    (P : PickFirstSubchannelList) (hpend : p.latest_pending_subchannel_list_ = some P)
    (hid : P.id = l) (hcur : p.isCurrent l = false) :
    set_in_transient_failure p l b =
      { p with latest_pending_subchannel_list_ := some { P with in_transient_failure_ := b } } :=
  onList_of_pending p l P _ hpend hid hcur

/-- The selected entry of the current list reports a state other than READY
(pick_first.cc:319-358): the result has no pending list and no selection, and
its current list, if any, is the former pending list. -/
theorem selected_lost_result (p p' : PickFirst) (this : SubchannelDataRef)
    (C : PickFirstSubchannelList)
    (h : (if p.latest_pending_subchannel_list_.isSome = true then
        let p1 := { p with selected_ := none }
        let p2 := CancelConnectivityWatchLocked p1 this
          "selected subchannel failed; switching to pending update"
        let p3 := { p2 with subchannel_list_ := p2.latest_pending_subchannel_list_
                            latest_pending_subchannel_list_ := none }
        match p3.subchannel_list_ with
        | none => none
        | some current =>
          if current.in_transient_failure_ = true then
            let status :=
              UnavailableError "selected subchannel failed; switching to pending update"
            some (UpdateState p3 GRPC_CHANNEL_TRANSIENT_FAILURE status
              (SubchannelPicker.TransientFailurePicker status))
          else
            some (UpdateState p3 GRPC_CHANNEL_CONNECTING OkStatus SubchannelPicker.QueuePicker)
      else
        let p1 := RequestReresolution p
        let p2 := { p1 with idle_ := true, selected_ := none, subchannel_list_ := none }
        some (UpdateState p2 GRPC_CHANNEL_IDLE OkStatus SubchannelPicker.QueuePicker)) = some p')
    (hcur : p.subchannel_list_ = some C) (hid : C.id = this.1)
    (hnp : p.isPending this.1 = false) :
    p'.latest_pending_subchannel_list_ = none ∧ p'.selected_ = none ∧
      (p'.subchannel_list_ = none ∨
        p'.subchannel_list_ = p.latest_pending_subchannel_list_) ∧
      ((∀ P, p.latest_pending_subchannel_list_ = some P → P.in_transient_failure_ = false) →
        p.latest_pending_subchannel_list_.isSome = true →
        p'.calls = p.calls ++
          [Call.CancelConnectivityWatchLocked this
            "selected subchannel failed; switching to pending update",
           Call.UpdateState GRPC_CHANNEL_CONNECTING OkStatus SubchannelPicker.QueuePicker]) := by
  have hq : CancelConnectivityWatchLocked { p with selected_ := none } this
      "selected subchannel failed; switching to pending update" = _ :=
    CancelConnectivityWatchLocked_current { p with selected_ := none } this.1 this.2 _ C
      hcur hid hnp
  simp only [hq] at h
  split_ifs at h with h2
  · cases hp : p.latest_pending_subchannel_list_ with
    | none => simp [hp] at h2
    | some P =>
      simp only [hp] at h
      split_ifs at h with h3
      · injection h with h
        rw [← h]
        refine ⟨rfl, rfl, Or.inr rfl, ?_⟩
        intro hF _
        rw [hF P rfl] at h3
        cases h3
      · injection h with h
        rw [← h]
        refine ⟨rfl, rfl, Or.inr rfl, ?_⟩
        intro _ _
        simp [UpdateState, PickFirst.call]
  · injection h with h
    rw [← h]
    have hpn : p.latest_pending_subchannel_list_ = none := by
      cases hx : p.latest_pending_subchannel_list_ with
      | none => rfl
      | some x => simp [hx] at h2
    refine ⟨hpn, rfl, Or.inl rfl, ?_⟩
    intro _ hx
    exact absurd hx h2


theorem WatchInv_no_pending_no_selection (p : PickFirst) (q : PickFirst)
    (hp : q.latest_pending_subchannel_list_ = none) (hs : q.selected_ = none)
    (hc : q.subchannel_list_ = none ∨
      q.subchannel_list_ = p.latest_pending_subchannel_list_)
    (hW : WatchInv p) : WatchInv q := by
  refine ⟨?_, ?_, ?_⟩
  · intro C hC
    rcases hc with hc | hc
    · rw [hc] at hC; cases hC
    · rw [hc] at hC; exact hW.2.1 C hC
  · intro P hP
    rw [hp] at hP; cases hP
  · intro C i _ hsel
    rw [hs] at hsel; cases hsel

/-- READY reported by an unselected entry of a live list (pick_first.cc:370-374):
the callback returns with the entry selected, its list current, no flag on it. -/
theorem ready_inv (env : Env) (p : PickFirst) (this : SubchannelDataRef)
    (L : PickFirstSubchannelList) (d : PickFirstSubchannelData)
    (hwf : p.skeleton.WF) (hl : p.list this.1 = some L)
    (hd : L.subchannels[this.2]? = some d)
    (hsel : ¬ p.selected_ = some this)
    (hF : PendingFresh p) :
    ∃ p' L', ProcessConnectivityChangeLocked env p this GRPC_CHANNEL_READY = some p' ∧
      p'.skeleton.WF ∧ PendingFresh p' ∧ (WatchInv p → WatchInv p') ∧
      p'.subchannel_list_ = some L' ∧ L'.id = this.1 ∧ L'.in_transient_failure_ = false ∧
      p'.selected_ = some this ∧
      publications p'.calls = publications p.calls ++
        [(GRPC_CHANNEL_READY, OkStatus, SubchannelPicker.Picker d.subchannel)] := by
  have hsd : p.subchannel_data this = some d := by
    rw [subchannel_data_of_list p this L hl]; exact hd
  have hpcc : ProcessConnectivityChangeLocked env p this GRPC_CHANNEL_READY =
      ProcessUnselectedReadyLocked (set_in_transient_failure p this.1 false) this := by
    simp [ProcessConnectivityChangeLocked, hl, hsd, hsel]
  rw [hpcc]
  generalize hA : set_in_transient_failure p this.1 false = A
  have hwfA : A.skeleton.WF := by
    rw [← hA, skeleton_set_in_transient_failure]; exact hwf
  have hselA : A.selected_ = p.selected_ := by rw [← hA]; rfl
  have hcallsA : A.calls = p.calls := by rw [← hA]; rfl
  have hlA : A.list this.1 = some { L with in_transient_failure_ := false } ∧
      PendingFresh A ∧ (WatchInv p → ∀ P, A.latest_pending_subchannel_list_ = some P →
        ∃ i, P.OnlyWatched i) := by
    rcases list_cases p this.1 L hl with ⟨hcur, hid⟩ | ⟨hpend, hid, hnc⟩
    · have hnp : p.isPending this.1 = false := by
        rw [← hid]; exact isPending_false_of_current p hwf L hcur
      have hA' := set_in_transient_failure_current p this.1 false L hcur hid hnp
      rw [hA] at hA'
      refine ⟨?_, ?_, ?_⟩
      · rw [hA']; simp [PickFirst.list, PickFirst.isCurrent, hid]
      · intro P hP; rw [hA'] at hP; exact hF P hP
      · intro hW P hP; rw [hA'] at hP; exact hW.2.1 P hP
    · have hA' := set_in_transient_failure_pending p this.1 false L hpend hid hnc
      rw [hA] at hA'
      have hncA : A.isCurrent this.1 = false := by rw [hA']; exact hnc
      refine ⟨?_, ?_, ?_⟩
      · unfold PickFirst.list
        rw [hncA, hA']
        simp [PickFirst.isPending, hid]
      · intro P hP; rw [hA'] at hP; injection hP with hP; rw [← hP]
      · intro hW P hP
        rw [hA'] at hP; injection hP with hP
        obtain ⟨i, hi⟩ := hW.2.1 L hpend
        exact ⟨i, hP ▸ hi⟩
  obtain ⟨hlA, hFA, hWA⟩ := hlA
  obtain ⟨p', L', h1, hc', hid', hf', hpt', hsel', hpend', hcalls', hwf'⟩ :=
    ProcessUnselectedReadyLocked_result A this { L with in_transient_failure_ := false } d
      hwfA hlA hd
  refine ⟨p', L', h1, hwf', PendingFresh_ProcessUnselectedReadyLocked A p' this hpend' hFA,
    ?_, hc', hid', hf', hsel', ?_⟩
  · intro hW
    exact WatchInv_ProcessUnselectedReadyLocked A p' this _ L' hc' hpt' hsel' hpend' (hWA hW)
  · rw [hcalls', hcallsA, publications_append, publications_append,
      (observations_of_shutdowns _ _).1]
    simp [publications]

/-- Every connectivity callback that returns keeps the pending list free of the
flag `in_transient_failure_`, and keeps the watches confined when it is
delivered on an entry that carries the watch. -/
theorem ProcessConnectivityChangeLocked_inv (env : Env) (p p' : PickFirst)
    (this : SubchannelDataRef) (s : grpc_connectivity_state)
    (h : ProcessConnectivityChangeLocked env p this s = some p')
    (hwf : p.skeleton.WF) (hF : PendingFresh p) :
    PendingFresh p' ∧
      ((∀ d, p.subchannel_data this = some d → d.pending_watcher_ = true) →
        WatchInv p → WatchInv p') := by
  cases hl : p.list this.1 with
  | none => simp [ProcessConnectivityChangeLocked, hl] at h
  | some L =>
    cases hd : p.subchannel_data this with
    | none => simp [ProcessConnectivityChangeLocked, hl, hd] at h
    | some d =>
      have hdL : L.subchannels[this.2]? = some d := by
        rw [← subchannel_data_of_list p this L hl]; exact hd
      by_cases hsel : p.selected_ = some this
      · by_cases hc : p.isCurrent this.1 = true
        · have hcur : p.subchannel_list_ = some L := by
            simpa [PickFirst.list, hc] using hl
          have hid : L.id = this.1 := by
            simpa [PickFirst.isCurrent, hcur] using hc
          have hnp : p.isPending this.1 = false := by
            rw [← hid]; exact isPending_false_of_current p hwf L hcur
          have hlost : ∀ p', (if p.latest_pending_subchannel_list_.isSome = true then
                let p1 := { p with selected_ := none }
                let p2 := CancelConnectivityWatchLocked p1 this
                  "selected subchannel failed; switching to pending update"
                let p3 := { p2 with subchannel_list_ := p2.latest_pending_subchannel_list_
                                    latest_pending_subchannel_list_ := none }
                match p3.subchannel_list_ with
                | none => none
                | some current =>
                  if current.in_transient_failure_ = true then
                    let status :=
                      UnavailableError "selected subchannel failed; switching to pending update"
                    some (UpdateState p3 GRPC_CHANNEL_TRANSIENT_FAILURE status
                      (SubchannelPicker.TransientFailurePicker status))
                  else
                    some (UpdateState p3 GRPC_CHANNEL_CONNECTING OkStatus
                      SubchannelPicker.QueuePicker)
              else
                let p1 := RequestReresolution p
                let p2 := { p1 with idle_ := true, selected_ := none, subchannel_list_ := none }
                some (UpdateState p2 GRPC_CHANNEL_IDLE OkStatus SubchannelPicker.QueuePicker)) =
                some p' →
              PendingFresh p' ∧ (WatchInv p → WatchInv p') := by
            intro p' h
            obtain ⟨h1, h2, h3, _⟩ := selected_lost_result p p' this L h hcur hid hnp
            refine ⟨?_, fun hW => WatchInv_no_pending_no_selection p p' h1 h2 h3 hW⟩
            intro P hP
            rw [h1] at hP; cases hP
          cases s with
          | GRPC_CHANNEL_READY =>
            simp [ProcessConnectivityChangeLocked, hl, hd, hsel, hc] at h
            rw [← h]; exact ⟨hF, fun _ hW => hW⟩
          | GRPC_CHANNEL_SHUTDOWN =>
            simp [ProcessConnectivityChangeLocked, hl, hd] at h
          | GRPC_CHANNEL_IDLE =>
            simp only [ProcessConnectivityChangeLocked, hl, hd, hsel, hc, if_true, reduceCtorEq,
              if_false, Bool.not_true, Bool.false_eq_true] at h
            exact ⟨(hlost p' h).1, fun _ hW => (hlost p' h).2 hW⟩
          | GRPC_CHANNEL_CONNECTING =>
            simp only [ProcessConnectivityChangeLocked, hl, hd, hsel, hc, if_true, reduceCtorEq,
              if_false, Bool.not_true, Bool.false_eq_true] at h
            exact ⟨(hlost p' h).1, fun _ hW => (hlost p' h).2 hW⟩
          | GRPC_CHANNEL_TRANSIENT_FAILURE =>
            simp only [ProcessConnectivityChangeLocked, hl, hd, hsel, hc, if_true, reduceCtorEq,
              if_false, Bool.not_true, Bool.false_eq_true] at h
            exact ⟨(hlost p' h).1, fun _ hW => (hlost p' h).2 hW⟩
        · cases s <;> simp [ProcessConnectivityChangeLocked, hl, hd, hsel, hc] at h
      · cases s with
        | GRPC_CHANNEL_READY =>
          obtain ⟨p'', _, h1, _, hF', hW', _⟩ := ready_inv env p this L d hwf hl hdL hsel hF
          rw [h] at h1
          injection h1 with h1
          rw [h1]
          exact ⟨hF', fun _ hW => hW' hW⟩
        | GRPC_CHANNEL_SHUTDOWN =>
          simp [ProcessConnectivityChangeLocked, hl, hd] at h
        | GRPC_CHANNEL_CONNECTING =>
          simp only [ProcessConnectivityChangeLocked, hl, hd, hsel, if_false, reduceCtorEq] at h
          split_ifs at h
          · injection h with h; rw [← h]; exact ⟨hF, fun _ hW => hW⟩
          · injection h with h; rw [← h]; exact ⟨hF, fun _ hW => hW⟩
        | GRPC_CHANNEL_IDLE =>
          obtain ⟨p'', h1, _, hF', hW', _⟩ :=
            failure_inv env p this _ L d hwf hl hdL hsel (Or.inr rfl) hF
          rw [h] at h1
          injection h1 with h1
          rw [h1]
          exact ⟨hF', fun hw hW => hW' (hw d rfl) hW⟩
        | GRPC_CHANNEL_TRANSIENT_FAILURE =>
          obtain ⟨p'', h1, _, hF', hW', _⟩ :=
            failure_inv env p this _ L d hwf hl hdL hsel (Or.inl rfl) hF
          rw [h] at h1
          injection h1 with h1
          rw [h1]
          exact ⟨hF', fun hw hW => hW' (hw d rfl) hW⟩


theorem scanForReady_entries (env : Env) :
    ∀ (n i : Nat) (L : PickFirstSubchannelList) (cs : List Call),
      (scanForReady env n i L cs).1.in_transient_failure_ = L.in_transient_failure_ ∧
      ∀ (j : Nat) (e : PickFirstSubchannelData),
        (scanForReady env n i L cs).1.subchannels[j]? = some e →
        ∃ e0, L.subchannels[j]? = some e0 ∧ e.pending_watcher_ = e0.pending_watcher_ := by
  intro n
  induction n with
  | zero => intro i L cs; exact ⟨rfl, fun j e h => ⟨e, h, rfl⟩⟩
  | succ n ih =>
    intro i L cs
    have hmod : ∀ (j : Nat) (e : PickFirstSubchannelData),
        (L.modify i (fun d => (CheckConnectivityStateLocked env d).1)).subchannels[j]? = some e →
        ∃ e0, L.subchannels[j]? = some e0 ∧ e.pending_watcher_ = e0.pending_watcher_ := by
      intro j e hj
      rw [modify_getElem?] at hj
      cases h0 : L.subchannels[j]? with
      | none => rw [h0] at hj; cases hj
      | some e0 =>
        rw [h0] at hj
        simp only [Option.map_some', Option.some.injEq] at hj
        refine ⟨e0, rfl, ?_⟩
        rw [← hj]
        split_ifs <;> rfl
    cases he : L.subchannels[i]? with
    | none =>
      simp only [scanForReady, PickFirstSubchannelList.subchannel, he]
      exact ⟨trivial, fun j e h => ⟨e, h, rfl⟩⟩
    | some e =>
      by_cases hr : env.CheckConnectivityState e.subchannel = GRPC_CHANNEL_READY
      · have hr' : (CheckConnectivityStateLocked env e).2 = GRPC_CHANNEL_READY := hr
        simp only [scanForReady, PickFirstSubchannelList.subchannel, he, hr', if_true]
        exact ⟨modify_in_transient_failure _ _ _, hmod⟩
      · have hr' : ¬ (CheckConnectivityStateLocked env e).2 = GRPC_CHANNEL_READY := hr
        simp only [scanForReady, PickFirstSubchannelList.subchannel, he, hr', if_false]
        obtain ⟨h1, h2⟩ := ih (i + 1)
          (L.modify i (fun d => (CheckConnectivityStateLocked env d).1))
          (cs ++ [Call.CheckConnectivityStateLocked (L.id, i)])
        refine ⟨by rw [h1, modify_in_transient_failure], ?_⟩
        intro j e' hj
        obtain ⟨e1, he1, hw1⟩ := h2 j e' hj
        obtain ⟨e0, he0, hw0⟩ := hmod j e1 he1
        exact ⟨e0, he0, hw1.trans hw0⟩

theorem newSubchannelList_unwatched (env : Env) (p : PickFirst) (j : Nat)
    (e : PickFirstSubchannelData) (h : (p.newSubchannelList env).subchannels[j]? = some e) :
    e.pending_watcher_ = false :=
  (MakeSubchannelList_entry env _ _ _ j e h).1

theorem OnlyWatched_modify_watch (S : PickFirstSubchannelList) (k : Nat)
    (hS : ∀ (j : Nat) (e : PickFirstSubchannelData), S.subchannels[j]? = some e →
      e.pending_watcher_ = false) :
    (S.modify k (fun sd => { sd with pending_watcher_ := true })).OnlyWatched k := by
  apply OnlyWatched_of_pointwise S _ _ k (fun j => modify_getElem? S k j _)
  intro j e he hw
  by_cases hj : j = k
  · exact hj
  · rw [if_neg hj, hS j e he] at hw
    cases hw

theorem WF_fresh_current (s : Skeleton) (hwf : s.WF) :
    Skeleton.WF ⟨some s.next, s.pend, s.sel, s.next + 1⟩ := by
  obtain ⟨h1, h2, h3, h4, h5⟩ := hwf
  refine ⟨?_, ?_, ?_, h4, ?_⟩
  · intro i hi
    injection hi with hi
    rw [← hi]; exact Nat.lt_succ_self _
  · intro i hi; exact Nat.lt_succ_of_lt (h2 i hi)
  · intro sd hsd; exact Nat.lt_succ_of_lt (h3 sd hsd)
  · intro i j hi hj hij
    injection hi with hi
    have := h2 j hj
    rw [← hij, ← hi] at this
    exact Nat.lt_irrefl _ this

/-- Connection planning keeps the pending list free of the flag and the watches
confined. -/
theorem AttemptToConnect_inv (env : Env) (p p' : PickFirst)
    (h : p.AttemptToConnectUsingLatestUpdateArgsLocked env = some p')
    (hwf : p.skeleton.WF) (hF : PendingFresh p) :
    PendingFresh p' ∧ (WatchInv p → WatchInv p') := by
  obtain ⟨hfp, hfc⟩ := fresh_of_WF p hwf
  by_cases hne : (p.newSubchannelList env).num_subchannels = 0
  · rw [attempt_empty env p hne] at h
    injection h with h
    rw [← h]
    refine ⟨fun P hP => (by cases hP), fun _ => ⟨?_, fun P hP => (by cases hP),
      fun C i _ hs => (by cases hs)⟩⟩
    intro C hC
    injection hC with hC
    refine ⟨0, hC ▸ OnlyWatched_any_of_none _ ?_ 0⟩
    exact fun j e he => newSubchannelList_unwatched env p j e he
  · obtain ⟨hid, hentry⟩ := scanForReady_cases env (p.newSubchannelList env).num_subchannels 0
      (p.newSubchannelList env) p.calls
    obtain ⟨hflag, hent⟩ := scanForReady_entries env (p.newSubchannelList env).num_subchannels 0
      (p.newSubchannelList env) p.calls
    obtain ⟨S, cs, o, hscan⟩ : ∃ S cs o, scanForReady env
        (p.newSubchannelList env).num_subchannels 0 (p.newSubchannelList env) p.calls =
        (S, cs, o) := ⟨_, _, _, rfl⟩
    rw [hscan] at hid hflag hent hentry
    have hSid : S.id = p.next_list := hid
    have hSflag : S.in_transient_failure_ = false := hflag
    have hSun : ∀ (j : Nat) (e : PickFirstSubchannelData), S.subchannels[j]? = some e →
        e.pending_watcher_ = false := by
      intro j e he
      obtain ⟨e0, he0, hw⟩ := hent j e he
      rw [hw]; exact newSubchannelList_unwatched env p j e0 he0
    cases o with
    | some k =>
      rw [attempt_found env p S cs k hne hscan] at h
      obtain ⟨dk, hdk⟩ := hentry k rfl
      have hdk' : S.subchannels[k]? = some dk := hdk
      generalize hB : StartConnectivityWatchLocked
          { p with next_list := p.next_list + 1, calls := cs, subchannel_list_ := some S }
          (S.id, k) = B at h
      have hB' := StartConnectivityWatchLocked_current
          { p with next_list := p.next_list + 1, calls := cs, subchannel_list_ := some S }
          S.id k S rfl rfl (by rw [hSid]; exact hfp)
      rw [hB] at hB'
      have hwfB : B.skeleton.WF := by
        have hsk : B.skeleton = ⟨some p.skeleton.next, p.skeleton.pend, p.skeleton.sel,
            p.skeleton.next + 1⟩ := by
          rw [hB']; simp [PickFirst.skeleton, modify_id, hSid]
        rw [hsk]
        exact WF_fresh_current _ hwf
      have hpB : B.latest_pending_subchannel_list_ = p.latest_pending_subchannel_list_ := by
        rw [hB']
      have hlB : B.list (S.id, k).1 =
          some (S.modify k (fun sd => { sd with pending_watcher_ := true })) := by
        rw [hB']; simp [PickFirst.list, PickFirst.isCurrent, modify_id]
      have hdB : (S.modify k (fun sd => { sd with pending_watcher_ := true })).subchannels[
          (S.id, k).2]? = some { dk with pending_watcher_ := true } := by
        rw [modify_getElem?, hdk']; simp
      obtain ⟨p3, L', h1, hc', hid', hf', hpt', hsel', hpend', hcalls', hwf'⟩ :=
        ProcessUnselectedReadyLocked_result B (S.id, k) _ _ hwfB hlB hdB
      rw [h1] at h
      injection h with h
      rw [← h]
      refine ⟨fun P hP => (by cases hP), fun hW => ?_⟩
      have hW3 := WatchInv_ProcessUnselectedReadyLocked B p3 (S.id, k) _ L' hc' hpt' hsel'
        hpend' (fun P hP => hW.2.1 P (hpB ▸ hP))
      exact ⟨hW3.1, fun P hP => (by cases hP), hW3.2.2⟩
    | none =>
      rw [attempt_not_found env p S cs hne hscan] at h
      by_cases hsel : p.selected_ = none
      · rw [if_pos hsel] at h
        have hB' := StartConnectivityWatchLocked_current
          { p with next_list := p.next_list + 1, calls := cs, subchannel_list_ := some S }
          S.id 0 S rfl rfl (by rw [hSid]; exact hfp)
        rw [hB'] at h
        injection h with h
        rw [← h]
        refine ⟨fun P hP => hF P hP, fun hW => ⟨?_, fun P hP => hW.2.1 P hP, ?_⟩⟩
        · intro C hC
          injection hC with hC
          exact ⟨0, hC ▸ OnlyWatched_modify_watch S 0 hSun⟩
        · intro C i _ hs
          have hs' : p.selected_ = some (C.id, i) := hs
          rw [hsel] at hs'; cases hs'
      · rw [if_neg hsel] at h
        have hB' := StartConnectivityWatchLocked_pending
          { p with next_list := p.next_list + 1, calls := cs,
                   latest_pending_subchannel_list_ := some S }
          S.id 0 S rfl rfl (by rw [hSid]; exact hfc)
        rw [hB'] at h
        injection h with h
        rw [← h]
        refine ⟨?_, fun hW => ⟨fun C hC => hW.1 C hC, ?_, fun C i hC hs => hW.2.2 C i hC hs⟩⟩
        · intro P hP
          injection hP with hP
          rw [← hP, modify_in_transient_failure]; exact hSflag
        · intro P hP
          injection hP with hP
          exact ⟨0, hP ▸ OnlyWatched_modify_watch S 0 hSun⟩


theorem UpdateLocked_inv (env : Env) (p p' : PickFirst) (args : UpdateArgs)
    (h : p.UpdateLocked env args = some p') (hwf : p.skeleton.WF) (hF : PendingFresh p) :
    PendingFresh p' ∧ (WatchInv p → WatchInv p') := by
  rcases Bool.eq_false_or_eq_true p.idle_ with hidle | hidle
  · simp [PickFirst.UpdateLocked, hidle] at h
    rw [← h]; exact ⟨hF, fun hW => hW⟩
  · rw [UpdateLocked_not_idle env p args hidle] at h
    exact AttemptToConnect_inv env { p with latest_update_args_ := p.storedUpdateArgs args }
      p' h hwf hF

theorem ExitIdleLocked_inv (env : Env) (p p' : PickFirst)
    (h : p.ExitIdleLocked env = some p') (hwf : p.skeleton.WF) (hF : PendingFresh p) :
    PendingFresh p' ∧ (WatchInv p → WatchInv p') := by
  unfold PickFirst.ExitIdleLocked at h
  split_ifs at h
  · injection h with h; rw [← h]; exact ⟨hF, fun hW => hW⟩
  · exact AttemptToConnect_inv env { p with idle_ := false } p' h hwf hF
  · injection h with h; rw [← h]; exact ⟨hF, fun hW => hW⟩

theorem ResetBackoffLocked_lists (p : PickFirst) :
    p.ResetBackoffLocked.subchannel_list_ = p.subchannel_list_ ∧
      p.ResetBackoffLocked.latest_pending_subchannel_list_ =
        p.latest_pending_subchannel_list_ ∧
      p.ResetBackoffLocked.selected_ = p.selected_ := by
  unfold PickFirst.ResetBackoffLocked
  cases hc : p.subchannel_list_ <;> cases hp : p.latest_pending_subchannel_list_ <;>
    simp [PickFirst.call, hc, hp]

/-- In every reachable state the pending list does not carry the flag
`in_transient_failure_`. -/
theorem PendingFresh_of_Reachable (p : PickFirst) (h : Reachable p) : PendingFresh p := by
  induction h with
  | init => intro P hP; cases hP
  | update env args hr hstep ih =>
    exact (UpdateLocked_inv env _ _ args hstep (WF_of_Reachable _ hr) ih).1
  | exit_idle env hr hstep ih =>
    exact (ExitIdleLocked_inv env _ _ hstep (WF_of_Reachable _ hr) ih).1
  | reset_backoff _ ih =>
    intro P hP
    rw [(ResetBackoffLocked_lists _).2.1] at hP
    exact ih P hP
  | shutdown _ ih => intro P hP; cases hP
  | callback env this state hr hstep ih =>
    exact (ProcessConnectivityChangeLocked_inv env _ _ this state hstep
      (WF_of_Reachable _ hr) ih).1

theorem Reachable_of_ReachableWatched (p : PickFirst) (h : ReachableWatched p) :
    Reachable p := by
  induction h with
  | init => exact Reachable.init
  | update env args _ hstep ih => exact Reachable.update env args ih hstep
  | exit_idle env _ hstep ih => exact Reachable.exit_idle env ih hstep
  | reset_backoff _ ih => exact Reachable.reset_backoff ih
  | shutdown _ ih => exact Reachable.shutdown ih
  | callback env this state d _ _ _ hstep ih => exact Reachable.callback env this state ih hstep

/-- In every state reachable with callbacks delivered by watches, the watches of
each live list are confined to one entry, the selected one when `selected_`
points into the current list. -/
theorem WatchInv_of_ReachableWatched (p : PickFirst) (h : ReachableWatched p) :
    WatchInv p := by
  induction h with
  | init =>
    exact ⟨fun C hC => (by cases hC), fun P hP => (by cases hP),
      fun C i hC => (by cases hC)⟩
  | update env args hr hstep ih =>
    have hR := Reachable_of_ReachableWatched _ hr
    exact (UpdateLocked_inv env _ _ args hstep (WF_of_Reachable _ hR)
      (PendingFresh_of_Reachable _ hR)).2 ih
  | exit_idle env hr hstep ih =>
    have hR := Reachable_of_ReachableWatched _ hr
    exact (ExitIdleLocked_inv env _ _ hstep (WF_of_Reachable _ hR)
      (PendingFresh_of_Reachable _ hR)).2 ih
  | reset_backoff _ ih =>
    obtain ⟨h1, h2, h3⟩ := ResetBackoffLocked_lists _
    refine ⟨?_, ?_, ?_⟩
    · intro C hC; rw [h1] at hC; exact ih.1 C hC
    · intro P hP; rw [h2] at hP; exact ih.2.1 P hP
    · intro C i hC hs; rw [h1] at hC; rw [h3] at hs; exact ih.2.2 C i hC hs
  | shutdown _ ih =>
    exact ⟨fun C hC => (by cases hC), fun P hP => (by cases hP),
      fun C i hC => (by cases hC)⟩
  | callback env this state d hr hd hw hstep ih =>
    have hR := Reachable_of_ReachableWatched _ hr
    refine (ProcessConnectivityChangeLocked_inv env _ _ this state hstep
      (WF_of_Reachable _ hR) (PendingFresh_of_Reachable _ hR)).2 ?_ ih
    intro d' hd'
    rw [hd] at hd'
    injection hd' with hd'
    rw [← hd']; exact hw

/-! ## Lemmas: exhausted sweeps and scenario runs -/

/-- Loss of the selected entry while a pending list without the flag exists: the
callback returns and its only publication is `(CONNECTING, QueuePicker)`. -/
theorem selected_lost_with_fresh_pending (env : Env) (p : PickFirst) (C P : PickFirstSubchannelList)
    (i : Nat) (d : PickFirstSubchannelData) (s : grpc_connectivity_state)
    (hwf : p.skeleton.WF)
    (hcur : p.subchannel_list_ = some C) (hpend : p.latest_pending_subchannel_list_ = some P)
    (hflag : P.in_transient_failure_ = false)
    (hsel : p.selected_ = some (C.id, i)) (hd : C.subchannels[i]? = some d)
    (hs : s ≠ GRPC_CHANNEL_READY) (hs' : s ≠ GRPC_CHANNEL_SHUTDOWN) :
    ∃ p', ProcessConnectivityChangeLocked env p (C.id, i) s = some p' ∧
      p'.subchannel_list_ = some P ∧ p'.latest_pending_subchannel_list_ = none ∧
      p'.selected_ = none ∧
      publications p'.calls = publications p.calls ++
        [(GRPC_CHANNEL_CONNECTING, OkStatus, SubchannelPicker.QueuePicker)] := by
  have hnp : p.isPending C.id = false := isPending_false_of_current p hwf C hcur
  have hl : p.list (C.id, i).1 = some C := by
    simp [PickFirst.list, PickFirst.isCurrent, hcur]
  have hc : p.isCurrent (C.id, i).1 = true := by
    simp [PickFirst.isCurrent, hcur]
  have hsd : p.subchannel_data (C.id, i) = some d := by
    rw [subchannel_data_of_list p (C.id, i) C hl]; exact hd
  have hq : CancelConnectivityWatchLocked { p with selected_ := none } (C.id, i)
      "selected subchannel failed; switching to pending update" = _ :=
    CancelConnectivityWatchLocked_current { p with selected_ := none } C.id i _ C
      hcur rfl hnp
  have hsome : p.latest_pending_subchannel_list_.isSome = true := by rw [hpend]; rfl
  have key : ProcessConnectivityChangeLocked env p (C.id, i) s =
      some (UpdateState
        { (CancelConnectivityWatchLocked { p with selected_ := none } (C.id, i)
            "selected subchannel failed; switching to pending update") with
          subchannel_list_ := some P, latest_pending_subchannel_list_ := none }
        GRPC_CHANNEL_CONNECTING OkStatus SubchannelPicker.QueuePicker) := by
    have hqp : (CancelConnectivityWatchLocked { p with selected_ := none } (C.id, i)
        "selected subchannel failed; switching to pending update").latest_pending_subchannel_list_
        = some P := by
      rw [hq]; exact hpend
    cases s with
    | GRPC_CHANNEL_READY => exact absurd rfl hs
    | GRPC_CHANNEL_SHUTDOWN => exact absurd rfl hs'
    | GRPC_CHANNEL_IDLE =>
      simp only [ProcessConnectivityChangeLocked, hl, hsd, hsel, hc, if_true, reduceCtorEq,
        if_false, Bool.not_true, Bool.false_eq_true, hsome, hqp, hflag]
    | GRPC_CHANNEL_CONNECTING =>
      simp only [ProcessConnectivityChangeLocked, hl, hsd, hsel, hc, if_true, reduceCtorEq,
        if_false, Bool.not_true, Bool.false_eq_true, hsome, hqp, hflag]
    | GRPC_CHANNEL_TRANSIENT_FAILURE =>
      simp only [ProcessConnectivityChangeLocked, hl, hsd, hsel, hc, if_true, reduceCtorEq,
        if_false, Bool.not_true, Bool.false_eq_true, hsome, hqp, hflag]
  refine ⟨_, key, rfl, rfl, ?_, ?_⟩
  · rw [hq]; rfl
  · rw [hq]
    simp [UpdateState, PickFirst.call, publications_append, publications]

theorem ReachableWatched_scenarioHeld : ReachableWatched scenarioHeld :=
  ReachableWatched.update (scenarioEnv [101]) (scenarioArgs [2, 3] "")
    (ReachableWatched.update (scenarioEnv [101]) (scenarioArgs [1] "") ReachableWatched.init
      (show PickFirst.init.UpdateLocked (scenarioEnv [101]) (scenarioArgs [1] "") =
        some scenarioAfterFirstUpdate from rfl))
    (show scenarioAfterFirstUpdate.UpdateLocked (scenarioEnv [101]) (scenarioArgs [2, 3] "") =
      some scenarioHeld from rfl)

theorem exhausted_failure (env : Env) (p : PickFirst) (this : SubchannelDataRef)
    (st : grpc_connectivity_state) (L : PickFirstSubchannelList) (d : PickFirstSubchannelData)
    (hcur : p.subchannel_list_ = some L) (hid : L.id = this.1)
    (hflag : L.in_transient_failure_ = true)
    (hsel : p.selected_ = none) (hpend : p.latest_pending_subchannel_list_ = none)
    (hd : L.subchannels[this.2]? = some d)
    (hst : st = GRPC_CHANNEL_TRANSIENT_FAILURE ∨ st = GRPC_CHANNEL_IDLE)
    (hnr : ∀ sub, env.CheckConnectivityState sub ≠ GRPC_CHANNEL_READY) :
    ∃ p' X L', ProcessConnectivityChangeLocked env p this st = some p' ∧
      publications p'.calls = publications p.calls ++ X ∧
      (∀ x ∈ X, x.1 = GRPC_CHANNEL_TRANSIENT_FAILURE) ∧
      p'.subchannel_list_ = some L' ∧ L'.in_transient_failure_ = true ∧
      p'.selected_ = none ∧ p'.latest_pending_subchannel_list_ = none := by
  have hnp : p.isPending this.1 = false := by simp [PickFirst.isPending, hpend]
  have hl : p.list this.1 = some L := by
    simp [PickFirst.list, PickFirst.isCurrent, hcur, hid]
  have hsd : p.subchannel_data this = some d := by
    rw [subchannel_data_of_list p this L hl]; exact hd
  have hns : ¬ p.selected_ = some this := by rw [hsel]; exact fun h => nomatch h
  obtain ⟨hn0, hlt, hwrap, dn, hdn⟩ := next_entry L this.2 d hd
  rw [ProcessConnectivityChangeLocked_afterFailure env p this st L d hl hsd hns hst]
  generalize hA : afterFailure p this L.num_subchannels = A
  have haf : afterFailure p this L.num_subchannels = _ :=
    afterFailure_current p this.1 this.2 L.num_subchannels L hcur hid hnp
  rw [hA] at haf
  -- what matters of the state before the next entry is looked at
  have hA4 : ∃ L4 mid, A.subchannel_list_ = some L4 ∧ L4.id = this.1 ∧
      L4.in_transient_failure_ = true ∧
      L4.subchannels.length = L.subchannels.length ∧
      A.selected_ = none ∧ A.latest_pending_subchannel_list_ = none ∧
      publications A.calls = publications p.calls ++ mid ∧
      ∀ x ∈ mid, x.1 = GRPC_CHANNEL_TRANSIENT_FAILURE := by
    by_cases hw : (this.2 + 1) % L.num_subchannels = 0
    · rw [if_pos hw] at haf
      refine ⟨_, [(GRPC_CHANNEL_TRANSIENT_FAILURE,
          UnavailableError "failed to connect to all addresses",
          SubchannelPicker.TransientFailurePicker
            (UnavailableError "failed to connect to all addresses"))],
        by rw [haf], ?_, rfl, ?_, by rw [haf]; exact hsel, by rw [haf]; exact hpend, ?_, ?_⟩
      · show (L.modify _ _).id = _
        rw [modify_id]; exact hid
      · show (L.modify _ _).subchannels.length = _
        rw [modify_length]
      · rw [haf]; simp [publications_append, publications]
      · intro x hx
        simp at hx
        rw [hx]
    · rw [if_neg hw] at haf
      refine ⟨_, [], by rw [haf], ?_, ?_, ?_, by rw [haf]; exact hsel,
        by rw [haf]; exact hpend, ?_, fun x hx => (by cases hx)⟩
      · rw [modify_id]; exact hid
      · rw [modify_in_transient_failure]; exact hflag
      · rw [modify_length]
      · rw [haf]; simp [publications_append, publications]
  obtain ⟨L4, mid, hc4, hid4, hf4, hlen4, hs4, hp4, hpub4, hmid⟩ := hA4
  have hnpA : A.isPending this.1 = false := by simp [PickFirst.isPending, hp4]
  have hlA : A.list this.1 = some L4 := by
    simp [PickFirst.list, PickFirst.isCurrent, hc4, hid4]
  obtain ⟨dn4, hdn4⟩ := getElem?_of_lt L4.subchannels ((this.2 + 1) % L.num_subchannels)
    (by rw [hlen4]; exact hlt)
  have hsdA : A.subchannel_data (this.1, (this.2 + 1) % L.num_subchannels) = some dn4 := by
    rw [subchannel_data_of_list A (this.1, (this.2 + 1) % L.num_subchannels) L4 hlA]
    exact hdn4
  rw [CheckConnectivityStateAndStartWatchingLocked_eq env A _ dn4 hsdA, if_neg (hnr _)]
  have hq := checkedAndWatched_current env A this.1 ((this.2 + 1) % L.num_subchannels) L4
    hc4 hid4 hnpA
  refine ⟨_, mid,
    (L4.modify ((this.2 + 1) % L.num_subchannels)
      (fun d => (CheckConnectivityStateLocked env d).1)).modify
      ((this.2 + 1) % L.num_subchannels) (fun sd => { sd with pending_watcher_ := true }),
    rfl, ?_, hmid, ?_, ?_, ?_, ?_⟩
  · show publications ((checkedAndWatched env A (this.1, (this.2 + 1) % L.num_subchannels)).calls ++
        [Call.RequestConnection (this.1, (this.2 + 1) % L.num_subchannels)]) = _
    rw [hq]
    simp only [publications_append, hpub4]
    simp [publications]
  · show (checkedAndWatched env A (this.1, (this.2 + 1) % L.num_subchannels)).subchannel_list_ = _
    rw [hq]
  · rw [modify_in_transient_failure, modify_in_transient_failure]; exact hf4
  · show (checkedAndWatched env A (this.1, (this.2 + 1) % L.num_subchannels)).selected_ = _
    rw [hq]; exact hs4
  · show (checkedAndWatched env A (this.1, (this.2 + 1) % L.num_subchannels)).latest_pending_subchannel_list_ = _
    rw [hq]; exact hp4

/-- One callback in a state whose current list carries the flag, with nothing
selected and no pending list, when no subchannel is found READY: whatever is
published is TRANSIENT_FAILURE, and the state stays of that kind. -/
theorem exhausted_step (env : Env) (p p' : PickFirst) (this : SubchannelDataRef)
    (s : grpc_connectivity_state) (L : PickFirstSubchannelList)
    (hcur : p.subchannel_list_ = some L) (hflag : L.in_transient_failure_ = true)
    (hsel : p.selected_ = none) (hpend : p.latest_pending_subchannel_list_ = none)
    (hstep : ProcessConnectivityChangeLocked env p this s = some p')
    (hs : s ≠ GRPC_CHANNEL_READY)
    (hnr : ∀ sub, env.CheckConnectivityState sub ≠ GRPC_CHANNEL_READY) :
    (∃ X, publications p'.calls = publications p.calls ++ X ∧
      ∀ x ∈ X, x.1 = GRPC_CHANNEL_TRANSIENT_FAILURE) ∧
    ∃ L', p'.subchannel_list_ = some L' ∧ L'.in_transient_failure_ = true ∧
      p'.selected_ = none ∧ p'.latest_pending_subchannel_list_ = none := by
  have hnp : p.isPending this.1 = false := by simp [PickFirst.isPending, hpend]
  cases hl : p.list this.1 with
  | none => simp [ProcessConnectivityChangeLocked, hl] at hstep
  | some L0 =>
    cases hd : p.subchannel_data this with
    | none => simp [ProcessConnectivityChangeLocked, hl, hd] at hstep
    | some d =>
      rcases list_cases p this.1 L0 hl with ⟨hc0, hid⟩ | ⟨hp0, _, _⟩
      · rw [hcur] at hc0
        injection hc0 with hc0
        subst hc0
        have hdL : L.subchannels[this.2]? = some d := by
          rw [← subchannel_data_of_list p this L hl]; exact hd
        have hns : ¬ p.selected_ = some this := by rw [hsel]; exact fun h => nomatch h
        have hcurr : p.isCurrent this.1 = true := by simp [PickFirst.isCurrent, hcur, hid]
        cases s with
        | GRPC_CHANNEL_READY => exact absurd rfl hs
        | GRPC_CHANNEL_SHUTDOWN => simp [ProcessConnectivityChangeLocked, hl, hd] at hstep
        | GRPC_CHANNEL_CONNECTING =>
          simp [ProcessConnectivityChangeLocked, hl, hd, hns, hcurr, hflag] at hstep
          rw [← hstep]
          exact ⟨⟨[], by simp, fun x hx => (by cases hx)⟩, L, hcur, hflag, hsel, hpend⟩
        | GRPC_CHANNEL_IDLE =>
          obtain ⟨p'', X, L', h1, h2, h3, h4, h5, h6, h7⟩ := exhausted_failure env p this _ L d
            hcur hid hflag hsel hpend hdL (Or.inr rfl) hnr
          rw [hstep] at h1
          injection h1 with h1
          rw [h1]
          exact ⟨⟨X, h2, h3⟩, L', h4, h5, h6, h7⟩
        | GRPC_CHANNEL_TRANSIENT_FAILURE =>
          obtain ⟨p'', X, L', h1, h2, h3, h4, h5, h6, h7⟩ := exhausted_failure env p this _ L d
            hcur hid hflag hsel hpend hdL (Or.inl rfl) hnr
          rw [hstep] at h1
          injection h1 with h1
          rw [h1]
          exact ⟨⟨X, h2, h3⟩, L', h4, h5, h6, h7⟩
      · rw [hpend] at hp0; cases hp0

theorem WF_deliver :
    ∀ (evs : List (Env × SubchannelDataRef × grpc_connectivity_state)) (p p' : PickFirst),
      deliver evs p = some p' → p.skeleton.WF → p'.skeleton.WF := by
  intro evs
  induction evs with
  | nil =>
    intro p p' h hwf
    injection h with h
    rw [← h]; exact hwf
  | cons ev evs ih =>
    intro p p' h hwf
    simp only [deliver] at h
    cases hstep : ProcessConnectivityChangeLocked ev.1 p ev.2.1 ev.2.2 with
    | none => rw [hstep] at h; cases h
    | some q =>
      rw [hstep] at h
      exact ih q p' h (WF_ProcessConnectivityChangeLocked ev.1 p q ev.2.1 ev.2.2 hstep hwf)

theorem exhausted_run :
    ∀ (evs : List (Env × SubchannelDataRef × grpc_connectivity_state)) (p p' : PickFirst)
      (L : PickFirstSubchannelList),
      p.subchannel_list_ = some L → L.in_transient_failure_ = true →
      p.selected_ = none → p.latest_pending_subchannel_list_ = none →
      deliver evs p = some p' →
      (∀ ev ∈ evs, ev.2.2 ≠ GRPC_CHANNEL_READY ∧
        ∀ sub, ev.1.CheckConnectivityState sub ≠ GRPC_CHANNEL_READY) →
      (∃ X, publications p'.calls = publications p.calls ++ X ∧
        ∀ x ∈ X, x.1 = GRPC_CHANNEL_TRANSIENT_FAILURE) ∧
      ∃ L', p'.subchannel_list_ = some L' ∧ L'.in_transient_failure_ = true ∧
        p'.selected_ = none ∧ p'.latest_pending_subchannel_list_ = none := by
  intro evs
  induction evs with
  | nil =>
    intro p p' L hcur hflag hsel hpend h _
    injection h with h
    rw [← h]
    exact ⟨⟨[], by simp, fun x hx => (by cases hx)⟩, L, hcur, hflag, hsel, hpend⟩
  | cons ev evs ih =>
    intro p p' L hcur hflag hsel hpend h hnr
    simp only [deliver] at h
    cases hstep : ProcessConnectivityChangeLocked ev.1 p ev.2.1 ev.2.2 with
    | none => rw [hstep] at h; cases h
    | some q =>
      rw [hstep] at h
      obtain ⟨hev1, hev2⟩ := hnr ev (List.mem_cons_self _ _)
      obtain ⟨⟨X, hX, hXall⟩, L1, hc1, hf1, hs1, hp1⟩ :=
        exhausted_step ev.1 p q ev.2.1 ev.2.2 L hcur hflag hsel hpend hstep hev1 hev2
      obtain ⟨⟨Y, hY, hYall⟩, hrest⟩ := ih q p' L1 hc1 hf1 hs1 hp1 h
        (fun e he => hnr e (List.mem_cons_of_mem _ he))
      refine ⟨⟨X ++ Y, ?_, ?_⟩, hrest⟩
      · rw [hY, hX, List.append_assoc]
      · intro x hx
        rcases List.mem_append.mp hx with hx | hx
        · exact hXall x hx
        · exact hYall x hx

theorem ReachableWatched_scenarioExhausted : ReachableWatched scenarioExhausted :=
  ReachableWatched.callback (scenarioEnv []) (0, 0) GRPC_CHANNEL_TRANSIENT_FAILURE
    (scenarioEntry 1 GRPC_CHANNEL_IDLE true)
    (ReachableWatched.update (scenarioEnv []) (scenarioArgs [1] "") ReachableWatched.init
      (show PickFirst.init.UpdateLocked (scenarioEnv []) (scenarioArgs [1] "") =
        some scenarioSweepStart from rfl))
    rfl rfl
    (show ProcessConnectivityChangeLocked (scenarioEnv []) scenarioSweepStart (0, 0)
      GRPC_CHANNEL_TRANSIENT_FAILURE = some scenarioExhausted from rfl)

theorem ReachableWatched_scenarioTwoSecond : ReachableWatched scenarioTwoSecond :=
  ReachableWatched.callback (scenarioEnv []) (0, 0) GRPC_CHANNEL_TRANSIENT_FAILURE
    (scenarioEntry 1 GRPC_CHANNEL_IDLE true)
    (ReachableWatched.update (scenarioEnv []) (scenarioArgs [1, 2] "") ReachableWatched.init
      (show PickFirst.init.UpdateLocked (scenarioEnv []) (scenarioArgs [1, 2] "") =
        some scenarioTwoStart from by decide))
    (by decide) rfl
    (show ProcessConnectivityChangeLocked (scenarioEnv []) scenarioTwoStart (0, 0)
      GRPC_CHANNEL_TRANSIENT_FAILURE = some scenarioTwoSecond from by decide)

theorem ReachableWatched_scenarioWrapReady : ReachableWatched scenarioWrapReady :=
  ReachableWatched.callback (scenarioEnv [101]) (0, 1) GRPC_CHANNEL_TRANSIENT_FAILURE
    (scenarioEntry 2 GRPC_CHANNEL_IDLE true) ReachableWatched_scenarioTwoSecond
    (by decide) rfl
    (show ProcessConnectivityChangeLocked (scenarioEnv [101]) scenarioTwoSecond (0, 1)
      GRPC_CHANNEL_TRANSIENT_FAILURE = some scenarioWrapReady from by decide)

/-! ## Claims -/

/-- C1 (fast-adopt).  On a non-idle policy, when the list an update builds has an
entry whose state is READY and `k` is the smallest such index, `UpdateLocked`
returns with the new list as current list (same address, same entries),
`selected_` pointing at entry `k` of it, no pending list, exactly one more
publication, `(READY, Picker(subchannel k))`, and every entry of the new list
other than `k` shut down; entry `k` carries the watch and is not shut down.
`hfresh` says the new list is allocated at an address other than that of the
live pending list. -/
theorem C1_fast_adopt (env : Env) (p : PickFirst) (args : UpdateArgs) (k : Nat)
    (d : PickFirstSubchannelData)
    (hidle : p.idle_ = false)
    (hfresh : p.isPending p.next_list = false)
    (hk : (p.updateSubchannelList env args).subchannels[k]? = some d)
    (hready : env.CheckConnectivityState d.subchannel = GRPC_CHANNEL_READY)
    (hmin : ∀ j e, j < k → (p.updateSubchannelList env args).subchannels[j]? = some e →
      env.CheckConnectivityState e.subchannel ≠ GRPC_CHANNEL_READY) :
    ∃ p' L', p.UpdateLocked env args = some p' ∧
      p'.subchannel_list_ = some L' ∧
      L'.id = (p.updateSubchannelList env args).id ∧
      L'.subchannels.map (fun e => (e.address, e.subchannel)) =
        (p.updateSubchannelList env args).subchannels.map (fun e => (e.address, e.subchannel)) ∧
      p'.selected_ = some (L'.id, k) ∧
      p'.latest_pending_subchannel_list_ = none ∧
      publications p'.calls = publications p.calls ++
        [(GRPC_CHANNEL_READY, OkStatus, SubchannelPicker.Picker d.subchannel)] ∧
      (∀ j e, L'.subchannels[j]? = some e → j ≠ k → e.shutdown_ = true) ∧
      (∃ e, L'.subchannels[k]? = some e ∧ e.subchannel = d.subchannel ∧
        e.pending_watcher_ = true ∧ e.shutdown_ = false) := by
  obtain ⟨p', L', h1, h2, h3, h4, h5, h6, h7, h8, h9, _⟩ := attempt_fast_adopt env
    { p with latest_update_args_ := p.storedUpdateArgs args } k d hfresh hk hready hmin
  rw [UpdateLocked_not_idle env p args hidle]
  exact ⟨p', L', h1, h2, h3, h4, h5, h6, h7, h8, h9⟩


/-- Witness for C1: "current ready = A", then `update(Ok([X, A, Y]))` with A READY. -/
theorem C1_fast_adopt_witness :
    ∃ p' L', scenarioSelected.UpdateLocked (scenarioEnv [101]) (scenarioArgs [7, 1, 9] "") = some p' ∧
      p'.subchannel_list_ = some L' ∧
      L'.id = (scenarioSelected.updateSubchannelList (scenarioEnv [101])
        (scenarioArgs [7, 1, 9] "")).id ∧
      L'.subchannels.map (fun e => (e.address, e.subchannel)) =
        (scenarioSelected.updateSubchannelList (scenarioEnv [101])
          (scenarioArgs [7, 1, 9] "")).subchannels.map (fun e => (e.address, e.subchannel)) ∧
      p'.selected_ = some (L'.id, 1) ∧
      p'.latest_pending_subchannel_list_ = none ∧
      publications p'.calls = publications scenarioSelected.calls ++
        [(GRPC_CHANNEL_READY, OkStatus, SubchannelPicker.Picker 101)] ∧
      (∀ j e, L'.subchannels[j]? = some e → j ≠ 1 → e.shutdown_ = true) ∧
      (∃ e, L'.subchannels[1]? = some e ∧ e.subchannel = 101 ∧
        e.pending_watcher_ = true ∧ e.shutdown_ = false) :=
  C1_fast_adopt (scenarioEnv [101]) scenarioSelected (scenarioArgs [7, 1, 9] "") 1
    (scenarioEntry 1 GRPC_CHANNEL_IDLE false) rfl rfl rfl rfl
    (fun j e hj he => by
      have hj0 : j = 0 := by omega
      subst hj0
      have : e = scenarioEntry 7 GRPC_CHANNEL_IDLE false := by
        have h' : (some (scenarioEntry 7 GRPC_CHANNEL_IDLE false)) = some e := he
        exact (Option.some.inj h').symm
      subst this
      decide)


/-- C2 (pending READY wins).  With `selected_` pointing into the current list and
a pending list present (at another address), when entry `i` of the pending list
reports READY the callback returns with the pending list promoted to current
list (the old current list is gone), no pending list, `selected_` pointing at
entry `i` of the promoted list, exactly one more publication,
`(READY, Picker(that subchannel))`, and every other entry of the promoted list
shut down (entry `i` is left as it was). -/
theorem C2_pending_ready_wins (env : Env) (p : PickFirst) (cur P : PickFirstSubchannelList)
    (s i : Nat) (d : PickFirstSubchannelData)
    (hcur : p.subchannel_list_ = some cur)
    (hsel : p.selected_ = some (cur.id, s))
    (hpend : p.latest_pending_subchannel_list_ = some P)
    (hne : cur.id ≠ P.id)
    (hd : P.subchannels[i]? = some d) :
    ∃ p' L', ProcessConnectivityChangeLocked env p (P.id, i) GRPC_CHANNEL_READY = some p' ∧
      p'.subchannel_list_ = some L' ∧ L'.id = P.id ∧ L'.in_transient_failure_ = false ∧
      (∀ j, L'.subchannels[j]? = (P.subchannels[j]?).map (fun e =>
        if j ≠ i then { e with pending_watcher_ := false, shutdown_ := true } else e)) ∧
      p'.latest_pending_subchannel_list_ = none ∧
      p'.selected_ = some (P.id, i) ∧
      publications p'.calls = publications p.calls ++
        [(GRPC_CHANNEL_READY, OkStatus, SubchannelPicker.Picker d.subchannel)] := by
  have hnc := isCurrent_of_ne p cur P.id hcur hne
  have hl := list_of_pending p P hpend hnc
  have hsd := subchannel_data_of_pending p P i hpend hnc
  rw [hd] at hsd
  have hselne : ¬ p.selected_ = some (P.id, i) := by
    rw [hsel]
    intro h
    injection h with h
    injection h with h1 _
    exact hne h1
  obtain ⟨L', hpur, hLid, hLtf, hLent⟩ := ProcessUnselectedReadyLocked_pending
    { p with latest_pending_subchannel_list_ := some { P with in_transient_failure_ := false } }
    P.id i { P with in_transient_failure_ := false } d rfl rfl hd
  have hpcc : ProcessConnectivityChangeLocked env p (P.id, i) GRPC_CHANNEL_READY =
      ProcessUnselectedReadyLocked
        { p with latest_pending_subchannel_list_ :=
                   some { P with in_transient_failure_ := false } } (P.id, i) := by
    simp only [ProcessConnectivityChangeLocked, hl, hsd, hselne, if_false,
      set_in_transient_failure]
    rw [onList_of_pending p P.id P _ hpend rfl hnc]
    simp
  rw [hpcc, hpur]
  refine ⟨_, L', rfl, rfl, hLid, hLtf, hLent, rfl, rfl, ?_⟩
  simp only [publications_append, (observations_of_shutdowns P.id _).1]
  simp [publications]

/-- Witness for C2: current ready = A, pending `[B, C]`, B reports READY. -/
theorem C2_pending_ready_wins_witness :
    ∃ p' L', ProcessConnectivityChangeLocked (scenarioEnv []) (scenarioPending 0 false) (1, 0)
        GRPC_CHANNEL_READY = some p' ∧
      p'.subchannel_list_ = some L' ∧ L'.id = 1 ∧ L'.in_transient_failure_ = false ∧
      (∀ j, L'.subchannels[j]? =
        ([scenarioEntry 2 GRPC_CHANNEL_IDLE true, scenarioEntry 3 GRPC_CHANNEL_IDLE false][j]?).map
          (fun e => if j ≠ 0 then { e with pending_watcher_ := false, shutdown_ := true } else e)) ∧
      p'.latest_pending_subchannel_list_ = none ∧
      p'.selected_ = some (1, 0) ∧
      publications p'.calls = publications (scenarioPending 0 false).calls ++
        [(GRPC_CHANNEL_READY, OkStatus, SubchannelPicker.Picker 102)] :=
  C2_pending_ready_wins (scenarioEnv []) (scenarioPending 0 false)
    { id := 0, subchannels := [scenarioEntry 1 GRPC_CHANNEL_READY true],
      in_transient_failure_ := false }
    { id := 1, subchannels := [scenarioEntry 2 GRPC_CHANNEL_IDLE true,
        scenarioEntry 3 GRPC_CHANNEL_IDLE false], in_transient_failure_ := false }
    0 0 (scenarioEntry 2 GRPC_CHANNEL_IDLE true) rfl rfl rfl (by decide) rfl


/-- C3 (all-fail sweep).  For every `n ≥ 1`: from a fresh policy, an update that
builds `n` subchannels succeeds, and if no subchannel is ever READY and the
entries report TRANSIENT_FAILURE one at a time in index order, then after the
first `k < n` failures (and right after the update, `k = 0`) nothing has been
published, no re-resolution has been requested, and entry `k` is the entry that
carries the watch and was last asked to connect; after the `n`-th failure
exactly one re-resolution has been requested and the only state published is
`(TRANSIENT_FAILURE,
TransientFailurePicker(Unavailable("failed to connect to all addresses")))`. -/
theorem C3_all_fail_sweep (env0 : Env) (envs : Nat → Env) (args : UpdateArgs) (n : Nat)
    (hn : 1 ≤ n)
    (hlen : (PickFirst.init.updateSubchannelList env0 args).num_subchannels = n)
    (h0 : ∀ s, env0.CheckConnectivityState s ≠ GRPC_CHANNEL_READY)
    (hk : ∀ t s, (envs t).CheckConnectivityState s ≠ GRPC_CHANNEL_READY) :
    ∃ p0, PickFirst.init.UpdateLocked env0 args = some p0 ∧
      (∀ k, k < n → ∃ pk L, failuresInOrder envs 0 k p0 = some pk ∧
        publications pk.calls = [] ∧ reresolutions pk.calls = 0 ∧
        pk.subchannel_list_ = some L ∧
        (∀ (j : Nat) (e : PickFirstSubchannelData), L.subchannels[j]? = some e →
          e.pending_watcher_ = decide (j = k)) ∧
        (connectionRequests pk.calls).getLast? = some (L.id, k)) ∧
      (∃ pn, failuresInOrder envs 0 n p0 = some pn ∧
        publications pn.calls =
          [(GRPC_CHANNEL_TRANSIENT_FAILURE,
            UnavailableError "failed to connect to all addresses",
            SubchannelPicker.TransientFailurePicker
              (UnavailableError "failed to connect to all addresses"))] ∧
        reresolutions pn.calls = 1) := by
  obtain ⟨p0, hupd, hinv0⟩ := sweep_start env0 args n hn hlen h0
  have hrun := sweep_run envs n p0 hk hinv0
  refine ⟨p0, hupd, ?_, ?_⟩
  · intro k hlt
    obtain ⟨pk, hr, L, hcur, _, _, hw, _, _, hpub, hre, hreq, _⟩ := hrun k hlt
    exact ⟨pk, L, hr, hpub, hre, hcur, hw, hreq⟩
  · obtain ⟨m, hm⟩ : ∃ m, n = m + 1 := ⟨n - 1, by omega⟩
    subst hm
    obtain ⟨pk, hr, hinvk⟩ := hrun m (by omega)
    obtain ⟨p', hstep, hpub, hre⟩ := sweep_last (envs m) (m + 1) m pk (hk m) hinvk rfl
    exact ⟨p', by simp [failuresInOrder, hr, hstep], hpub, hre⟩

/-- Witness for C3: `update(Ok([A, B, C]))`, then A, B, C fail in order. -/
theorem C3_all_fail_sweep_witness :
    ∃ p0, PickFirst.init.UpdateLocked (scenarioEnv []) (scenarioArgs [1, 2, 3] "") = some p0 ∧
      (∀ k, k < 3 → ∃ pk L, failuresInOrder (fun _ => scenarioEnv []) 0 k p0 = some pk ∧
        publications pk.calls = [] ∧ reresolutions pk.calls = 0 ∧
        pk.subchannel_list_ = some L ∧
        (∀ (j : Nat) (e : PickFirstSubchannelData), L.subchannels[j]? = some e →
          e.pending_watcher_ = decide (j = k)) ∧
        (connectionRequests pk.calls).getLast? = some (L.id, k)) ∧
      (∃ pn, failuresInOrder (fun _ => scenarioEnv []) 0 3 p0 = some pn ∧
        publications pn.calls =
          [(GRPC_CHANNEL_TRANSIENT_FAILURE,
            UnavailableError "failed to connect to all addresses",
            SubchannelPicker.TransientFailurePicker
              (UnavailableError "failed to connect to all addresses"))] ∧
        reresolutions pn.calls = 1) :=
  C3_all_fail_sweep (scenarioEnv []) (fun _ => scenarioEnv []) (scenarioArgs [1, 2, 3] "") 3
    (by decide) rfl (fun s => by simp [scenarioEnv]) (fun _ s => by simp [scenarioEnv])


/-- C4 as amended (promotion on failure).  With `selected_` pointing into the
current list and a pending list of `n ≥ 1` entries present (at another address),
let entry `i` of the pending list report TRANSIENT_FAILURE or IDLE, and let the
entry at the next sweep index `(i + 1) mod n` not be READY when its state is
read before the watch is attached.  If `i` is the last index, the callback
returns with the pending list promoted to current list (same entries) with its
`in_transient_failure_` flag set, `selected_` cleared, no pending list, one more
re-resolution request and one more publication, `(TRANSIENT_FAILURE,
TransientFailurePicker(Unavailable("failed to connect to all addresses")))`.  If
`i` is not the last index, nothing is published, no re-resolution is requested,
`selected_` and the current list are unchanged and the list stays pending. -/
theorem C4_promotion_on_failure (env : Env) (p : PickFirst) (cur P : PickFirstSubchannelList)
    (s i : Nat) (st : grpc_connectivity_state)
    (hcur : p.subchannel_list_ = some cur)
    (hsel : p.selected_ = some (cur.id, s))
    (hpend : p.latest_pending_subchannel_list_ = some P)
    (hne : cur.id ≠ P.id)
    (hi : i < P.num_subchannels)
    (hst : st = GRPC_CHANNEL_TRANSIENT_FAILURE ∨ st = GRPC_CHANNEL_IDLE)
    (hnr : ∀ e, P.subchannels[(i + 1) % P.num_subchannels]? = some e →
      env.CheckConnectivityState e.subchannel ≠ GRPC_CHANNEL_READY) :
    ∃ p', ProcessConnectivityChangeLocked env p (P.id, i) st = some p' ∧
      (i + 1 = P.num_subchannels →
        ∃ L', p'.subchannel_list_ = some L' ∧ L'.id = P.id ∧
          L'.subchannels.map (fun e => (e.address, e.subchannel)) =
            P.subchannels.map (fun e => (e.address, e.subchannel)) ∧
          L'.in_transient_failure_ = true ∧
          p'.selected_ = none ∧ p'.latest_pending_subchannel_list_ = none ∧
          reresolutions p'.calls = reresolutions p.calls + 1 ∧
          publications p'.calls = publications p.calls ++
            [(GRPC_CHANNEL_TRANSIENT_FAILURE,
              UnavailableError "failed to connect to all addresses",
              SubchannelPicker.TransientFailurePicker
                (UnavailableError "failed to connect to all addresses"))]) ∧
      (i + 1 < P.num_subchannels →
        ∃ L', p'.latest_pending_subchannel_list_ = some L' ∧ L'.id = P.id ∧
          L'.subchannels.map (fun e => (e.address, e.subchannel)) =
            P.subchannels.map (fun e => (e.address, e.subchannel)) ∧
          L'.in_transient_failure_ = P.in_transient_failure_ ∧
          p'.subchannel_list_ = p.subchannel_list_ ∧ p'.selected_ = p.selected_ ∧
          reresolutions p'.calls = reresolutions p.calls ∧
          publications p'.calls = publications p.calls) := by
  have hnc := isCurrent_of_ne p cur P.id hcur hne
  have hl := list_of_pending p P hpend hnc
  obtain ⟨d, hd⟩ := entry_of_lt P i hi
  have hsd := subchannel_data_of_pending p P i hpend hnc
  rw [hd] at hsd
  have hselne : ¬ p.selected_ = some (P.id, i) := by
    rw [hsel]
    intro h
    injection h with h
    injection h with h1 _
    exact hne h1
  have hnext : (i + 1) % P.num_subchannels < P.num_subchannels :=
    Nat.mod_lt _ (by omega)
  obtain ⟨e, he⟩ := entry_of_lt P _ hnext
  have hnre := hnr e he
  rw [ProcessConnectivityChangeLocked_failure env p (P.id, i) st P d hl hsd hselne hst]
  by_cases h0 : (i + 1) % P.num_subchannels = 0
  · have hlast : i + 1 = P.num_subchannels := by
      rcases Nat.lt_or_ge (i + 1) P.num_subchannels with hlt | hge
      · rw [Nat.mod_eq_of_lt hlt] at h0; omega
      · omega
    have hnlt : ¬ i + 1 < P.num_subchannels := by omega
    rw [h0] at he
    by_cases hi0 : i = 0
    · subst hi0
      simp [h0, CheckConnectivityStateAndStartWatchingLocked, CheckConnectivityStateLocked,
        CancelConnectivityWatchLocked, set_in_transient_failure, PickFirst.onData,
        PickFirst.onList, PickFirst.call, PickFirst.isPending, PickFirst.isCurrent, hcur, hpend,
        hne, UpdateState, RequestReresolution, PickFirst.subchannel_data, PickFirst.list,
        PickFirstSubchannelList.subchannel, modify_getElem?, modify_id, he, hnre,
        StartConnectivityWatchLocked, RequestConnection, modify_in_transient_failure,
        publications_append, reresolutions_append, hnlt, hlast, modify_map_key]
      simp [reresolutions, publications]
    · have hi0' : ¬ 0 = i := fun h => hi0 h.symm
      simp [h0, CheckConnectivityStateAndStartWatchingLocked, CheckConnectivityStateLocked,
        CancelConnectivityWatchLocked, set_in_transient_failure, PickFirst.onData,
        PickFirst.onList, PickFirst.call, PickFirst.isPending, PickFirst.isCurrent, hcur, hpend,
        hne, UpdateState, RequestReresolution, PickFirst.subchannel_data, PickFirst.list,
        PickFirstSubchannelList.subchannel, modify_getElem?, modify_id, he, hnre,
        StartConnectivityWatchLocked, RequestConnection, modify_in_transient_failure,
        publications_append, reresolutions_append, hnlt, hlast, hi0, hi0', modify_map_key]
      simp [reresolutions, publications]
  · have hlt : i + 1 < P.num_subchannels := by
      rcases Nat.lt_or_ge (i + 1) P.num_subchannels with hlt | hge
      · exact hlt
      · have : i + 1 = P.num_subchannels := by omega
        rw [this, Nat.mod_self] at h0
        exact absurd rfl h0
    have hmod : (i + 1) % P.num_subchannels = i + 1 := Nat.mod_eq_of_lt hlt
    rw [hmod] at he h0
    have hneq : ¬ i + 1 = P.num_subchannels := by omega
    simp [hmod, CheckConnectivityStateAndStartWatchingLocked, CheckConnectivityStateLocked,
      CancelConnectivityWatchLocked, set_in_transient_failure, PickFirst.onData,
      PickFirst.onList, PickFirst.call, PickFirst.isPending, PickFirst.isCurrent, hcur, hpend,
      hne, UpdateState, RequestReresolution, PickFirst.subchannel_data, PickFirst.list,
      PickFirstSubchannelList.subchannel, modify_getElem?, modify_id, he, hnre,
      StartConnectivityWatchLocked, RequestConnection, modify_in_transient_failure,
      publications_append, reresolutions_append, hlt, hneq, hsel, modify_map_key]
    simp [reresolutions, publications]

/-- Witness for C4 as amended: current ready = A, pending `[B, C]`, C (the last
entry) fails while B is not READY. -/
theorem C4_promotion_on_failure_witness :
    ∃ p', ProcessConnectivityChangeLocked (scenarioEnv []) (scenarioPending 1 false) (1, 1)
        GRPC_CHANNEL_TRANSIENT_FAILURE = some p' ∧
      (1 + 1 = (PickFirstSubchannelList.mk 1 [scenarioEntry 2 GRPC_CHANNEL_IDLE false,
          scenarioEntry 3 GRPC_CHANNEL_IDLE true] false).num_subchannels →
        ∃ L', p'.subchannel_list_ = some L' ∧ L'.id = 1 ∧
          L'.subchannels.map (fun e => (e.address, e.subchannel)) =
            [scenarioEntry 2 GRPC_CHANNEL_IDLE false, scenarioEntry 3 GRPC_CHANNEL_IDLE true].map
              (fun e => (e.address, e.subchannel)) ∧
          L'.in_transient_failure_ = true ∧
          p'.selected_ = none ∧ p'.latest_pending_subchannel_list_ = none ∧
          reresolutions p'.calls = reresolutions (scenarioPending 1 false).calls + 1 ∧
          publications p'.calls = publications (scenarioPending 1 false).calls ++
            [(GRPC_CHANNEL_TRANSIENT_FAILURE,
              UnavailableError "failed to connect to all addresses",
              SubchannelPicker.TransientFailurePicker
                (UnavailableError "failed to connect to all addresses"))]) ∧
      (1 + 1 < (PickFirstSubchannelList.mk 1 [scenarioEntry 2 GRPC_CHANNEL_IDLE false,
          scenarioEntry 3 GRPC_CHANNEL_IDLE true] false).num_subchannels →
        ∃ L', p'.latest_pending_subchannel_list_ = some L' ∧ L'.id = 1 ∧
          L'.subchannels.map (fun e => (e.address, e.subchannel)) =
            [scenarioEntry 2 GRPC_CHANNEL_IDLE false, scenarioEntry 3 GRPC_CHANNEL_IDLE true].map
              (fun e => (e.address, e.subchannel)) ∧
          L'.in_transient_failure_ = false ∧
          p'.subchannel_list_ = (scenarioPending 1 false).subchannel_list_ ∧
          p'.selected_ = (scenarioPending 1 false).selected_ ∧
          reresolutions p'.calls = reresolutions (scenarioPending 1 false).calls ∧
          publications p'.calls = publications (scenarioPending 1 false).calls) :=
  C4_promotion_on_failure (scenarioEnv []) (scenarioPending 1 false)
    { id := 0, subchannels := [scenarioEntry 1 GRPC_CHANNEL_READY true],
      in_transient_failure_ := false }
    { id := 1, subchannels := [scenarioEntry 2 GRPC_CHANNEL_IDLE false,
        scenarioEntry 3 GRPC_CHANNEL_IDLE true], in_transient_failure_ := false }
    0 1 GRPC_CHANNEL_TRANSIENT_FAILURE rfl rfl rfl (by decide) (by decide) (Or.inl rfl)
    (fun e _ => by simp [scenarioEnv])


/-- Counterexample to C4 as stated: current ready = A (list 0), pending `[B, C]`
(list 1); B, which is not the last entry, reports TRANSIENT_FAILURE while C is
already READY.  The state read of pick_first.cc:480 finds C READY, so READY is
published, `selected_` moves from A to C, and the pending list is promoted:
something is published, `selected_` and the current list change and the list
does not stay pending. -/
theorem C4_counterexample :
    (ProcessConnectivityChangeLocked (scenarioEnv [103]) (scenarioPending 0 false) (1, 0)
        GRPC_CHANNEL_TRANSIENT_FAILURE).map
      (fun q => (publications q.calls, q.selected_, q.subchannel_list_.map (fun L => L.id),
        q.latest_pending_subchannel_list_)) =
      some ([(GRPC_CHANNEL_READY, OkStatus, SubchannelPicker.Picker 103)], some (1, 1), some 1,
        none) ∧
    publications (scenarioPending 0 false).calls = [] ∧
    (scenarioPending 0 false).selected_ = some (0, 0) ∧
    (scenarioPending 0 false).subchannel_list_.map (fun L => L.id) = some 0 :=
  ⟨rfl, rfl, rfl, rfl⟩


/-- C5 (selected loss with pending).  With `selected_` pointing at an entry of the
current list and a pending list present (at another address), when the selected
entry reports a state other than READY (watches never deliver SHUTDOWN, spec
§4.1, and the source asserts so) the callback returns with `selected_` cleared,
the pending list as current list, no pending list, and exactly one more
publication: `(TRANSIENT_FAILURE, TransientFailurePicker(Unavailable("selected
subchannel failed; switching to pending update")))` when the promoted list's
`in_transient_failure_` flag is set, `(CONNECTING, QueuePicker)` otherwise. -/
theorem C5_selected_loss_with_pending (env : Env) (p : PickFirst)
    (cur pend : PickFirstSubchannelList) (i : Nat)
    (s : grpc_connectivity_state)
    (hcur : p.subchannel_list_ = some cur)
    (hi : i < cur.num_subchannels)
    (hsel : p.selected_ = some (cur.id, i))
    (hpend : p.latest_pending_subchannel_list_ = some pend)
    (hne : pend.id ≠ cur.id)
    (hs : s ≠ GRPC_CHANNEL_READY) (hs' : s ≠ GRPC_CHANNEL_SHUTDOWN) :
    ∃ p', ProcessConnectivityChangeLocked env p (cur.id, i) s = some p' ∧
      p'.selected_ = none ∧ p'.subchannel_list_ = some pend ∧
      p'.latest_pending_subchannel_list_ = none ∧
      publications p'.calls = publications p.calls ++
        [if pend.in_transient_failure_ then
          (GRPC_CHANNEL_TRANSIENT_FAILURE,
            UnavailableError "selected subchannel failed; switching to pending update",
            SubchannelPicker.TransientFailurePicker
              (UnavailableError "selected subchannel failed; switching to pending update"))
         else (GRPC_CHANNEL_CONNECTING, OkStatus, SubchannelPicker.QueuePicker)] := by
  obtain ⟨d, hd⟩ := entry_of_lt cur i hi
  have hl := list_of_current p cur hcur
  have hsd := subchannel_data_of_current p cur i hcur
  rw [hd] at hsd
  cases htf : pend.in_transient_failure_ <;>
  simp [ProcessConnectivityChangeLocked, hl, hsd, hsel, hs, hs', hpend, PickFirst.isCurrent, hcur,
    UpdateState, CancelConnectivityWatchLocked, PickFirst.onData, PickFirst.onList,
    PickFirst.call, publications, hne, htf]


/-- Witness for C5: current ready = A, pending `[B, C]`, A reports TRANSIENT_FAILURE. -/
theorem C5_selected_loss_with_pending_witness :
    ∃ p', ProcessConnectivityChangeLocked (scenarioEnv []) (scenarioPending 0 false) (0, 0)
        GRPC_CHANNEL_TRANSIENT_FAILURE = some p' ∧
      p'.selected_ = none ∧
      p'.subchannel_list_ = some
        { id := 1, subchannels := [scenarioEntry 2 GRPC_CHANNEL_IDLE true,
            scenarioEntry 3 GRPC_CHANNEL_IDLE false], in_transient_failure_ := false } ∧
      p'.latest_pending_subchannel_list_ = none ∧
      publications p'.calls = publications (scenarioPending 0 false).calls ++
        [if false = true then
          (GRPC_CHANNEL_TRANSIENT_FAILURE,
            UnavailableError "selected subchannel failed; switching to pending update",
            SubchannelPicker.TransientFailurePicker
              (UnavailableError "selected subchannel failed; switching to pending update"))
         else (GRPC_CHANNEL_CONNECTING, OkStatus, SubchannelPicker.QueuePicker)] :=
  C5_selected_loss_with_pending (scenarioEnv []) (scenarioPending 0 false)
    { id := 0, subchannels := [scenarioEntry 1 GRPC_CHANNEL_READY true],
      in_transient_failure_ := false }
    { id := 1, subchannels := [scenarioEntry 2 GRPC_CHANNEL_IDLE true,
        scenarioEntry 3 GRPC_CHANNEL_IDLE false], in_transient_failure_ := false }
    0 GRPC_CHANNEL_TRANSIENT_FAILURE rfl (by decide) rfl rfl (by decide) (by decide) (by decide)

/-- C6 (selected loss without pending).  With `selected_` pointing at an entry of
the current list and no pending list, when the selected entry reports a state
other than READY (watches never deliver SHUTDOWN, spec §4.1, and the source
asserts so) the callback returns having requested re-resolution exactly once,
with `idle_` set, `selected_` cleared, no current list, and exactly one more
publication, `(IDLE, QueuePicker)`. -/
theorem C6_selected_loss_without_pending (env : Env) (p : PickFirst)
    (cur : PickFirstSubchannelList) (i : Nat)
    (s : grpc_connectivity_state)
    (hcur : p.subchannel_list_ = some cur)
    (hi : i < cur.num_subchannels)
    (hsel : p.selected_ = some (cur.id, i))
    (hpend : p.latest_pending_subchannel_list_ = none)
    (hs : s ≠ GRPC_CHANNEL_READY) (hs' : s ≠ GRPC_CHANNEL_SHUTDOWN) :
    ∃ p', ProcessConnectivityChangeLocked env p (cur.id, i) s = some p' ∧
      p'.calls = p.calls ++ [Call.RequestReresolution,
        Call.UpdateState GRPC_CHANNEL_IDLE OkStatus SubchannelPicker.QueuePicker] ∧
      reresolutions p'.calls = reresolutions p.calls + 1 ∧
      p'.idle_ = true ∧ p'.selected_ = none ∧ p'.subchannel_list_ = none ∧
      p'.latest_pending_subchannel_list_ = none ∧
      publications p'.calls = publications p.calls ++
        [(GRPC_CHANNEL_IDLE, OkStatus, SubchannelPicker.QueuePicker)] := by
  have hd : ∃ d, cur.subchannels[i]? = some d := by
    simp [PickFirstSubchannelList.num_subchannels] at hi
    exact ⟨cur.subchannels[i], by simp [hi]⟩
  obtain ⟨d, hd⟩ := hd
  have hl := list_of_current p cur hcur
  have hsd := subchannel_data_of_current p cur i hcur
  rw [hd] at hsd
  simp [ProcessConnectivityChangeLocked, hl, hsd, hsel, hs, hs', hpend, PickFirst.isCurrent, hcur,
    UpdateState, RequestReresolution, PickFirst.call, publications, reresolutions]


/-- Witness for C6: current ready = A, no pending list, A reports IDLE. -/
theorem C6_selected_loss_without_pending_witness :
    ∃ p', ProcessConnectivityChangeLocked (scenarioEnv []) scenarioSelected (0, 0)
        GRPC_CHANNEL_IDLE = some p' ∧
      p'.calls = scenarioSelected.calls ++ [Call.RequestReresolution,
        Call.UpdateState GRPC_CHANNEL_IDLE OkStatus SubchannelPicker.QueuePicker] ∧
      reresolutions p'.calls = reresolutions scenarioSelected.calls + 1 ∧
      p'.idle_ = true ∧ p'.selected_ = none ∧ p'.subchannel_list_ = none ∧
      p'.latest_pending_subchannel_list_ = none ∧
      publications p'.calls = publications scenarioSelected.calls ++
        [(GRPC_CHANNEL_IDLE, OkStatus, SubchannelPicker.QueuePicker)] :=
  C6_selected_loss_without_pending (scenarioEnv []) scenarioSelected
    { id := 0, subchannels := [scenarioEntry 1 GRPC_CHANNEL_READY true],
      in_transient_failure_ := false }
    0 GRPC_CHANNEL_IDLE rfl (by decide) rfl rfl (by decide) (by decide)

/-- C7 (empty update).  On a non-idle policy, an update whose addresses are OK
but yield zero subchannels, with resolution note `n`, returns having published
exactly one more state, `(TRANSIENT_FAILURE,
TransientFailurePicker(Unavailable("empty address list: " ++ n)))`; afterwards
the current list is the new, empty list, `selected_` is null and there is no
pending list. -/
theorem C7_empty_update (env : Env) (p : PickFirst) (args : UpdateArgs)
    (A : List ServerAddress)
    (hidle : p.idle_ = false)
    (hok : args.addresses = StatusOr.value A)
    (hempty : (p.updateSubchannelList env args).num_subchannels = 0) :
    ∃ p', p.UpdateLocked env args = some p' ∧
      publications p'.calls = publications p.calls ++
        [(GRPC_CHANNEL_TRANSIENT_FAILURE,
          UnavailableError ("empty address list: " ++ args.resolution_note),
          SubchannelPicker.TransientFailurePicker
            (UnavailableError ("empty address list: " ++ args.resolution_note)))] ∧
      p'.subchannel_list_ = some (p.updateSubchannelList env args) ∧
      (p.updateSubchannelList env args).subchannels = [] ∧
      p'.selected_ = none ∧
      p'.latest_pending_subchannel_list_ = none := by
  have hstored : (p.storedUpdateArgs args).addresses = StatusOr.value A ∧
      (p.storedUpdateArgs args).resolution_note = args.resolution_note := by
    simp [PickFirst.storedUpdateArgs, hok, StatusOr.ok]
  rw [UpdateLocked_not_idle env p args hidle, attempt_empty env _ hempty]
  refine ⟨_, rfl, ?_, rfl, ?_, rfl, rfl⟩
  · simp [publications_append, publications, hstored.1, hstored.2]
  · exact List.eq_nil_of_length_eq_zero hempty

/-- Witness for C7: `update(Ok([]), note = "no endpoints")` on a fresh policy. -/
theorem C7_empty_update_witness :
    ∃ p', PickFirst.init.UpdateLocked (scenarioEnv []) (scenarioArgs [] "no endpoints") = some p' ∧
      publications p'.calls = publications PickFirst.init.calls ++
        [(GRPC_CHANNEL_TRANSIENT_FAILURE,
          UnavailableError ("empty address list: " ++ (scenarioArgs [] "no endpoints").resolution_note),
          SubchannelPicker.TransientFailurePicker
            (UnavailableError
              ("empty address list: " ++ (scenarioArgs [] "no endpoints").resolution_note)))] ∧
      p'.subchannel_list_ = some (PickFirst.init.updateSubchannelList (scenarioEnv [])
        (scenarioArgs [] "no endpoints")) ∧
      (PickFirst.init.updateSubchannelList (scenarioEnv [])
        (scenarioArgs [] "no endpoints")).subchannels = [] ∧
      p'.selected_ = none ∧
      p'.latest_pending_subchannel_list_ = none :=
  C7_empty_update (scenarioEnv []) PickFirst.init (scenarioArgs [] "no endpoints") [] rfl rfl rfl


/-- C8, the code at the failing input: on a fresh policy, a resolver error
"first failure" followed by a resolver error "second failure" (both updates
carry a config).  The second update publishes the status of the first update,
not its own: pick_first.cc:286 tests only that a config is stored, not that the
stored addresses are OK. -/
theorem C8_stale_resolver_status :
    ((PickFirst.init.UpdateLocked (scenarioEnv [])
        (scenarioError (UnavailableError "first failure") "")).bind
      (fun p => p.UpdateLocked (scenarioEnv [])
        (scenarioError (UnavailableError "second failure") ""))).map
      (fun q => publications q.calls) =
      some [(GRPC_CHANNEL_TRANSIENT_FAILURE, UnavailableError "first failure",
          SubchannelPicker.TransientFailurePicker (UnavailableError "first failure")),
        (GRPC_CHANNEL_TRANSIENT_FAILURE, UnavailableError "first failure",
          SubchannelPicker.TransientFailurePicker (UnavailableError "first failure"))] := by
  decide


/-- Merge of prior addresses when a config is stored.  For an update carrying an
address-resolution error, if the stored `latest_update_args_` carries a policy
config and holds an OK address list `A`, then `UpdateLocked` returns, the stored
addresses afterwards are `A` (the error is not stored as the addresses), the
stored resolution note is the one of the new update, and connection planning
uses `A`: the list the update allocates is built from `A`, and on a non-idle
policy `UpdateLocked` is connection planning on arguments whose addresses are
`A`.  `hfresh` says a new list is allocated at an address other than that of
the live pending list. -/
theorem merge_prior_addresses_with_config (env : Env) (p : PickFirst) (args : UpdateArgs)
    (A : List ServerAddress) (E : Status)
    (hfresh : p.isPending p.next_list = false)
    (herr : args.addresses = StatusOr.status E)
    (hprior : p.latest_update_args_.addresses = StatusOr.value A)
    (hconfig : p.latest_update_args_.config ≠ none) :
    ∃ p', p.UpdateLocked env args = some p' ∧
      p'.latest_update_args_.addresses = StatusOr.value A ∧
      p'.latest_update_args_.resolution_note = args.resolution_note ∧
      p.updateSubchannelList env args =
        MakeSubchannelList env p.next_list A
          (grpc_channel_args_copy_and_add args.args [(GRPC_ARG_INHIBIT_HEALTH_CHECKING, 1)]) ∧
      (p.idle_ = false → p.UpdateLocked env args =
        PickFirst.AttemptToConnectUsingLatestUpdateArgsLocked env
          { p with latest_update_args_ :=
            { addresses := StatusOr.value A, config := args.config,
              resolution_note := args.resolution_note,
              args := grpc_channel_args_copy_and_add args.args
                [(GRPC_ARG_INHIBIT_HEALTH_CHECKING, 1)] } }) := by
  have hstored : p.storedUpdateArgs args =
      { addresses := StatusOr.value A, config := args.config,
        resolution_note := args.resolution_note,
        args := grpc_channel_args_copy_and_add args.args
          [(GRPC_ARG_INHIBIT_HEALTH_CHECKING, 1)] } := by
    simp [PickFirst.storedUpdateArgs, herr, StatusOr.ok, hconfig, hprior]
  have hlist : p.updateSubchannelList env args =
      MakeSubchannelList env p.next_list A
        (grpc_channel_args_copy_and_add args.args [(GRPC_ARG_INHIBIT_HEALTH_CHECKING, 1)]) := by
    simp [PickFirst.updateSubchannelList, PickFirst.newSubchannelList, hstored]
  rcases Bool.eq_false_or_eq_true p.idle_ with hidle | hidle
  · refine ⟨{ p with latest_update_args_ := p.storedUpdateArgs args }, ?_, ?_, ?_, hlist, ?_⟩
    · simp [PickFirst.UpdateLocked, hidle]
    · simp [hstored]
    · simp [hstored]
    · intro h; rw [hidle] at h; cases h
  · obtain ⟨p', hp', hargs, _, _⟩ := attempt_total env
      { p with latest_update_args_ := p.storedUpdateArgs args } hfresh
    rw [UpdateLocked_not_idle env p args hidle]
    refine ⟨p', hp', ?_, ?_, hlist, ?_⟩
    · rw [hargs]; simp [hstored]
    · rw [hargs]; simp [hstored]
    · intro _; rw [hstored]


/-- C9, the code at the failing input: a fresh policy receives `update(Ok([A]))`
without a policy config and then an update carrying the resolver error
"dns failure" with the note "retrying".  The stored update before the error is
an OK address list, yet after the second update the stored addresses are the
error, not the prior list `[A]`; the list the second update leaves as current
list is empty, and the second update publishes TRANSIENT_FAILURE with the
resolver error.  The guard of pick_first.cc:286 tests that a config is stored,
not that the stored addresses are OK as the comment at pick_first.cc:284-285
says. -/
theorem C9_prior_addresses_dropped_without_config :
    (PickFirst.init.UpdateLocked (scenarioEnv [])
        { addresses := StatusOr.value [1], config := none, resolution_note := "",
          args := [] }).map
      (fun p => (p.latest_update_args_.addresses, publications p.calls)) =
      some (StatusOr.value [1], []) ∧
    ((PickFirst.init.UpdateLocked (scenarioEnv [])
        { addresses := StatusOr.value [1], config := none, resolution_note := "",
          args := [] }).bind
      (fun p => p.UpdateLocked (scenarioEnv [])
        (scenarioError (UnavailableError "dns failure") "retrying"))).map
      (fun q => (q.latest_update_args_.addresses, q.latest_update_args_.resolution_note,
        q.subchannel_list_.map (fun L => L.subchannels), publications q.calls)) =
      some (StatusOr.status (UnavailableError "dns failure"), "retrying", some [],
        [(GRPC_CHANNEL_TRANSIENT_FAILURE, UnavailableError "dns failure",
          SubchannelPicker.TransientFailurePicker (UnavailableError "dns failure"))]) :=
  ⟨rfl, rfl⟩


/-- C10 (selection held).  On a non-idle policy with `selected_` set, an update
that builds a non-empty list none of whose entries is READY returns with the
new list as pending list (whatever pending list there was is replaced), the
current list and `selected_` unchanged and nothing published; a watch is started
and a connection requested on entry 0 of the new list and on no other entry
(the only new watch start and the only new connection request are on entry 0,
and entry `j` of the new list carries a watch exactly when `j = 0`).  `hfresh`
says the new list is allocated at an address other than that of the live
current list. -/
theorem C10_selection_held (env : Env) (p : PickFirst) (args : UpdateArgs)
    (sel : SubchannelDataRef)
    (hidle : p.idle_ = false)
    (hsel : p.selected_ = some sel)
    (hfresh : p.isCurrent p.next_list = false)
    (hne : (p.updateSubchannelList env args).num_subchannels ≠ 0)
    (hnot : ∀ (j : Nat) (e : PickFirstSubchannelData), (p.updateSubchannelList env args).subchannels[j]? = some e →
      env.CheckConnectivityState e.subchannel ≠ GRPC_CHANNEL_READY) :
    ∃ p' L', p.UpdateLocked env args = some p' ∧
      p'.latest_pending_subchannel_list_ = some L' ∧
      L'.id = (p.updateSubchannelList env args).id ∧
      L'.in_transient_failure_ = false ∧
      (∀ j : Nat, L'.subchannels[j]? =
        ((p.updateSubchannelList env args).subchannels[j]?).map (fun (e : PickFirstSubchannelData) =>
          { e with connectivity_state_ := env.CheckConnectivityState e.subchannel,
                   pending_watcher_ := decide (j = 0) })) ∧
      p'.subchannel_list_ = p.subchannel_list_ ∧
      p'.selected_ = p.selected_ ∧
      publications p'.calls = publications p.calls ∧
      watchStarts p'.calls = watchStarts p.calls ++ [(L'.id, 0)] ∧
      connectionRequests p'.calls = connectionRequests p.calls ++ [(L'.id, 0)] := by
  obtain ⟨p', L', h1, h2, h3, h4, h5, h6, h7, h8, _, h10, h11, _⟩ := attempt_selection_held env
    { p with latest_update_args_ := p.storedUpdateArgs args } sel hsel hfresh hne hnot
  rw [UpdateLocked_not_idle env p args hidle]
  exact ⟨p', L', h1, h2, h3, h4, h5, h6, h7, h8, h10, h11⟩

/-- Witness for C10: current ready = A with pending `[B, C]`, then
`update(Ok([D, E]))` with nothing READY. -/
theorem C10_selection_held_witness :
    ∃ p' L', (scenarioPending 0 false).UpdateLocked (scenarioEnv []) (scenarioArgs [4, 5] "") =
        some p' ∧
      p'.latest_pending_subchannel_list_ = some L' ∧
      L'.id = ((scenarioPending 0 false).updateSubchannelList (scenarioEnv [])
        (scenarioArgs [4, 5] "")).id ∧
      L'.in_transient_failure_ = false ∧
      (∀ j : Nat, L'.subchannels[j]? =
        (((scenarioPending 0 false).updateSubchannelList (scenarioEnv [])
          (scenarioArgs [4, 5] "")).subchannels[j]?).map (fun (e : PickFirstSubchannelData) =>
          { e with connectivity_state_ := (scenarioEnv []).CheckConnectivityState e.subchannel,
                   pending_watcher_ := decide (j = 0) })) ∧
      p'.subchannel_list_ = (scenarioPending 0 false).subchannel_list_ ∧
      p'.selected_ = (scenarioPending 0 false).selected_ ∧
      publications p'.calls = publications (scenarioPending 0 false).calls ∧
      watchStarts p'.calls = watchStarts (scenarioPending 0 false).calls ++ [(L'.id, 0)] ∧
      connectionRequests p'.calls =
        connectionRequests (scenarioPending 0 false).calls ++ [(L'.id, 0)] :=
  C10_selection_held (scenarioEnv []) (scenarioPending 0 false) (scenarioArgs [4, 5] "") (0, 0)
    rfl rfl rfl (by decide) (fun j e _ => by simp [scenarioEnv])


/-- C11 (single-address happy path).  From the fresh policy, `update(Ok([A]))`
with the subchannel of A not READY when the new list is scanned, then A (entry 0
of list 0) reporting CONNECTING and then READY: all three steps return, the
update publishes nothing, the publications are exactly `(CONNECTING, QueuePicker)`
followed by `(READY, Picker(sub))`, the final state has the current list `[A]`
with `selected_` on its entry 0 and no pending list, and the last published
picker answers `Complete(sub)` to every pick. -/
theorem C11_single_address_happy_path (env0 env1 env2 : Env) (args : UpdateArgs)
    (A : ServerAddress) (sub : SubchannelInterface)
    (hok : args.addresses = StatusOr.value [A])
    (hcreate : ∀ ca, env0.CreateSubchannel A ca = some sub)
    (hnr : env0.CheckConnectivityState sub ≠ GRPC_CHANNEL_READY) :
    ∃ p0 p1 p2 L, PickFirst.init.UpdateLocked env0 args = some p0 ∧
      ProcessConnectivityChangeLocked env1 p0 (0, 0) GRPC_CHANNEL_CONNECTING = some p1 ∧
      ProcessConnectivityChangeLocked env2 p1 (0, 0) GRPC_CHANNEL_READY = some p2 ∧
      publications p0.calls = [] ∧
      publications p1.calls =
        [(GRPC_CHANNEL_CONNECTING, OkStatus, SubchannelPicker.QueuePicker)] ∧
      publications p2.calls =
        [(GRPC_CHANNEL_CONNECTING, OkStatus, SubchannelPicker.QueuePicker),
         (GRPC_CHANNEL_READY, OkStatus, SubchannelPicker.Picker sub)] ∧
      p2.subchannel_list_ = some L ∧
      L.subchannels.map (fun e => (e.address, e.subchannel)) = [(A, sub)] ∧
      p2.selected_ = some (L.id, 0) ∧
      p2.latest_pending_subchannel_list_ = none ∧
      ∀ (PickArgs : Type) (a : PickArgs),
        ((publications p2.calls).getLast?).map (fun x => x.2.2.Pick a) =
          some (PickResult.Complete sub) := by
  have hst : PickFirst.init.storedUpdateArgs args =
      { addresses := StatusOr.value [A], config := args.config,
        resolution_note := args.resolution_note,
        args := grpc_channel_args_copy_and_add args.args
          [(GRPC_ARG_INHIBIT_HEALTH_CHECKING, 1)] } := by
    simp [PickFirst.storedUpdateArgs, hok, StatusOr.ok]
  have hupd : PickFirst.init.UpdateLocked env0 args = some
      { latest_update_args_ :=
          { addresses := StatusOr.value [A], config := args.config,
            resolution_note := args.resolution_note,
            args := grpc_channel_args_copy_and_add args.args
              [(GRPC_ARG_INHIBIT_HEALTH_CHECKING, 1)] }
        subchannel_list_ := some
          { id := 0
            subchannels := [{ address := A, subchannel := sub,
                              connectivity_state_ := env0.CheckConnectivityState sub,
                              pending_watcher_ := true, shutdown_ := false }]
            in_transient_failure_ := false }
        latest_pending_subchannel_list_ := none
        selected_ := none
        idle_ := false
        shutdown_ := false
        calls := [Call.CheckConnectivityStateLocked (0, 0),
          Call.StartConnectivityWatchLocked (0, 0), Call.RequestConnection (0, 0)]
        next_list := 1 } := by
    rw [UpdateLocked_not_idle env0 _ args rfl, hst]
    simp [PickFirst.AttemptToConnectUsingLatestUpdateArgsLocked, PickFirst.newSubchannelList,
      MakeSubchannelList, hcreate,
      PickFirstSubchannelList.num_subchannels, scanForReady, PickFirstSubchannelList.subchannel,
      CheckConnectivityStateLocked, hnr, PickFirstSubchannelList.modify,
      StartConnectivityWatchLocked, RequestConnection, PickFirst.onData, PickFirst.onList,
      PickFirst.call, PickFirst.init]
  rw [hupd]
  simp [ProcessConnectivityChangeLocked, PickFirst.list, PickFirst.isCurrent,
    PickFirst.isPending, PickFirst.subchannel_data, PickFirstSubchannelList.subchannel,
    UpdateState, PickFirst.call, set_in_transient_failure, PickFirst.onList,
    ProcessUnselectedReadyLocked, shutdownOthers, PickFirstSubchannelList.num_subchannels,
    List.range_succ, publications, SubchannelPicker.Pick]

/-- Witness for C11: address 1 (subchannel 101), IDLE during the update. -/
theorem C11_single_address_happy_path_witness :
    ∃ p0 p1 p2 L, PickFirst.init.UpdateLocked (scenarioEnv []) (scenarioArgs [1] "") = some p0 ∧
      ProcessConnectivityChangeLocked (scenarioEnv []) p0 (0, 0) GRPC_CHANNEL_CONNECTING =
        some p1 ∧
      ProcessConnectivityChangeLocked (scenarioEnv [101]) p1 (0, 0) GRPC_CHANNEL_READY =
        some p2 ∧
      publications p0.calls = [] ∧
      publications p1.calls =
        [(GRPC_CHANNEL_CONNECTING, OkStatus, SubchannelPicker.QueuePicker)] ∧
      publications p2.calls =
        [(GRPC_CHANNEL_CONNECTING, OkStatus, SubchannelPicker.QueuePicker),
         (GRPC_CHANNEL_READY, OkStatus, SubchannelPicker.Picker 101)] ∧
      p2.subchannel_list_ = some L ∧
      L.subchannels.map (fun e => (e.address, e.subchannel)) = [(1, 101)] ∧
      p2.selected_ = some (L.id, 0) ∧
      p2.latest_pending_subchannel_list_ = none ∧
      ∀ (PickArgs : Type) (a : PickArgs),
        ((publications p2.calls).getLast?).map (fun x => x.2.2.Pick a) =
          some (PickResult.Complete 101) :=
  C11_single_address_happy_path (scenarioEnv []) (scenarioEnv []) (scenarioEnv [101])
    (scenarioArgs [1] "") 1 101 rfl (fun _ => rfl) (by decide)

/-- C12 (CONNECTING projection).  When an entry of a live list `L` (current or
pending) that is not the selected entry reports CONNECTING, the callback
returns; the state it returns differs from the state before at most in the log
of calls (lists, `selected_`, `idle_`, flags `in_transient_failure_` unchanged),
no re-resolution is requested, and `(CONNECTING, QueuePicker)` is published
exactly when `L` is the current list and its flag `in_transient_failure_` is
false; otherwise nothing is published. -/
theorem C12_connecting_projection (env : Env) (p : PickFirst) (this : SubchannelDataRef)
    (L : PickFirstSubchannelList) (d : PickFirstSubchannelData)
    (hl : p.list this.1 = some L)
    (hd : p.subchannel_data this = some d)
    (hsel : p.selected_ ≠ some this) :
    ∃ p', ProcessConnectivityChangeLocked env p this GRPC_CHANNEL_CONNECTING = some p' ∧
      { p' with calls := p.calls } = p ∧
      reresolutions p'.calls = reresolutions p.calls ∧
      publications p'.calls =
        (if p.isCurrent this.1 = true ∧ L.in_transient_failure_ = false then
          publications p.calls ++
            [(GRPC_CHANNEL_CONNECTING, OkStatus, SubchannelPicker.QueuePicker)]
         else publications p.calls) := by
  by_cases hc : p.isCurrent this.1 = true ∧ L.in_transient_failure_ = false
  · refine ⟨UpdateState p GRPC_CHANNEL_CONNECTING OkStatus SubchannelPicker.QueuePicker,
      ?_, rfl, ?_, ?_⟩
    · simp [ProcessConnectivityChangeLocked, hl, hd, hsel, hc.1, hc.2]
    · simp [UpdateState, PickFirst.call, reresolutions_append, reresolutions]
    · simp [UpdateState, PickFirst.call, publications_append, publications, hc]
  · refine ⟨p, ?_, rfl, rfl, by rw [if_neg hc]⟩
    have hc' : ¬ (p.isCurrent this.1 = true ∧ L.in_transient_failure_ = false) := hc
    simp only [ProcessConnectivityChangeLocked, hl, hd, hsel, if_false]
    simp
    intro h1 h2
    exact absurd ⟨h1, h2⟩ hc'

/-- Witness for C12: entry B of the pending list `[B, C]` reports CONNECTING
while A is selected. -/
theorem C12_connecting_projection_witness :
    ∃ p', ProcessConnectivityChangeLocked (scenarioEnv []) (scenarioPending 0 false) (1, 0)
        GRPC_CHANNEL_CONNECTING = some p' ∧
      { p' with calls := (scenarioPending 0 false).calls } = scenarioPending 0 false ∧
      reresolutions p'.calls = reresolutions (scenarioPending 0 false).calls ∧
      publications p'.calls =
        (if (scenarioPending 0 false).isCurrent (1, 0).1 = true ∧
            ({ id := 1
               subchannels := [scenarioEntry 2 GRPC_CHANNEL_IDLE true,
                 scenarioEntry 3 GRPC_CHANNEL_IDLE false]
               in_transient_failure_ := false } : PickFirstSubchannelList).in_transient_failure_ =
              false then
          publications (scenarioPending 0 false).calls ++
            [(GRPC_CHANNEL_CONNECTING, OkStatus, SubchannelPicker.QueuePicker)]
         else publications (scenarioPending 0 false).calls) :=
  C12_connecting_projection (scenarioEnv []) (scenarioPending 0 false) (1, 0)
    { id := 1
      subchannels := [scenarioEntry 2 GRPC_CHANNEL_IDLE true,
        scenarioEntry 3 GRPC_CHANNEL_IDLE false]
      in_transient_failure_ := false }
    (scenarioEntry 2 GRPC_CHANNEL_IDLE true) rfl rfl (by decide)

/-- C13 (redundant READY).  When `selected_` points at entry `i` of the current
list and that entry reports READY, the callback returns the state unchanged:
same lists, same `selected_`, same flags, and the same log of calls, so nothing
is published and no re-resolution is requested. -/
theorem C13_redundant_ready (env : Env) (p : PickFirst) (cur : PickFirstSubchannelList)
    (i : Nat)
    (hcur : p.subchannel_list_ = some cur)
    (hi : i < cur.num_subchannels)
    (hsel : p.selected_ = some (cur.id, i)) :
    ProcessConnectivityChangeLocked env p (cur.id, i) GRPC_CHANNEL_READY = some p := by
  obtain ⟨d, hd⟩ := entry_of_lt cur i hi
  have hl := list_of_current p cur hcur
  have hsd := subchannel_data_of_current p cur i hcur
  rw [hd] at hsd
  simp [ProcessConnectivityChangeLocked, hl, hsd, hsel, PickFirst.isCurrent, hcur]

/-- Witness for C13: "current ready = A", A reports READY again. -/
theorem C13_redundant_ready_witness :
    ProcessConnectivityChangeLocked (scenarioEnv [101]) scenarioSelected (0, 0)
      GRPC_CHANNEL_READY = some scenarioSelected :=
  C13_redundant_ready (scenarioEnv [101]) scenarioSelected
    { id := 0, subchannels := [scenarioEntry 1 GRPC_CHANNEL_READY true],
      in_transient_failure_ := false } 0 rfl (by decide) rfl

/-- C14 (update while idle).  On an idle policy `UpdateLocked` returns the state
with `latest_update_args_` replaced and nothing else changed (same lists, same
`selected_`, same `idle_`, same log of calls: no list built, no connection
requested, nothing published).  The stored arguments carry the channel arg that
inhibits health checking, the resolution note of the update, and the addresses
of the update, or the stored ones when the update is a resolver error and a
config is stored. -/
theorem C14_update_while_idle (env : Env) (p : PickFirst) (args : UpdateArgs)
    (hidle : p.idle_ = true) :
    p.UpdateLocked env args = some { p with latest_update_args_ := p.storedUpdateArgs args } ∧
      (GRPC_ARG_INHIBIT_HEALTH_CHECKING, 1) ∈ (p.storedUpdateArgs args).args ∧
      (p.storedUpdateArgs args).resolution_note = args.resolution_note ∧
      (p.storedUpdateArgs args).addresses =
        (if args.addresses.ok = false ∧ p.latest_update_args_.config ≠ none then
          p.latest_update_args_.addresses else args.addresses) := by
  refine ⟨by simp [PickFirst.UpdateLocked, hidle], ?_, ?_, ?_⟩
  · by_cases h : args.addresses.ok = false ∧ p.latest_update_args_.config ≠ none
    · simp [PickFirst.storedUpdateArgs, h.1, h.2, grpc_channel_args_copy_and_add]
    · by_cases h1 : args.addresses.ok = false
      · have h2 : p.latest_update_args_.config = none := by
          by_contra h2; exact h ⟨h1, h2⟩
        simp [PickFirst.storedUpdateArgs, h1, h2, grpc_channel_args_copy_and_add]
      · simp [PickFirst.storedUpdateArgs, h1, grpc_channel_args_copy_and_add]
  · by_cases h1 : args.addresses.ok = false
    · by_cases h2 : p.latest_update_args_.config = none
      · simp [PickFirst.storedUpdateArgs, h1, h2]
      · simp [PickFirst.storedUpdateArgs, h1, h2]
    · simp [PickFirst.storedUpdateArgs, h1]
  · by_cases h1 : args.addresses.ok = false
    · by_cases h2 : p.latest_update_args_.config = none
      · simp [PickFirst.storedUpdateArgs, h1, h2]
      · simp [PickFirst.storedUpdateArgs, h1, h2]
    · simp [PickFirst.storedUpdateArgs, h1]

/-- Witness for C14: the idle scenario receives `update(Ok([B, C]))`. -/
theorem C14_update_while_idle_witness :
    scenarioIdle.UpdateLocked (scenarioEnv []) (scenarioArgs [2, 3] "note") =
        some { scenarioIdle with
          latest_update_args_ := scenarioIdle.storedUpdateArgs (scenarioArgs [2, 3] "note") } ∧
      (GRPC_ARG_INHIBIT_HEALTH_CHECKING, 1) ∈
        (scenarioIdle.storedUpdateArgs (scenarioArgs [2, 3] "note")).args ∧
      (scenarioIdle.storedUpdateArgs (scenarioArgs [2, 3] "note")).resolution_note =
        (scenarioArgs [2, 3] "note").resolution_note ∧
      (scenarioIdle.storedUpdateArgs (scenarioArgs [2, 3] "note")).addresses =
        (if (scenarioArgs [2, 3] "note").addresses.ok = false ∧
            scenarioIdle.latest_update_args_.config ≠ none then
          scenarioIdle.latest_update_args_.addresses
         else (scenarioArgs [2, 3] "note").addresses) :=
  C14_update_while_idle (scenarioEnv []) scenarioIdle (scenarioArgs [2, 3] "note") rfl

/-- C15 (exit idle).  When `shutdown_` is set or `idle_` is false,
`ExitIdleLocked` returns the state unchanged (log of calls included, so nothing
is published).  When `idle_` is true and `shutdown_` is false, `ExitIdleLocked`
is connection planning on the state with `idle_` cleared: it equals
`AttemptToConnectUsingLatestUpdateArgsLocked` there, hence equals `UpdateLocked`
on that non-idle state for any update whose stored arguments are the
`latest_update_args_` already held (same lists, selection and publications);
and it returns, with `idle_` false and `latest_update_args_` kept, whenever the
newly allocated list does not have the address of the live pending list. -/
theorem C15_exit_idle (env : Env) (p : PickFirst) :
    ((p.shutdown_ = true ∨ p.idle_ = false) → p.ExitIdleLocked env = some p) ∧
    (p.idle_ = true → p.shutdown_ = false →
      p.ExitIdleLocked env =
        PickFirst.AttemptToConnectUsingLatestUpdateArgsLocked env { p with idle_ := false } ∧
      (∀ args : UpdateArgs,
        PickFirst.storedUpdateArgs { p with idle_ := false } args = p.latest_update_args_ →
        PickFirst.UpdateLocked env { p with idle_ := false } args = p.ExitIdleLocked env) ∧
      (p.isPending p.next_list = false →
        ∃ p', p.ExitIdleLocked env = some p' ∧ p'.idle_ = false ∧
          p'.latest_update_args_ = p.latest_update_args_)) := by
  refine ⟨?_, ?_⟩
  · intro h
    rcases h with h | h
    · simp [PickFirst.ExitIdleLocked, h]
    · simp [PickFirst.ExitIdleLocked, h]
  · intro hidle hshut
    have hexit : p.ExitIdleLocked env =
        PickFirst.AttemptToConnectUsingLatestUpdateArgsLocked env { p with idle_ := false } := by
      simp [PickFirst.ExitIdleLocked, hidle, hshut]
    refine ⟨hexit, ?_, ?_⟩
    · intro args hargs
      rw [hexit, UpdateLocked_not_idle env _ args rfl, hargs]
    · intro hfresh
      obtain ⟨p', hp', hargs, hid, _⟩ := attempt_total env { p with idle_ := false } hfresh
      exact ⟨p', by rw [hexit, hp'], hid, hargs⟩

/-- Witness for C15: the idle scenario leaves idle. -/
theorem C15_exit_idle_witness :
    scenarioIdle.ExitIdleLocked (scenarioEnv []) =
        PickFirst.AttemptToConnectUsingLatestUpdateArgsLocked (scenarioEnv [])
          { scenarioIdle with idle_ := false } ∧
      (∀ args : UpdateArgs,
        PickFirst.storedUpdateArgs { scenarioIdle with idle_ := false } args =
          scenarioIdle.latest_update_args_ →
        PickFirst.UpdateLocked (scenarioEnv []) { scenarioIdle with idle_ := false } args =
          scenarioIdle.ExitIdleLocked (scenarioEnv [])) ∧
      (scenarioIdle.isPending scenarioIdle.next_list = false →
        ∃ p', scenarioIdle.ExitIdleLocked (scenarioEnv []) = some p' ∧ p'.idle_ = false ∧
          p'.latest_update_args_ = scenarioIdle.latest_update_args_) :=
  (C15_exit_idle (scenarioEnv []) scenarioIdle).2 rfl rfl

/-- C16 (invariant P2).  In every state reachable from the fresh policy by
`UpdateLocked`, `ExitIdleLocked`, `ResetBackoffLocked`, `ShutdownLocked` and
connectivity callbacks that return, a pending list is present only when
`selected_` is set. -/
theorem C16_invariant_P2 (p : PickFirst) (h : Reachable p)
    (hpend : p.latest_pending_subchannel_list_.isSome = true) :
    p.selected_.isSome = true := by
  have hwf := (WF_of_Reachable p h).2.2.2.1
  apply hwf
  cases hx : p.latest_pending_subchannel_list_ with
  | none => rw [hx] at hpend; cases hpend
  | some x => simp [PickFirst.skeleton, hx]

/-- Witness for C16: A selected, then `update(Ok([B, C]))` with nothing READY
leaves the list `[B, C]` pending. -/
theorem C16_invariant_P2_witness :
    scenarioHeld.selected_.isSome = true :=
  C16_invariant_P2 scenarioHeld Reachable_scenarioHeld rfl

/-- C17 (invariant P1 after shutdown).  The fresh policy receives
`update(Ok([A]))` while A is READY, which selects A (entry 0 of list 0), and is
then shut down: `ShutdownLocked` resets both lists and leaves `selected_` as it
was, so `selected_` is set while there is no current list and the pointer names
no entry of a live list. -/
theorem C17_selected_dangles_after_shutdown :
    Reachable scenarioAfterFirstUpdate.ShutdownLocked ∧
      scenarioAfterFirstUpdate.selectedAddress = some 1 ∧
      scenarioAfterFirstUpdate.ShutdownLocked.selected_ = some (0, 0) ∧
      scenarioAfterFirstUpdate.ShutdownLocked.subchannel_list_ = none ∧
      scenarioAfterFirstUpdate.ShutdownLocked.subchannel_data (0, 0) = none :=
  ⟨Reachable.shutdown Reachable_scenarioAfterFirstUpdate, rfl, rfl, rfl, rfl⟩

/-- C18 (invariant P3 after shutdown).  Shutdown on the fresh policy, then
`update(Ok([]))`: `UpdateLocked` does not look at `shutdown_`; it returns with
`shutdown_` still set, a current list present (the new, empty list) and one
publication: TRANSIENT_FAILURE with the status Unavailable,
"empty address list: ", and the picker that fails with that status. -/
theorem C18_update_after_shutdown_publishes :
    (PickFirst.init.ShutdownLocked.UpdateLocked (scenarioEnv []) (scenarioArgs [] "")).map
        (fun q => (q.shutdown_, q.subchannel_list_, publications q.calls)) =
      some (true, some { id := 0, subchannels := [], in_transient_failure_ := false },
        [(GRPC_CHANNEL_TRANSIENT_FAILURE, UnavailableError "empty address list: ",
          SubchannelPicker.TransientFailurePicker (UnavailableError "empty address list: "))]) := by
  decide

/-- C19 (stale callbacks), amended.  A connectivity event handed to
`ProcessConnectivityChangeLocked` for an entry of a list that is neither the
current list nor the pending list fails the assertion of pick_first.cc:303-304:
the handler does not return a state, whatever the reported state. -/
theorem C19_stale_callback_asserts (env : Env) (p : PickFirst) (this : SubchannelDataRef)
    (s : grpc_connectivity_state)
    (hcur : p.isCurrent this.1 = false) (hpend : p.isPending this.1 = false) :
    ProcessConnectivityChangeLocked env p this s = none := by
  simp [ProcessConnectivityChangeLocked, PickFirst.list, hcur, hpend]

/-- Witness for C19: an event for list 5 while the lists 0 and 1 are live. -/
theorem C19_stale_callback_asserts_witness :
    ProcessConnectivityChangeLocked (scenarioEnv []) (scenarioPending 0 false) (5, 0)
      GRPC_CHANNEL_READY = none :=
  C19_stale_callback_asserts (scenarioEnv []) (scenarioPending 0 false) (5, 0)
    GRPC_CHANNEL_READY rfl rfl

/-- Counterexample for C19 as stated: the fresh policy selects A by
`update(Ok([A]))` with A READY and is shut down; then the entry of the dropped
list (list 0, neither current nor pending) reports IDLE.  The handler does not
return normally: its assertion fails. -/
theorem C19_counterexample :
    scenarioAfterFirstUpdate.ShutdownLocked.isCurrent 0 = false ∧
      scenarioAfterFirstUpdate.ShutdownLocked.isPending 0 = false ∧
      ProcessConnectivityChangeLocked (scenarioEnv []) scenarioAfterFirstUpdate.ShutdownLocked
        (0, 0) GRPC_CHANNEL_IDLE = none :=
  ⟨rfl, rfl, rfl⟩

/-- C20 (idempotent update), amended.  From every reachable state, two
consecutive `update(Ok(A))` with the same outside world both return, and the
second publishes exactly what the first published (`X`) and leaves the roles by
address content (address of the selected entry, `idle_`, addresses of the
current list, addresses of the pending list) as the first left them.  `X` is
empty when the policy is idle, and when the list built has at least one entry
and none is READY.  On a non-idle policy `X` is the TRANSIENT_FAILURE state of
an empty list when the list built has no entry, and `(READY, Picker)` of the
first READY entry when the list built has a READY entry: in these two cases the
second update publishes the same state again. -/
theorem C20_idempotent_update (env : Env) (p : PickFirst) (args : UpdateArgs)
    (A : List ServerAddress)
    (hreach : Reachable p)
    (hok : args.addresses = StatusOr.value A) :
    ∃ p1 p2 X, p.UpdateLocked env args = some p1 ∧ p1.UpdateLocked env args = some p2 ∧
      publications p1.calls = publications p.calls ++ X ∧
      publications p2.calls = publications p1.calls ++ X ∧
      p2.roles = p1.roles ∧
      (p.idle_ = true → X = []) ∧
      ((p.updateSubchannelList env args).num_subchannels ≠ 0 →
        (∀ (j : Nat) (e : PickFirstSubchannelData),
          (p.updateSubchannelList env args).subchannels[j]? = some e →
          env.CheckConnectivityState e.subchannel ≠ GRPC_CHANNEL_READY) → X = []) ∧
      (p.idle_ = false → (p.updateSubchannelList env args).num_subchannels = 0 →
         X = [(GRPC_CHANNEL_TRANSIENT_FAILURE,
           UnavailableError ("empty address list: " ++ args.resolution_note),
           SubchannelPicker.TransientFailurePicker
             (UnavailableError ("empty address list: " ++ args.resolution_note)))]) ∧
      (p.idle_ = false → ∀ (k : Nat) (d : PickFirstSubchannelData),
         (p.updateSubchannelList env args).subchannels[k]? = some d →
         env.CheckConnectivityState d.subchannel = GRPC_CHANNEL_READY →
         (∀ (j : Nat) (e : PickFirstSubchannelData), j < k →
           (p.updateSubchannelList env args).subchannels[j]? = some e →
           env.CheckConnectivityState e.subchannel ≠ GRPC_CHANNEL_READY) →
         X = [(GRPC_CHANNEL_READY, OkStatus, SubchannelPicker.Picker d.subchannel)]) := by
  have hst := storedUpdateArgs_ok p args A hok
  cases hidle : p.idle_ with
  | true =>
    have h1 := UpdateLocked_idle env p args hidle
    have hst1 := storedUpdateArgs_ok { p with latest_update_args_ := p.storedUpdateArgs args }
      args A hok
    have h2 : PickFirst.UpdateLocked env { p with latest_update_args_ := p.storedUpdateArgs args }
        args = some { p with latest_update_args_ := p.storedUpdateArgs args } := by
      have hq : PickFirst.idle_ { p with latest_update_args_ := p.storedUpdateArgs args } = true :=
        hidle
      exact (UpdateLocked_idle env _ args hq).trans
        (congrArg some (update_stored_again _ args (hst.trans hst1.symm)))
    exact ⟨_, _, [], h1, h2, by simp, by simp, rfl, fun _ => rfl, fun _ _ => rfl,
      fun h => (by cases h), fun h => (by cases h)⟩
  | false =>
    have hwf : PickFirst.skeleton { p with latest_update_args_ := p.storedUpdateArgs args } |>.WF :=
      WF_of_Reachable p hreach
    obtain ⟨p1, p2, X, hp1, hp2, hargs, hidle1, hpub1, hpub2, hroles, hnone, hempty, hready⟩ :=
      attempt_twice env { p with latest_update_args_ := p.storedUpdateArgs args } hwf
    have hst1 := storedUpdateArgs_ok p1 args A hok
    have heq : { p1 with latest_update_args_ := p1.storedUpdateArgs args } = p1 := by
      apply update_stored_again p1 args
      rw [hargs, hst1]
      exact hst
    have h2 : p1.UpdateLocked env args = some p2 := by
      rw [UpdateLocked_not_idle env p1 args (by rw [hidle1]; exact hidle), heq]
      exact hp2
    refine ⟨p1, p2, X, ?_, h2, hpub1, hpub2, hroles, ?_, hnone, ?_, fun _ => hready⟩
    · rw [UpdateLocked_not_idle env p args hidle]; exact hp1
    · intro h; cases h
    · intro _ h0
      have := hempty h0
      simpa [hst, hok] using this

/-- Witness for C20: A selected and READY, then `update(Ok([A]))` twice. -/
theorem C20_idempotent_update_witness :
    ∃ p1 p2 X, scenarioAfterFirstUpdate.UpdateLocked (scenarioEnv [101]) (scenarioArgs [1] "") =
        some p1 ∧
      p1.UpdateLocked (scenarioEnv [101]) (scenarioArgs [1] "") = some p2 ∧
      publications p1.calls = publications scenarioAfterFirstUpdate.calls ++ X ∧
      publications p2.calls = publications p1.calls ++ X ∧
      p2.roles = p1.roles ∧
      (scenarioAfterFirstUpdate.idle_ = true → X = []) ∧
      ((scenarioAfterFirstUpdate.updateSubchannelList (scenarioEnv [101])
          (scenarioArgs [1] "")).num_subchannels ≠ 0 →
        (∀ (j : Nat) (e : PickFirstSubchannelData),
          (scenarioAfterFirstUpdate.updateSubchannelList (scenarioEnv [101])
            (scenarioArgs [1] "")).subchannels[j]? = some e →
          (scenarioEnv [101]).CheckConnectivityState e.subchannel ≠ GRPC_CHANNEL_READY) →
        X = []) ∧
      (scenarioAfterFirstUpdate.idle_ = false →
        (scenarioAfterFirstUpdate.updateSubchannelList (scenarioEnv [101])
           (scenarioArgs [1] "")).num_subchannels = 0 →
         X = [(GRPC_CHANNEL_TRANSIENT_FAILURE,
           UnavailableError ("empty address list: " ++ (scenarioArgs [1] "").resolution_note),
           SubchannelPicker.TransientFailurePicker
             (UnavailableError
               ("empty address list: " ++ (scenarioArgs [1] "").resolution_note)))]) ∧
      (scenarioAfterFirstUpdate.idle_ = false → ∀ (k : Nat) (d : PickFirstSubchannelData),
         (scenarioAfterFirstUpdate.updateSubchannelList (scenarioEnv [101])
           (scenarioArgs [1] "")).subchannels[k]? = some d →
         (scenarioEnv [101]).CheckConnectivityState d.subchannel = GRPC_CHANNEL_READY →
         (∀ (j : Nat) (e : PickFirstSubchannelData), j < k →
           (scenarioAfterFirstUpdate.updateSubchannelList (scenarioEnv [101])
             (scenarioArgs [1] "")).subchannels[j]? = some e →
           (scenarioEnv [101]).CheckConnectivityState e.subchannel ≠ GRPC_CHANNEL_READY) →
         X = [(GRPC_CHANNEL_READY, OkStatus, SubchannelPicker.Picker d.subchannel)]) :=
  C20_idempotent_update (scenarioEnv [101]) scenarioAfterFirstUpdate (scenarioArgs [1] "") [1]
    Reachable_scenarioAfterFirstUpdate rfl

/-- Counterexample for C20 as stated: on the fresh policy (reachable, not shut
down), `update(Ok([A]))` twice while A is READY and no subchannel changes state.
The first update selects A and publishes READY; the second finds A READY again,
selects it in the new list and publishes READY a second time. -/
theorem C20_counterexample :
    PickFirst.init.shutdown_ = false ∧
    ((PickFirst.init.UpdateLocked (scenarioEnv [101]) (scenarioArgs [1] "")).bind (fun p1 =>
      (p1.UpdateLocked (scenarioEnv [101]) (scenarioArgs [1] "")).map (fun p2 =>
        (p1.selectedAddress, publications p1.calls, publications p2.calls)))) =
      some (some 1,
        [(GRPC_CHANNEL_READY, OkStatus, SubchannelPicker.Picker 101)],
        [(GRPC_CHANNEL_READY, OkStatus, SubchannelPicker.Picker 101),
         (GRPC_CHANNEL_READY, OkStatus, SubchannelPicker.Picker 101)]) :=
  ⟨rfl, rfl⟩


/-- C21 (leaving TRANSIENT_FAILURE), amended.  In a state whose current list
carries the flag `in_transient_failure_` (its sweep has wrapped around and
TRANSIENT_FAILURE was published), with nothing selected and no pending list:
after any sequence of connectivity callbacks in which no entry reports READY and
no subchannel is READY when its state is read, everything published is
TRANSIENT_FAILURE (neither CONNECTING nor READY), and the state is still of that
kind.  A callback in which an entry of the list reports READY returns, selects
the entry and publishes `(READY, Picker)`, without any update in between. -/
theorem C21_exhausted_until_ready
    (evs : List (Env × SubchannelDataRef × grpc_connectivity_state)) (p p' : PickFirst)
    (L : PickFirstSubchannelList)
    (hwf : p.skeleton.WF)
    (hcur : p.subchannel_list_ = some L) (hflag : L.in_transient_failure_ = true)
    (hsel : p.selected_ = none) (hpend : p.latest_pending_subchannel_list_ = none)
    (hrun : deliver evs p = some p')
    (hnr : ∀ ev ∈ evs, ev.2.2 ≠ GRPC_CHANNEL_READY ∧
      ∀ sub, ev.1.CheckConnectivityState sub ≠ GRPC_CHANNEL_READY) :
    (∃ X, publications p'.calls = publications p.calls ++ X ∧
      ∀ x ∈ X, x.1 = GRPC_CHANNEL_TRANSIENT_FAILURE) ∧
    (∃ L', p'.subchannel_list_ = some L' ∧ L'.in_transient_failure_ = true ∧
      p'.selected_ = none ∧ p'.latest_pending_subchannel_list_ = none) ∧
    (∀ (env : Env) (this : SubchannelDataRef) (d : PickFirstSubchannelData),
      p'.subchannel_data this = some d →
      ∃ p'', ProcessConnectivityChangeLocked env p' this GRPC_CHANNEL_READY = some p'' ∧
        p''.selected_ = some this ∧
        publications p''.calls = publications p'.calls ++
          [(GRPC_CHANNEL_READY, OkStatus, SubchannelPicker.Picker d.subchannel)]) := by
  obtain ⟨h1, L', hc', hf', hs', hp'⟩ :=
    exhausted_run evs p p' L hcur hflag hsel hpend hrun hnr
  refine ⟨h1, ⟨L', hc', hf', hs', hp'⟩, ?_⟩
  intro env this d hd
  have hwf' := WF_deliver evs p p' hrun hwf
  cases hl : p'.list this.1 with
  | none => simp [PickFirst.subchannel_data, hl] at hd
  | some L0 =>
    have hd0 : L0.subchannels[this.2]? = some d := by
      rw [← subchannel_data_of_list p' this L0 hl]; exact hd
    obtain ⟨p'', _, h2, _, _, _, _, _, _, h3, h4⟩ := ready_inv env p' this L0 d hwf' hl hd0
      (by rw [hs']; exact fun h => nomatch h)
      (fun P hP => by rw [hp'] at hP; cases hP)
    exact ⟨p'', h2, h3, h4⟩


/-- Witness for C21: the list `[A]` has wrapped around; A then reports CONNECTING
and TRANSIENT_FAILURE again. -/
theorem C21_exhausted_until_ready_witness :
    (∃ X, publications ((deliver
          [(scenarioEnv [], (0, 0), GRPC_CHANNEL_CONNECTING),
           (scenarioEnv [], (0, 0), GRPC_CHANNEL_TRANSIENT_FAILURE)]
          scenarioExhausted).getD PickFirst.init).calls =
        publications scenarioExhausted.calls ++ X ∧
      ∀ x ∈ X, x.1 = GRPC_CHANNEL_TRANSIENT_FAILURE) ∧
    (∃ L', ((deliver
          [(scenarioEnv [], (0, 0), GRPC_CHANNEL_CONNECTING),
           (scenarioEnv [], (0, 0), GRPC_CHANNEL_TRANSIENT_FAILURE)]
          scenarioExhausted).getD PickFirst.init).subchannel_list_ = some L' ∧
      L'.in_transient_failure_ = true ∧
      ((deliver
          [(scenarioEnv [], (0, 0), GRPC_CHANNEL_CONNECTING),
           (scenarioEnv [], (0, 0), GRPC_CHANNEL_TRANSIENT_FAILURE)]
          scenarioExhausted).getD PickFirst.init).selected_ = none ∧
      ((deliver
          [(scenarioEnv [], (0, 0), GRPC_CHANNEL_CONNECTING),
           (scenarioEnv [], (0, 0), GRPC_CHANNEL_TRANSIENT_FAILURE)]
          scenarioExhausted).getD PickFirst.init).latest_pending_subchannel_list_ = none) :=
  ⟨(C21_exhausted_until_ready
      [(scenarioEnv [], (0, 0), GRPC_CHANNEL_CONNECTING),
       (scenarioEnv [], (0, 0), GRPC_CHANNEL_TRANSIENT_FAILURE)]
      scenarioExhausted _
      { id := 0, subchannels := [scenarioEntry 1 GRPC_CHANNEL_IDLE true],
        in_transient_failure_ := true }
      (WF_of_Reachable _ (Reachable_of_ReachableWatched _ ReachableWatched_scenarioExhausted))
      rfl rfl rfl rfl rfl
      (fun ev hev => by
        simp only [List.mem_cons, List.mem_singleton, List.not_mem_nil, or_false] at hev
        rcases hev with h | h <;> subst h <;>
          exact ⟨by decide, fun sub => by simp [scenarioEnv]⟩)).1,
   (C21_exhausted_until_ready
      [(scenarioEnv [], (0, 0), GRPC_CHANNEL_CONNECTING),
       (scenarioEnv [], (0, 0), GRPC_CHANNEL_TRANSIENT_FAILURE)]
      scenarioExhausted _
      { id := 0, subchannels := [scenarioEntry 1 GRPC_CHANNEL_IDLE true],
        in_transient_failure_ := true }
      (WF_of_Reachable _ (Reachable_of_ReachableWatched _ ReachableWatched_scenarioExhausted))
      rfl rfl rfl rfl rfl
      (fun ev hev => by
        simp only [List.mem_cons, List.mem_singleton, List.not_mem_nil, or_false] at hev
        rcases hev with h | h <;> subst h <;>
          exact ⟨by decide, fun sub => by simp [scenarioEnv]⟩)).2.1⟩


/-- Counterexample for C21 as stated: `update(Ok([A]))`, A reports
TRANSIENT_FAILURE (the sweep of `[A]` wraps around and TRANSIENT_FAILURE is
published), then A reports READY.  The callback publishes READY although no
update was received after the TRANSIENT_FAILURE publication. -/
theorem C21_counterexample :
    ReachableWatched scenarioExhausted ∧
    publications scenarioExhausted.calls =
      [(GRPC_CHANNEL_TRANSIENT_FAILURE, UnavailableError "failed to connect to all addresses",
        SubchannelPicker.TransientFailurePicker
          (UnavailableError "failed to connect to all addresses"))] ∧
    (ProcessConnectivityChangeLocked (scenarioEnv [101]) scenarioExhausted (0, 0)
        GRPC_CHANNEL_READY).map (fun q => publications q.calls) =
      some [(GRPC_CHANNEL_TRANSIENT_FAILURE,
          UnavailableError "failed to connect to all addresses",
          SubchannelPicker.TransientFailurePicker
            (UnavailableError "failed to connect to all addresses")),
        (GRPC_CHANNEL_READY, OkStatus, SubchannelPicker.Picker 101)] :=
  ⟨ReachableWatched_scenarioExhausted, rfl, rfl⟩


/-- C22 (check-state-and-watch).  On an entry `this` of a live list (current and
pending list being different objects), `CheckConnectivityStateAndStartWatchingLocked`
returns; it first reads the state, then starts the watch (the log gains the read,
then the watch start, and no other watch start), and in the state it returns the
entry carries the watch.  When the state read is READY and `this` is not the
selected entry, the routine is `ProcessUnselectedReadyLocked` on the state after
read and watch start: `selected_` points at `this`, `(READY, Picker)` is
published once and no connection is requested.  When the state read is READY and
`this` is already selected, nothing more happens.  Otherwise one connection is
requested on `this` and nothing is published. -/
theorem C22_check_state_and_watch (env : Env) (p : PickFirst) (this : SubchannelDataRef)
    (L : PickFirstSubchannelList) (d : PickFirstSubchannelData)
    (hwf : p.skeleton.WF) (hl : p.list this.1 = some L)
    (hd : L.subchannel this.2 = some d) :
    (checkedAndWatched env p this).calls = p.calls ++
      [Call.CheckConnectivityStateLocked this, Call.StartConnectivityWatchLocked this] ∧
    (∃ p' rest, CheckConnectivityStateAndStartWatchingLocked env p this = some p' ∧
      p'.calls = (checkedAndWatched env p this).calls ++ rest ∧ watchStarts rest = [] ∧
      ∃ e, p'.subchannel_data this = some e ∧ e.pending_watcher_ = true) ∧
    (env.CheckConnectivityState d.subchannel = GRPC_CHANNEL_READY → p.selected_ ≠ some this →
      CheckConnectivityStateAndStartWatchingLocked env p this =
        ProcessUnselectedReadyLocked (checkedAndWatched env p this) this ∧
      ∃ p', CheckConnectivityStateAndStartWatchingLocked env p this = some p' ∧
        p'.selected_ = some this ∧
        publications p'.calls = publications p.calls ++
          [(GRPC_CHANNEL_READY, OkStatus, SubchannelPicker.Picker d.subchannel)] ∧
        connectionRequests p'.calls = connectionRequests p.calls) ∧
    (env.CheckConnectivityState d.subchannel = GRPC_CHANNEL_READY → p.selected_ = some this →
      CheckConnectivityStateAndStartWatchingLocked env p this =
        some (checkedAndWatched env p this) ∧
      publications (checkedAndWatched env p this).calls = publications p.calls ∧
      connectionRequests (checkedAndWatched env p this).calls = connectionRequests p.calls) ∧
    (env.CheckConnectivityState d.subchannel ≠ GRPC_CHANNEL_READY →
      ∃ p', CheckConnectivityStateAndStartWatchingLocked env p this = some p' ∧
        p'.calls = (checkedAndWatched env p this).calls ++ [Call.RequestConnection this] ∧
        connectionRequests p'.calls = connectionRequests p.calls ++ [this] ∧
        publications p'.calls = publications p.calls) := by
  have hd' : L.subchannels[this.2]? = some d := hd
  have hsd : p.subchannel_data this = some d := by
    rw [subchannel_data_of_list p this L hl]; exact hd'
  obtain ⟨L2, hl2, hid2, hf2, hpt2, hcase, hsel2, hcalls2⟩ :=
    checkedAndWatched_result env p this L hwf hl
  have hwf2 : (checkedAndWatched env p this).skeleton.WF := by
    rw [skeleton_checkedAndWatched]; exact hwf
  have hd2 : L2.subchannels[this.2]? = some
      { d with connectivity_state_ := env.CheckConnectivityState d.subchannel,
               pending_watcher_ := true } := by
    rw [hpt2, hd']; simp
  have hsd2 : (checkedAndWatched env p this).subchannel_data this = some
      { d with connectivity_state_ := env.CheckConnectivityState d.subchannel,
               pending_watcher_ := true } := by
    rw [subchannel_data_of_list _ this L2 hl2]; exact hd2
  have hex2 : ∃ e, (checkedAndWatched env p this).subchannel_data this = some e ∧
      e.pending_watcher_ = true := ⟨_, hsd2, rfl⟩
  have heq := CheckConnectivityStateAndStartWatchingLocked_eq env p this d hsd
  have hpubs2 : publications (checkedAndWatched env p this).calls = publications p.calls := by
    rw [hcalls2, publications_append]; simp [publications]
  have hreq2 : connectionRequests (checkedAndWatched env p this).calls =
      connectionRequests p.calls := by
    rw [hcalls2, connectionRequests_append]; simp [connectionRequests]
  -- the READY, unselected case
  have hready : env.CheckConnectivityState d.subchannel = GRPC_CHANNEL_READY →
      p.selected_ ≠ some this →
      CheckConnectivityStateAndStartWatchingLocked env p this =
        ProcessUnselectedReadyLocked (checkedAndWatched env p this) this ∧
      ∃ p' rest, CheckConnectivityStateAndStartWatchingLocked env p this = some p' ∧
        p'.calls = (checkedAndWatched env p this).calls ++ rest ∧ watchStarts rest = [] ∧
        (∃ e, p'.subchannel_data this = some e ∧ e.pending_watcher_ = true) ∧
        p'.selected_ = some this ∧
        publications p'.calls = publications p.calls ++
          [(GRPC_CHANNEL_READY, OkStatus, SubchannelPicker.Picker d.subchannel)] ∧
        connectionRequests p'.calls = connectionRequests p.calls := by
    intro hr hs
    have hs2 : (checkedAndWatched env p this).selected_ ≠ some this := by rw [hsel2]; exact hs
    have heq' : CheckConnectivityStateAndStartWatchingLocked env p this =
        ProcessUnselectedReadyLocked (checkedAndWatched env p this) this := by
      rw [heq, if_pos hr, if_pos hs2]
    obtain ⟨p', L', h1, hc', hid', hf', hpt', hsel', hpend', hcalls', hwf'⟩ :=
      ProcessUnselectedReadyLocked_result _ this L2 _ hwf2 hl2 hd2
    refine ⟨heq', p', _, by rw [heq', h1], by rw [hcalls', List.append_assoc], ?_, ?_, hsel',
      ?_, ?_⟩
    · rw [watchStarts_append, (observations_of_shutdowns _ _).2.2.2]; rfl
    · have hl' : p'.list this.1 = some L' := by
        simp [PickFirst.list, PickFirst.isCurrent, hc', hid']
      rw [subchannel_data_of_list p' this L' hl', hpt', hd2]
      simp
    · rw [hcalls', publications_append, publications_append,
        (observations_of_shutdowns _ _).1, hpubs2]
      simp [publications]
    · rw [hcalls', connectionRequests_append, connectionRequests_append,
        (observations_of_shutdowns _ _).2.2.1, hreq2]
      simp [connectionRequests]
  refine ⟨hcalls2, ?_, ?_, ?_, ?_⟩
  · by_cases hr : env.CheckConnectivityState d.subchannel = GRPC_CHANNEL_READY
    · by_cases hs : p.selected_ = some this
      · have hs2 : ¬ (checkedAndWatched env p this).selected_ ≠ some this := by
          rw [hsel2]; exact fun h => h hs
        exact ⟨checkedAndWatched env p this, [], by rw [heq, if_pos hr, if_neg hs2], by simp,
          rfl, hex2⟩
      · obtain ⟨_, p', rest, h1, h2, h3, h4, _⟩ := hready hr hs
        exact ⟨p', rest, h1, h2, h3, h4⟩
    · obtain ⟨e, he, hw⟩ := hex2
      exact ⟨RequestConnection (checkedAndWatched env p this) this,
        [Call.RequestConnection this], by rw [heq, if_neg hr], rfl, rfl, e, he, hw⟩
  · intro hr hs
    obtain ⟨h0, p', rest, h1, _, _, _, h5, h6, h7⟩ := hready hr hs
    exact ⟨h0, p', h1, h5, h6, h7⟩
  · intro hr hs
    have hs2 : ¬ (checkedAndWatched env p this).selected_ ≠ some this := by
      rw [hsel2]; exact fun h => h hs
    exact ⟨by rw [heq, if_pos hr, if_neg hs2], hpubs2, hreq2⟩
  · intro hr
    refine ⟨_, by rw [heq, if_neg hr], rfl, ?_, ?_⟩
    · show connectionRequests ((checkedAndWatched env p this).calls ++
        [Call.RequestConnection this]) = _
      rw [connectionRequests_append, hreq2]; simp [connectionRequests]
    · show publications ((checkedAndWatched env p this).calls ++
        [Call.RequestConnection this]) = _
      rw [publications_append, hpubs2]; simp [publications]


/-- Witness for C22: entry C of the pending list `[B, C]`, not READY when read. -/
theorem C22_check_state_and_watch_witness :
    ∃ p', CheckConnectivityStateAndStartWatchingLocked (scenarioEnv []) scenarioHeld (1, 1) =
        some p' ∧
      p'.calls = (checkedAndWatched (scenarioEnv []) scenarioHeld (1, 1)).calls ++
        [Call.RequestConnection (1, 1)] ∧
      connectionRequests p'.calls = connectionRequests scenarioHeld.calls ++ [(1, 1)] ∧
      publications p'.calls = publications scenarioHeld.calls :=
  (C22_check_state_and_watch (scenarioEnv []) scenarioHeld (1, 1)
    { id := 1
      subchannels := [scenarioEntry 2 GRPC_CHANNEL_IDLE true,
        scenarioEntry 3 GRPC_CHANNEL_IDLE false]
      in_transient_failure_ := false }
    (scenarioEntry 3 GRPC_CHANNEL_IDLE false)
    (WF_of_Reachable _ Reachable_scenarioHeld) rfl rfl).2.2.2.2 (by decide)


/-- C23 (exhaustion flag on READY).  `update(Ok([A, B]))` with nothing READY, A
reports TRANSIENT_FAILURE, then B reports TRANSIENT_FAILURE while A is READY
again: the sweep wraps around, the flag `in_transient_failure_` is set and
TRANSIENT_FAILURE is published, and the state of A read before its watch is
started is READY, so A is selected and READY is published; the flag of the
current list stays set while `selected_` is set. -/
theorem C23_flag_survives_wrap_ready :
    ReachableWatched scenarioWrapReady ∧
    scenarioWrapReady.selected_ = some (0, 0) ∧
    scenarioWrapReady.selectedAddress = some 1 ∧
    scenarioWrapReady.subchannel_list_.map (fun L => L.in_transient_failure_) = some true ∧
    publications scenarioWrapReady.calls =
      [(GRPC_CHANNEL_TRANSIENT_FAILURE, UnavailableError "failed to connect to all addresses",
        SubchannelPicker.TransientFailurePicker
          (UnavailableError "failed to connect to all addresses")),
       (GRPC_CHANNEL_READY, OkStatus, SubchannelPicker.Picker 101)] :=
  ⟨ReachableWatched_scenarioWrapReady, by decide, by decide, by decide, by decide⟩


/-- C24 (at most one attempt per list).  In every state reachable from the fresh
policy with connectivity events delivered by watches, the current list and the
pending list each have at most one entry that carries a connectivity watch, and
when `selected_` points into the current list every watched entry of that list
is the selected one.  A failure (TRANSIENT_FAILURE or IDLE) reported by an
unselected entry `i` of a live list with `n` entries returns, and in its log the
watch of entry `i` is cancelled before the watch of entry `(i + 1) mod n` is
started, which is the only watch the callback starts. -/
theorem C24_at_most_one_watch (p : PickFirst) (h : ReachableWatched p) :
    (∀ L, p.subchannel_list_ = some L → L.watched.length ≤ 1) ∧
    (∀ P, p.latest_pending_subchannel_list_ = some P → P.watched.length ≤ 1) ∧
    (∀ L i, p.subchannel_list_ = some L → p.selected_ = some (L.id, i) →
      ∀ j ∈ L.watched, j = i) ∧
    (∀ (env : Env) (this : SubchannelDataRef) (st : grpc_connectivity_state)
      (L : PickFirstSubchannelList) (d : PickFirstSubchannelData),
      p.list this.1 = some L → L.subchannels[this.2]? = some d →
      p.selected_ ≠ some this →
      st = GRPC_CHANNEL_TRANSIENT_FAILURE ∨ st = GRPC_CHANNEL_IDLE →
      ∃ p' mid rest, ProcessConnectivityChangeLocked env p this st = some p' ∧
        p'.calls = p.calls ++
          [Call.CancelConnectivityWatchLocked this "connection attempt failed"] ++ mid ++
          [Call.CheckConnectivityStateLocked (this.1, (this.2 + 1) % L.num_subchannels),
           Call.StartConnectivityWatchLocked (this.1, (this.2 + 1) % L.num_subchannels)] ++
          rest ∧
        watchStarts mid = [] ∧ watchStarts rest = []) := by
  have hR := Reachable_of_ReachableWatched p h
  have hW := WatchInv_of_ReachableWatched p h
  refine ⟨?_, ?_, ?_, ?_⟩
  · intro L hL
    obtain ⟨i, hi⟩ := hW.1 L hL
    exact watched_length_le_one L i hi
  · intro P hP
    obtain ⟨i, hi⟩ := hW.2.1 P hP
    exact watched_length_le_one P i hi
  · intro L i hL hs
    exact watched_subset L i (hW.2.2 L i hL hs)
  · intro env this st L d hl hd hsel hst
    obtain ⟨p', h1, _, _, _, mid, rest, h2, h3, h4⟩ :=
      failure_inv env p this st L d (WF_of_Reachable p hR) hl hd hsel hst
        (PendingFresh_of_Reachable p hR)
    exact ⟨p', mid, rest, h1, h2, h3, h4⟩


/-- Witness for C24: A selected and watched, `[B, C]` pending with its watch on B. -/
theorem C24_at_most_one_watch_witness :
    (∀ L, scenarioHeld.subchannel_list_ = some L → L.watched.length ≤ 1) ∧
    (∀ P, scenarioHeld.latest_pending_subchannel_list_ = some P → P.watched.length ≤ 1) ∧
    (∀ L i, scenarioHeld.subchannel_list_ = some L → scenarioHeld.selected_ = some (L.id, i) →
      ∀ j ∈ L.watched, j = i) ∧
    (∀ (env : Env) (this : SubchannelDataRef) (st : grpc_connectivity_state)
      (L : PickFirstSubchannelList) (d : PickFirstSubchannelData),
      scenarioHeld.list this.1 = some L → L.subchannels[this.2]? = some d →
      scenarioHeld.selected_ ≠ some this →
      st = GRPC_CHANNEL_TRANSIENT_FAILURE ∨ st = GRPC_CHANNEL_IDLE →
      ∃ p' mid rest, ProcessConnectivityChangeLocked env scenarioHeld this st = some p' ∧
        p'.calls = scenarioHeld.calls ++
          [Call.CancelConnectivityWatchLocked this "connection attempt failed"] ++ mid ++
          [Call.CheckConnectivityStateLocked (this.1, (this.2 + 1) % L.num_subchannels),
           Call.StartConnectivityWatchLocked (this.1, (this.2 + 1) % L.num_subchannels)] ++
          rest ∧
        watchStarts mid = [] ∧ watchStarts rest = []) :=
  C24_at_most_one_watch scenarioHeld ReachableWatched_scenarioHeld


/-- C25 (a pending list is never exhausted).  In every reachable state a pending
list does not carry the flag `in_transient_failure_`; hence, when the selected
entry of the current list reports a state other than READY while a pending list
exists, the callback returns with the pending list promoted and its only
publication is `(CONNECTING, QueuePicker)`, not the TRANSIENT_FAILURE state of
pick_first.cc:333-339. -/
theorem C25_pending_never_exhausted (p : PickFirst) (P : PickFirstSubchannelList)
    (h : Reachable p) (hpend : p.latest_pending_subchannel_list_ = some P) :
    P.in_transient_failure_ = false ∧
    ∀ (env : Env) (C : PickFirstSubchannelList) (i : Nat) (d : PickFirstSubchannelData)
      (s : grpc_connectivity_state),
      p.subchannel_list_ = some C → p.selected_ = some (C.id, i) →
      C.subchannels[i]? = some d → s ≠ GRPC_CHANNEL_READY → s ≠ GRPC_CHANNEL_SHUTDOWN →
      ∃ p', ProcessConnectivityChangeLocked env p (C.id, i) s = some p' ∧
        p'.subchannel_list_ = some P ∧ p'.latest_pending_subchannel_list_ = none ∧
        publications p'.calls = publications p.calls ++
          [(GRPC_CHANNEL_CONNECTING, OkStatus, SubchannelPicker.QueuePicker)] := by
  have hflag := PendingFresh_of_Reachable p h P hpend
  refine ⟨hflag, ?_⟩
  intro env C i d s hcur hsel hd hs hs'
  obtain ⟨p', h1, h2, h3, _, h5⟩ := selected_lost_with_fresh_pending env p C P i d s
    (WF_of_Reachable p h) hcur hpend hflag hsel hd hs hs'
  exact ⟨p', h1, h2, h3, h5⟩


/-- Witness for C25: A selected, `[B, C]` pending. -/
theorem C25_pending_never_exhausted_witness :
    ({ id := 1
       subchannels := [scenarioEntry 2 GRPC_CHANNEL_IDLE true,
         scenarioEntry 3 GRPC_CHANNEL_IDLE false]
       in_transient_failure_ := false } : PickFirstSubchannelList).in_transient_failure_ =
      false ∧
    ∀ (env : Env) (C : PickFirstSubchannelList) (i : Nat) (d : PickFirstSubchannelData)
      (s : grpc_connectivity_state),
      scenarioHeld.subchannel_list_ = some C → scenarioHeld.selected_ = some (C.id, i) →
      C.subchannels[i]? = some d → s ≠ GRPC_CHANNEL_READY → s ≠ GRPC_CHANNEL_SHUTDOWN →
      ∃ p', ProcessConnectivityChangeLocked env scenarioHeld (C.id, i) s = some p' ∧
        p'.subchannel_list_ = some
          { id := 1
            subchannels := [scenarioEntry 2 GRPC_CHANNEL_IDLE true,
              scenarioEntry 3 GRPC_CHANNEL_IDLE false]
            in_transient_failure_ := false } ∧
        p'.latest_pending_subchannel_list_ = none ∧
        publications p'.calls = publications scenarioHeld.calls ++
          [(GRPC_CHANNEL_CONNECTING, OkStatus, SubchannelPicker.QueuePicker)] :=
  C25_pending_never_exhausted scenarioHeld _ Reachable_scenarioHeld rfl


/-- C26 (sweep indexing is safe).  For an entry `this` at index `i` of a live list
with `n` entries in a reachable state: `n` is not zero, the next sweep index
`(i + 1) mod n` is below `n` and names an entry of the list, and it is 0 exactly
when `i = n - 1`; a failure reported by the entry (when it is not the selected
one) returns, so no access is out of range.  Connection planning on an empty
new list returns having logged nothing but one `UpdateState` (no entry is
touched), and on a non-empty new list it returns and entry 0 exists. -/
theorem C26_sweep_indexing_safe (env : Env) (p : PickFirst) (this : SubchannelDataRef)
    (L : PickFirstSubchannelList) (d : PickFirstSubchannelData)
    (h : Reachable p) (hl : p.list this.1 = some L) (hd : L.subchannel this.2 = some d) :
    L.num_subchannels ≠ 0 ∧
    (this.2 + 1) % L.num_subchannels < L.num_subchannels ∧
    ((this.2 + 1) % L.num_subchannels = 0 ↔ this.2 = L.num_subchannels - 1) ∧
    (∃ e, L.subchannel ((this.2 + 1) % L.num_subchannels) = some e) ∧
    (∀ st, p.selected_ ≠ some this →
      st = GRPC_CHANNEL_TRANSIENT_FAILURE ∨ st = GRPC_CHANNEL_IDLE →
      ∃ p', ProcessConnectivityChangeLocked env p this st = some p') ∧
    ((p.newSubchannelList env).num_subchannels = 0 →
      ∃ p' status, p.AttemptToConnectUsingLatestUpdateArgsLocked env = some p' ∧
        p'.calls = p.calls ++ [Call.UpdateState GRPC_CHANNEL_TRANSIENT_FAILURE status
          (SubchannelPicker.TransientFailurePicker status)]) ∧
    ((p.newSubchannelList env).num_subchannels ≠ 0 →
      (∃ e, (p.newSubchannelList env).subchannel 0 = some e) ∧
      ∃ p', p.AttemptToConnectUsingLatestUpdateArgsLocked env = some p') := by
  have hd' : L.subchannels[this.2]? = some d := hd
  obtain ⟨h1, h2, h3, h4⟩ := next_entry L this.2 d hd'
  have hwf := WF_of_Reachable p h
  refine ⟨h1, h2, ?_, h4, ?_, ?_, ?_⟩
  · rw [h3]
    have : 0 < L.num_subchannels := Nat.pos_of_ne_zero h1
    omega
  · intro st hsel hst
    obtain ⟨p', hp', _⟩ := failure_inv env p this st L d hwf hl hd' hsel hst
      (PendingFresh_of_Reachable p h)
    exact ⟨p', hp'⟩
  · intro he
    exact ⟨_, _, attempt_empty env p he, rfl⟩
  · intro hne
    refine ⟨?_, ?_⟩
    · exact getElem?_of_lt _ 0 (Nat.pos_of_ne_zero hne)
    · obtain ⟨p', hp', _⟩ := attempt_total env p (fresh_of_WF p hwf).1
      exact ⟨p', hp'⟩


/-- Witness for C26: entry C (index 1, the last one) of the pending list `[B, C]`. -/
theorem C26_sweep_indexing_safe_witness :
    (2 : Nat) ≠ 0 ∧ (1 + 1) % 2 < 2 ∧ ((1 + 1) % 2 = 0 ↔ 1 = 2 - 1) ∧
    (∃ e, PickFirstSubchannelList.subchannel
      { id := 1
        subchannels := [scenarioEntry 2 GRPC_CHANNEL_IDLE true,
          scenarioEntry 3 GRPC_CHANNEL_IDLE false]
        in_transient_failure_ := false } ((1 + 1) % 2) = some e) ∧
    (∀ st, scenarioHeld.selected_ ≠ some (1, 1) →
      st = GRPC_CHANNEL_TRANSIENT_FAILURE ∨ st = GRPC_CHANNEL_IDLE →
      ∃ p', ProcessConnectivityChangeLocked (scenarioEnv []) scenarioHeld (1, 1) st = some p') ∧
    ((scenarioHeld.newSubchannelList (scenarioEnv [])).num_subchannels = 0 →
      ∃ p' status,
        scenarioHeld.AttemptToConnectUsingLatestUpdateArgsLocked (scenarioEnv []) = some p' ∧
        p'.calls = scenarioHeld.calls ++ [Call.UpdateState GRPC_CHANNEL_TRANSIENT_FAILURE status
          (SubchannelPicker.TransientFailurePicker status)]) ∧
    ((scenarioHeld.newSubchannelList (scenarioEnv [])).num_subchannels ≠ 0 →
      (∃ e, (scenarioHeld.newSubchannelList (scenarioEnv [])).subchannel 0 = some e) ∧
      ∃ p', scenarioHeld.AttemptToConnectUsingLatestUpdateArgsLocked (scenarioEnv []) =
        some p') :=
  C26_sweep_indexing_safe (scenarioEnv []) scenarioHeld (1, 1)
    { id := 1
      subchannels := [scenarioEntry 2 GRPC_CHANNEL_IDLE true,
        scenarioEntry 3 GRPC_CHANNEL_IDLE false]
      in_transient_failure_ := false }
    (scenarioEntry 3 GRPC_CHANNEL_IDLE false) Reachable_scenarioHeld rfl rfl


/-- C27 (HPACK lookup in bounds), amended.  For 32-bit unsigned values
`kLastStaticEntry` and `index`: when `1 ≤ index ≤ kLastStaticEntry`, `Lookup`
reads slot `index - 1` of the static array and that slot is below the size of
the array, `kLastStaticEntry`; when `index > kLastStaticEntry`, `Lookup` is the
dynamic lookup at the offset `tbl_index` with `tbl_index + (kLastStaticEntry +
1) = index`, so the 32-bit subtraction does not wrap around. -/
theorem C27_lookup_in_bounds (kLastStaticEntry index : Nat)
    (hk : kLastStaticEntry < 2 ^ 32) (hi : index < 2 ^ 32) :
    (1 ≤ index → index ≤ kLastStaticEntry →
      HPackTable.Lookup kLastStaticEntry index = HPackTable.Access.staticEntry (index - 1) ∧
      index - 1 < HPackTable.StaticMementos.size kLastStaticEntry) ∧
    (kLastStaticEntry < index →
      ∃ tbl_index, HPackTable.Lookup kLastStaticEntry index =
          HPackTable.Access.dynamicEntry tbl_index ∧
        tbl_index + (kLastStaticEntry + 1) = index) := by
  constructor
  · intro h1 h2
    have hs : uint32_sub index 1 = index - 1 := by
      unfold uint32_sub
      norm_num at hi ⊢
      omega
    refine ⟨?_, ?_⟩
    · simp [HPackTable.Lookup, h2, hs]
    · unfold HPackTable.StaticMementos.size
      omega
  · intro h
    have hnot : ¬ index ≤ kLastStaticEntry := Nat.not_le.mpr h
    refine ⟨uint32_sub index (uint32_add kLastStaticEntry 1), ?_, ?_⟩
    · simp [HPackTable.Lookup, HPackTable.LookupDynamic, hnot]
    · unfold uint32_sub uint32_add
      norm_num at hi hk ⊢
      omega


/-- Witness for C27: a static table of 61 entries and index 2. -/
theorem C27_lookup_in_bounds_witness :
    (1 ≤ 2 → 2 ≤ 61 →
      HPackTable.Lookup 61 2 = HPackTable.Access.staticEntry (2 - 1) ∧
      2 - 1 < HPackTable.StaticMementos.size 61) ∧
    (61 < 2 →
      ∃ tbl_index, HPackTable.Lookup 61 2 = HPackTable.Access.dynamicEntry tbl_index ∧
        tbl_index + (61 + 1) = 2) :=
  C27_lookup_in_bounds 61 2 (by norm_num) (by norm_num)


/-- Counterexample for C27 as stated: index 0 satisfies `index ≤ kLastStaticEntry`,
and the slot read, `0 - 1` in 32-bit unsigned arithmetic, is 4294967295, which
is not below the size of the static array (61 entries). -/
theorem C27_counterexample :
    (0 : Nat) ≤ 61 ∧
    HPackTable.Lookup 61 0 = HPackTable.Access.staticEntry 4294967295 ∧
    ¬ (4294967295 < HPackTable.StaticMementos.size 61) := by
  decide


end PickFirstModel
